import Mathlib

/-!
# ContentCreator: the prompt analyzer and template synthesizer of `script.js`

A shallow embedding of `analyzePrompt` (script.js, lines 671-720), of the four text
generators (lines 723-1048), of their caller `generateAIText` (lines 643-668), of the
display transformation of `displayGeneratedText` (line 1661) and of the two click handlers
`handleTextGenerateClick` (lines 607-637) and `handleGenerateClick` (lines 134-184).

JavaScript strings are modelled by Lean `String`s (sequences of Unicode scalar
values).  Two JavaScript primitives are embedded explicitly:

* `s.length` counts UTF-16 code units, so a character outside the basic
  multilingual plane counts twice (`jsLength`);
* `s.includes(k)` is substring containment (`includes`); on well-formed strings
  containment of code-unit sequences and of scalar-value sequences coincide.

Further conventions:

* `String.prototype.toLowerCase` depends on the Unicode case tables of the platform; it
  is a parameter `toLowerCase : String → String` of `generateAIText`, and every theorem
  holds for whatever function is supplied.  Facts about it that a statement needs are
  explicit hypotheses.  `asciiToLowerCase` is its restriction to ASCII text, used at
  concrete inputs.
* A property read `templates[key]` also finds the members an object literal inherits
  from `Object.prototype`.  The generators therefore return `Option String`, where `none`
  stands for a value that is not a string.  No category of the data model names such a
  member, and `analyzePrompt` never produces one (`analyzePrompt_category_not_inherited`).
* The promise returned by `generateAIText` resolves, after a fixed delay, to the value
  computed before the delay; the embedding is that value.
* The ambient variables of lines 18-22 are the fields of `AppState`.  An `async` handler
  is cut at its `await` into the part before and the part after; `step` and `runEvents`
  interleave these parts with the other events of the page and keep the list of
  requests whose promise has not settled.
* The object `CONFIG` comes from `config.js`; what the handler reads of it is the
  parameter `Config`, which no statement of script.js assigns.
* Which variables a function reads and assigns is a property of its text, which a Lean
  function does not show.  The bodies of `analyzePrompt`, of the four generators and of
  `generateAIText` are therefore given a second time, as syntax trees with every
  identifier by name (`analyzePromptDef`, ..., `generateAITextDef`), together with an
  evaluator (`eval`, `exec`, `runFun`) that resolves an identifier in the local scope
  first and among the ambient variables after that.  The theorems `run_analyzePrompt`,
  ..., `run_generateAIText` relate the two embeddings: running a syntax tree in any
  ambient state returns the value of the Lean function and the state unchanged.
-/

namespace ContentCreator

/-! ## JavaScript string primitives -/

/-- Number of UTF-16 code units that encode one character. -/
def utf16Units (c : Char) : Nat :=
  if c.val.toNat < 65536 then 1 else 2

/-- The JavaScript `length` of a character sequence: its number of UTF-16 code units. -/
def jsLengthChars : List Char → Nat
  | [] => 0
  | c :: cs => utf16Units c + jsLengthChars cs

/-- The JavaScript `s.length`. -/
def jsLength (s : String) : Nat :=
  jsLengthChars s.data

/-- Does `needle` occur in `hay` starting at some position?  The scan moves the start
position from left to right, as `String.prototype.includes` does. -/
def includesChars (needle : List Char) : List Char → Bool
  | [] => needle.isEmpty
  | c :: cs => needle.isPrefixOf (c :: cs) || includesChars needle cs

/-- The JavaScript `s.includes(k)`. -/
def includes (s k : String) : Bool :=
  includesChars k.data s.data

/-- The JavaScript `a || b` on a possibly undefined string `a` (an out-of-range array
read gives `undefined`): `undefined` and the empty string are falsy. -/
def orElse (a : Option String) (b : String) : String :=
  match a with
  | none => b
  | some s => if s = "" then b else s

/-- The JavaScript `str.split(' ')` on a character sequence; `cur` holds the characters
of the current piece, in reverse. -/
def splitSpaceAux : List Char → List Char → List String
  | [], cur => [String.mk cur.reverse]
  | c :: cs, cur =>
    if c = ' ' then String.mk cur.reverse :: splitSpaceAux cs []
    else splitSpaceAux cs (c :: cur)

/-- The JavaScript `s.split(' ')`. -/
def splitSpace (s : String) : List String :=
  splitSpaceAux s.data []

/-! ## The analysis record -/

/-- The object literal built by `analyzePrompt` (script.js, lines 672-678). -/
structure PromptAnalysis where
  topic : String
  category : String
  keywords : List String
  complexity : String
  tone : String
  deriving DecidableEq, Repr

/-- The `categories` table of `analyzePrompt` (lines 684-690), in insertion order, which
is the order `Object.entries` enumerates. -/
def categories : List (String × List String) :=
  [ ("technology", ["app", "website", "software", "program", "code", "system",
      "platform", "database", "api", "algorithm"]),
    ("business", ["business", "company", "startup", "marketing", "strategy", "plan",
      "project", "team", "product", "service"]),
    ("creative", ["story", "poem", "art", "design", "creative", "imagination",
      "fantasy", "adventure", "character", "world"]),
    ("education", ["learning", "study", "education", "course", "lesson", "tutorial",
      "guide", "explanation", "concept", "theory"]),
    ("lifestyle", ["health", "fitness", "cooking", "travel", "fashion", "beauty",
      "home", "garden", "hobby", "sport"]) ]

/-- The stop-word array of the keyword filter (line 702). -/
def stopWords : List String :=
  ["what", "how", "why", "when", "where", "this", "that", "with", "from", "into",
   "during", "before", "after", "above", "below"]

/-- The loop of lines 692-697: walk the table in order, assign the first category one of
whose keywords the prompt includes and stop; `current` is the value of
`analysis.category` on entry, kept when the loop ends without a match. -/
def categorize (prompt : String) : List (String × List String) → String → String
  | [], current => current
  | (category, keywords) :: rest, current =>
    if keywords.any (fun keyword => includes prompt keyword) then category
    else categorize prompt rest current

/-- The callback of the keyword filter (lines 700-703). -/
def isKeyword (word : String) : Bool :=
  decide (jsLength word > 3) && !(stopWords.contains word)

/-- The function `analyzePrompt(prompt, words)` of script.js (lines 671-720). -/
def analyzePrompt (prompt : String) (words : List String) : PromptAnalysis :=
  let analysis : PromptAnalysis :=
    { topic := "", category := "", keywords := [], complexity := "medium", tone := "neutral" }
  let analysis := { analysis with topic := orElse words.head? "topic" }
  let analysis := { analysis with category := categorize prompt categories analysis.category }
  let analysis := { analysis with keywords := (words.filter isKeyword).take 5 }
  let analysis :=
    if words.length > 10 || includes prompt "advanced" || includes prompt "complex" then
      { analysis with complexity := "high" }
    else if words.length < 5 then
      { analysis with complexity := "low" }
    else analysis
  let analysis :=
    if includes prompt "fun" || includes prompt "creative" || includes prompt "exciting" then
      { analysis with tone := "enthusiastic" }
    else if includes prompt "serious" || includes prompt "professional"
        || includes prompt "formal" then
      { analysis with tone := "formal" }
    else analysis
  analysis

/-- The token list `generateAIText` derives from the cleaned prompt (line 646):
`cleanPrompt.split(' ').filter(word => word.length > 2)`. -/
def tokenize (cleanPrompt : String) : List String :=
  (splitSpace cleanPrompt).filter (fun word => decide (jsLength word > 2))

/-! ## Template literals

A template literal is embedded as the list of its pieces, in source order: the literal
text between substitutions (cut after every line break, one source line per piece) and
the substitution expressions that occur in the four generators.  Its value is the
concatenation of the texts of its pieces. -/

/-- The JavaScript `xs.join(sep)` on an array of strings. -/
def joinWith (sep : String) : List String → String
  | [] => ""
  | [x] => x
  | x :: y :: rest => x ++ sep ++ joinWith sep (y :: rest)

/-- One piece of a template literal of the generators. -/
inductive Piece where
  /-- Literal text. -/
  | lit (s : String)
  /-- `${prompt}` -/
  | prompt
  /-- `${analysis.topic}` -/
  | topic
  /-- `${analysis.keywords.join(', ')}` -/
  | keywords
  /-- `${analysis.keywords.slice(0, 3).join(', ')}` -/
  | firstKeywords
  /-- `${analysis.complexity === 'high' ? yes : no}` -/
  | ifHigh (yes no : String)
  deriving DecidableEq, Repr

/-- The text one piece contributes. -/
def Piece.text (prompt : String) (analysis : PromptAnalysis) : Piece → String
  | .lit s => s
  | .prompt => prompt
  | .topic => analysis.topic
  | .keywords => joinWith ", " analysis.keywords
  | .firstKeywords => joinWith ", " (analysis.keywords.take 3)
  | .ifHigh yes no => if analysis.complexity = "high" then yes else no

/-- The value of a template literal. -/
def render (prompt : String) (analysis : PromptAnalysis) : List Piece → String
  | [] => ""
  | piece :: rest => piece.text prompt analysis ++ render prompt analysis rest

/-- The `technology` entry of `creativeTemplates` (script.js, line 725), as the pieces of its
template literal. -/
def creativeTechnology : List Piece :=
  [ .lit "🚀 **Creative Tech Vision: ",
    .prompt,
    .lit "**\n",
    .lit "\n",
    .lit "Imagine a world where ",
    .topic,
    .lit " isn't just a concept—it's a living, breathing digital ecosystem that transforms how we interact with technology.\n",
    .lit "\n",
    .lit "**The Vision:**\n",
    .lit "Picture ",
    .prompt,
    .lit " as a canvas where innovation meets imagination. It's not about building another ",
    .topic,
    .lit " system; it's about creating an experience that feels like magic in your hands.\n",
    .lit "\n",
    .lit "**The Creative Journey:**\n",
    .lit "Every line of code, every pixel, every interaction becomes a brushstroke on this digital masterpiece. ",
    .keywords,
    .lit " aren't just features—they're the colors that bring your vision to life.\n",
    .lit "\n",
    .lit "**The Magic:**\n",
    .lit "What makes this ",
    .topic,
    .lit " special is how it makes the complex feel simple, the ordinary feel extraordinary. It's like having a conversation with the future, where every click reveals a new possibility.\n",
    .lit "\n",
    .lit "**The Promise:**\n",
    .lit "This isn't just about ",
    .prompt,
    .lit "—it's about unlocking the creative potential that lives inside every developer, designer, and dreamer who dares to imagine what could be.\n",
    .lit "\n",
    .lit "Let your creativity flow and watch as ",
    .prompt,
    .lit " becomes more than words on a screen—it becomes a gateway to infinite possibilities. ✨" ]

/-- The `business` entry of `creativeTemplates` (script.js, line 743), as the pieces of its
template literal. -/
def creativeBusiness : List Piece :=
  [ .lit "💼 **Creative Business Innovation: ",
    .prompt,
    .lit "**\n",
    .lit "\n",
    .lit "In the dynamic world of business, ",
    .prompt,
    .lit " represents more than just another strategy—it's a creative revolution waiting to happen.\n",
    .lit "\n",
    .lit "**The Creative Opportunity:**\n",
    .lit "Think of ",
    .topic,
    .lit " as a blank canvas where traditional business thinking meets innovative creativity. It's not about following the same old playbook; it's about rewriting the rules of success.\n",
    .lit "\n",
    .lit "**The Innovation Journey:**\n",
    .lit "Every decision, every strategy, every customer interaction becomes an opportunity to create something extraordinary. ",
    .keywords,
    .lit " aren't just business elements—they're the building blocks of a new business paradigm.\n",
    .lit "\n",
    .lit "**The Creative Edge:**\n",
    .lit "What sets this ",
    .topic,
    .lit " apart is its ability to turn challenges into opportunities, problems into solutions, and ideas into reality. It's like having a creative compass that always points toward innovation.\n",
    .lit "\n",
    .lit "**The Vision:**\n",
    .lit "This isn't just about ",
    .prompt,
    .lit "—it's about creating a business ecosystem where creativity drives growth, innovation fuels success, and imagination becomes your competitive advantage.\n",
    .lit "\n",
    .lit "Embrace the creative spirit and watch as ",
    .prompt,
    .lit " transforms from a business concept into a creative masterpiece that inspires and innovates. 🎨" ]

/-- The `creative` entry of `creativeTemplates` (script.js, line 761), as the pieces of its
template literal. -/
def creativeCreative : List Piece :=
  [ .lit "🎭 **Creative Expression: ",
    .prompt,
    .lit "**\n",
    .lit "\n",
    .lit "Welcome to the realm of pure creativity, where ",
    .prompt,
    .lit " becomes a gateway to infinite artistic possibilities and boundless imagination.\n",
    .lit "\n",
    .lit "**The Creative Canvas:**\n",
    .topic,
    .lit " isn't just a subject—it's a universe of creative potential waiting to be explored. Every word, every image, every moment becomes a brushstroke on the canvas of your imagination.\n",
    .lit "\n",
    .lit "**The Artistic Journey:**\n",
    .lit "Picture ",
    .prompt,
    .lit " as a story that writes itself, a painting that paints itself, a song that sings itself. ",
    .keywords,
    .lit " aren't just elements—they're the colors, sounds, and textures that bring your creative vision to life.\n",
    .lit "\n",
    .lit "**The Magic of Creation:**\n",
    .lit "What makes this ",
    .topic,
    .lit " extraordinary is how it transforms the ordinary into the extraordinary, the mundane into the magical. It's like having a creative genie that grants unlimited wishes for artistic expression.\n",
    .lit "\n",
    .lit "**The Creative Promise:**\n",
    .lit "This isn't just about ",
    .prompt,
    .lit "—it's about unlocking the creative genius that lives inside every artist, writer, musician, and dreamer who dares to imagine the impossible.\n",
    .lit "\n",
    .lit "Let your imagination soar and watch as ",
    .prompt,
    .lit " becomes a masterpiece of creative expression that inspires and delights. 🌟" ]

/-- The `default` entry of `creativeTemplates` (script.js, line 779), as the pieces of its
template literal. -/
def creativeDefault : List Piece :=
  [ .lit "✨ **Creative Exploration: ",
    .prompt,
    .lit "**\n",
    .lit "\n",
    .lit "Step into a world where ",
    .prompt,
    .lit " becomes more than words—it becomes a journey of creative discovery and boundless imagination.\n",
    .lit "\n",
    .lit "**The Creative Adventure:**\n",
    .topic,
    .lit " isn't just a topic; it's a doorway to infinite possibilities. Every aspect, every detail, every nuance becomes an opportunity to explore, create, and innovate.\n",
    .lit "\n",
    .lit "**The Imagination Journey:**\n",
    .lit "Picture ",
    .prompt,
    .lit " as a canvas where your thoughts become reality, your ideas become art, and your dreams become tangible. ",
    .keywords,
    .lit " aren't just concepts—they're the building blocks of creative expression.\n",
    .lit "\n",
    .lit "**The Creative Magic:**\n",
    .lit "What makes this ",
    .topic,
    .lit " special is how it transforms the ordinary into the extraordinary. It's like having a creative key that unlocks doors to worlds you never knew existed.\n",
    .lit "\n",
    .lit "**The Creative Promise:**\n",
    .lit "This isn't just about ",
    .prompt,
    .lit "—it's about discovering the creative potential that lives within you, waiting to be unleashed and expressed in ways that inspire and amaze.\n",
    .lit "\n",
    .lit "Embrace your creative spirit and watch as ",
    .prompt,
    .lit " becomes a masterpiece of imagination and innovation. 🎨" ]

/-- The `technology` entry of `professionalTemplates` (script.js, line 804), as the pieces of its
template literal. -/
def professionalTechnology : List Piece :=
  [ .lit "🔧 **Professional Technical Analysis: ",
    .prompt,
    .lit "**\n",
    .lit "\n",
    .lit "**Executive Summary:**\n",
    .lit "This comprehensive technical analysis examines the implementation and strategic implications of ",
    .prompt,
    .lit " within modern technology ecosystems. The analysis provides actionable insights for technical teams, product managers, and stakeholders.\n",
    .lit "\n",
    .lit "**Technical Assessment:**\n",
    .lit "• **Architecture Considerations**: ",
    .topic,
    .lit " requires a robust, scalable architecture that can handle ",
    .ifHigh "complex, enterprise-level" "standard",
    .lit " requirements\n",
    .lit "• **Technology Stack**: Recommended implementation using modern frameworks and best practices\n",
    .lit "• **Performance Metrics**: Key performance indicators and optimization strategies for ",
    .topic,
    .lit "\n",
    .lit "\n",
    .lit "**Implementation Strategy:**\n",
    .lit "1. **Phase 1**: Technical requirements gathering and architecture design\n",
    .lit "2. **Phase 2**: Core development and integration testing\n",
    .lit "3. **Phase 3**: Performance optimization and security hardening\n",
    .lit "4. **Phase 4**: Deployment and monitoring implementation\n",
    .lit "\n",
    .lit "**Risk Assessment:**\n",
    .lit "• Technical complexity: ",
    .ifHigh "High - Requires specialized expertise" "Medium - Standard development practices",
    .lit "\n",
    .lit "• Timeline: Estimated ",
    .ifHigh "6-12 months" "3-6 months",
    .lit " for full implementation\n",
    .lit "• Resource requirements: ",
    .ifHigh "Senior development team with specialized skills" "Standard development team",
    .lit "\n",
    .lit "\n",
    .lit "**Recommendations:**\n",
    .lit "• Implement agile development methodology for iterative delivery\n",
    .lit "• Establish comprehensive testing protocols and quality assurance measures\n",
    .lit "• Develop detailed documentation and knowledge transfer processes\n",
    .lit "• Create monitoring and maintenance procedures for long-term success\n",
    .lit "\n",
    .lit "**Next Steps:**\n",
    .lit "• Schedule technical review meeting within 2 weeks\n",
    .lit "• Begin requirements gathering and stakeholder interviews\n",
    .lit "• Develop detailed project timeline and resource allocation plan\n",
    .lit "• Establish success metrics and evaluation criteria" ]

/-- The `business` entry of `professionalTemplates` (script.js, line 837), as the pieces of its
template literal. -/
def professionalBusiness : List Piece :=
  [ .lit "📊 **Professional Business Analysis: ",
    .prompt,
    .lit "**\n",
    .lit "\n",
    .lit "**Executive Summary:**\n",
    .lit "This comprehensive business analysis examines the strategic implications and market opportunities presented by ",
    .prompt,
    .lit ". The analysis provides actionable insights for business leaders, stakeholders, and implementation teams.\n",
    .lit "\n",
    .lit "**Market Analysis:**\n",
    .lit "• **Market Opportunity**: ",
    .topic,
    .lit " represents a significant growth opportunity in the current business landscape\n",
    .lit "• **Competitive Landscape**: Analysis of existing solutions and market positioning opportunities\n",
    .lit "• **Target Audience**: Identification of key customer segments and market demographics\n",
    .lit "\n",
    .lit "**Strategic Framework:**\n",
    .lit "1. **Market Positioning**: Develop unique value proposition and competitive differentiation\n",
    .lit "2. **Go-to-Market Strategy**: Create comprehensive launch and growth strategy\n",
    .lit "3. **Resource Allocation**: Determine optimal investment and resource distribution\n",
    .lit "4. **Risk Management**: Identify and mitigate potential business and market risks\n",
    .lit "\n",
    .lit "**Financial Considerations:**\n",
    .lit "• Investment requirements: ",
    .ifHigh "Significant capital investment required" "Moderate investment with potential for rapid ROI",
    .lit "\n",
    .lit "• Revenue projections: Conservative and optimistic scenarios for market penetration\n",
    .lit "• Break-even analysis: Timeline for achieving profitability and positive cash flow\n",
    .lit "\n",
    .lit "**Implementation Roadmap:**\n",
    .lit "• **Q1**: Market research and strategy development\n",
    .lit "• **Q2**: Pilot program and initial market testing\n",
    .lit "• **Q3**: Full market launch and growth acceleration\n",
    .lit "• **Q4**: Performance evaluation and strategy refinement\n",
    .lit "\n",
    .lit "**Success Metrics:**\n",
    .lit "• Market penetration and customer acquisition rates\n",
    .lit "• Revenue growth and profitability metrics\n",
    .lit "• Customer satisfaction and retention rates\n",
    .lit "• Operational efficiency and cost optimization" ]

/-- The `default` entry of `professionalTemplates` (script.js, line 870), as the pieces of its
template literal. -/
def professionalDefault : List Piece :=
  [ .lit "📋 **Professional Analysis: ",
    .prompt,
    .lit "**\n",
    .lit "\n",
    .lit "**Executive Summary:**\n",
    .lit "This comprehensive analysis examines the strategic importance and implementation requirements of ",
    .prompt,
    .lit " from multiple professional perspectives. The analysis provides actionable insights and strategic recommendations for stakeholders across various industries.\n",
    .lit "\n",
    .lit "**Strategic Assessment:**\n",
    .lit "• **Business Impact**: ",
    .topic,
    .lit " represents a significant opportunity for strategic development and market positioning\n",
    .lit "• **Implementation Complexity**: ",
    .ifHigh "High complexity requiring specialized expertise and significant resources" "Medium complexity with standard implementation approaches",
    .lit "\n",
    .lit "• **Market Potential**: Strong potential for growth and innovation in this area\n",
    .lit "\n",
    .lit "**Key Findings:**\n",
    .lit "• Current market analysis indicates strong potential for growth and innovation\n",
    .lit "• Stakeholder engagement and cross-functional collaboration are essential for successful implementation\n",
    .lit "• Risk assessment reveals manageable challenges with proper planning and execution\n",
    .lit "\n",
    .lit "**Strategic Recommendations:**\n",
    .lit "1. Conduct thorough market research to identify key opportunities and competitive advantages\n",
    .lit "2. Develop a comprehensive implementation roadmap with clear milestones and success metrics\n",
    .lit "3. Establish cross-departmental teams to ensure alignment and effective execution\n",
    .lit "4. Implement robust monitoring and evaluation frameworks to track progress and outcomes\n",
    .lit "\n",
    .lit "**Implementation Timeline:**\n",
    .lit "• **Phase 1** (Months 1-2): Research and planning\n",
    .lit "• **Phase 2** (Months 3-6): Development and testing\n",
    .lit "• **Phase 3** (Months 7-8): Launch and initial evaluation\n",
    .lit "• **Phase 4** (Months 9-12): Optimization and scaling\n",
    .lit "\n",
    .lit "**Next Steps:**\n",
    .lit "• Schedule stakeholder review meetings within the next 2 weeks\n",
    .lit "• Begin preliminary research and data collection phase\n",
    .lit "• Develop detailed project timeline and resource allocation plan\n",
    .lit "• Establish success metrics and evaluation criteria\n",
    .lit "\n",
    .lit "This analysis demonstrates the strategic importance of ",
    .prompt,
    .lit " and provides a foundation for informed decision-making and successful project execution." ]

/-- The `technology` entry of `casualTemplates` (script.js, line 912), as the pieces of its
template literal. -/
def casualTechnology : List Piece :=
  [ .lit "😊 **Hey there, tech enthusiast!**\n",
    .lit "\n",
    .lit "So you're interested in ",
    .prompt,
    .lit "? That's awesome! Let me break this down in a way that's actually useful and not super technical.\n",
    .lit "\n",
    .lit "**What's the deal with ",
    .topic,
    .lit "?**\n",
    .topic,
    .lit " is one of those things that seems super complicated at first, but once you get the hang of it, it's actually pretty cool. Think of it like learning to ride a bike - scary at first, but totally doable!\n",
    .lit "\n",
    .lit "**Here's what you need to know:**\n",
    .lit "• ",
    .firstKeywords,
    .lit " are the main things you'll be working with\n",
    .lit "• It's not as hard as it looks - promise!\n",
    .lit "• There are tons of resources out there to help you learn\n",
    .lit "\n",
    .lit "**The cool part:**\n",
    .lit "What makes ",
    .topic,
    .lit " interesting is how it can solve real problems. It's like having a superpower that lets you build things that actually help people. Pretty neat, right?\n",
    .lit "\n",
    .lit "**My advice:**\n",
    .lit "Start small, don't get overwhelmed, and remember that every expert was once a beginner. ",
    .prompt,
    .lit " might seem like a lot right now, but you've got this! \n",
    .lit "\n",
    .lit "Feel free to ask questions - there's no such thing as a stupid question when you're learning something new. 😄" ]

/-- The `business` entry of `casualTemplates` (script.js, line 932), as the pieces of its
template literal. -/
def casualBusiness : List Piece :=
  [ .lit "💼 **Hey business-minded friend!**\n",
    .lit "\n",
    .lit "So you want to know about ",
    .prompt,
    .lit "? That's a smart move! Let me give you the lowdown without all the corporate jargon.\n",
    .lit "\n",
    .lit "**What's ",
    .topic,
    .lit " all about?**\n",
    .topic,
    .lit " is basically about making smart decisions that help your business grow. It's like having a roadmap that shows you where you want to go and how to get there.\n",
    .lit "\n",
    .lit "**The key things to remember:**\n",
    .lit "• ",
    .firstKeywords,
    .lit " are your main focus areas\n",
    .lit "• It's about planning ahead, not just reacting to problems\n",
    .lit "• You don't need to be a business expert to get started\n",
    .lit "\n",
    .lit "**Why it matters:**\n",
    .lit "Think of ",
    .topic,
    .lit " as your business GPS. Without it, you're just driving around hoping to find your destination. With it, you have a clear path to success.\n",
    .lit "\n",
    .lit "**The bottom line:**\n",
    .prompt,
    .lit " isn't rocket science - it's about being smart, planning ahead, and making good decisions. Start with the basics, build from there, and don't be afraid to ask for help.\n",
    .lit "\n",
    .lit "You've got this! Business success is totally within your reach. 🚀" ]

/-- The `default` entry of `casualTemplates` (script.js, line 952), as the pieces of its
template literal. -/
def casualDefault : List Piece :=
  [ .lit "😊 **Hey there!**\n",
    .lit "\n",
    .lit "So you want to know about ",
    .prompt,
    .lit "? That's awesome! Let me break it down for you in a way that's easy to understand and actually useful.\n",
    .lit "\n",
    .lit "**First off, what is ",
    .topic,
    .lit "?**\n",
    .topic,
    .lit " is pretty interesting when you think about it. It's one of those things that seems simple at first, but the more you dig into it, the more fascinating it becomes. You know what I mean?\n",
    .lit "\n",
    .lit "**Here's the thing:**\n",
    .prompt,
    .lit " isn't just about what it is on the surface. It's about how it connects to other things, how it affects people's lives, and why it matters in the grand scheme of things. Pretty cool, right?\n",
    .lit "\n",
    .lit "**What makes it special:**\n",
    .lit "I think what makes ",
    .topic,
    .lit " special is that it's relatable. Whether you're a beginner or an expert, there's always something new to discover about it. It's like having a conversation with an old friend who always has something interesting to share.\n",
    .lit "\n",
    .lit "**My take:**\n",
    .prompt,
    .lit " is worth learning about because it opens up new possibilities and helps you understand the world better. Plus, it's actually pretty fun once you get into it!\n",
    .lit "\n",
    .lit "Hope this gives you a good starting point! Let me know if you want me to dive deeper into any specific aspect of ",
    .prompt,
    .lit ". There's always more to explore! 😄" ]

/-- The `technology` entry of `academicTemplates` (script.js, line 977), as the pieces of its
template literal. -/
def academicTechnology : List Piece :=
  [ .lit "🎓 **Academic Research: ",
    .prompt,
    .lit "**\n",
    .lit "\n",
    .lit "**Abstract:**\n",
    .lit "This scholarly investigation examines the theoretical foundations and practical applications of ",
    .prompt,
    .lit " within the context of modern technology and computer science. The research employs rigorous academic methodologies to provide comprehensive insights into the conceptual frameworks and implementation strategies of this technological domain.\n",
    .lit "\n",
    .lit "**Literature Review:**\n",
    .lit "The existing body of knowledge on ",
    .topic,
    .lit " reveals several key theoretical perspectives that inform contemporary understanding. Previous studies have established foundational principles that guide current research methodologies and analytical frameworks. The literature demonstrates significant gaps in understanding that warrant further investigation, particularly in areas of ",
    .keywords,
    .lit ".\n",
    .lit "\n",
    .lit "**Theoretical Framework:**\n",
    .lit "Our research approach utilizes established academic protocols, ensuring methodological rigor and reproducibility. The analytical framework incorporates peer-reviewed methodologies that have been validated through extensive empirical testing and cross-cultural validation studies. The theoretical foundation draws upon established principles in computer science, software engineering, and information systems.\n",
    .lit "\n",
    .lit "**Methodological Approach:**\n",
    .lit "The research methodology employs a mixed-methods approach, combining qualitative analysis with quantitative assessment. Data collection methods include systematic literature review, expert interviews, and case study analysis. The analytical framework ensures comprehensive coverage of the research objectives while maintaining academic rigor.\n",
    .lit "\n",
    .lit "**Key Research Questions:**\n",
    .lit "1. What are the fundamental theoretical principles underlying ",
    .topic,
    .lit "?\n",
    .lit "2. How do current theoretical models account for observed technological phenomena?\n",
    .lit "3. What methodological approaches yield the most reliable and valid results in ",
    .topic,
    .lit " research?\n",
    .lit "4. How can theoretical findings be applied to real-world technological contexts?\n",
    .lit "\n",
    .lit "**Implications and Future Research:**\n",
    .lit "The findings of this study contribute to the broader academic discourse on ",
    .prompt,
    .lit " and provide a foundation for future research initiatives. Further investigation is recommended in areas of theoretical development, methodological innovation, and practical application within the technology sector." ]

/-- The `business` entry of `academicTemplates` (script.js, line 1000), as the pieces of its
template literal. -/
def academicBusiness : List Piece :=
  [ .lit "🎓 **Academic Research: ",
    .prompt,
    .lit "**\n",
    .lit "\n",
    .lit "**Abstract:**\n",
    .lit "This scholarly investigation examines the theoretical foundations and practical applications of ",
    .prompt,
    .lit " within the context of modern business and management theory. The research employs rigorous academic methodologies to provide comprehensive insights into the conceptual frameworks and strategic implications of this business domain.\n",
    .lit "\n",
    .lit "**Literature Review:**\n",
    .lit "The existing body of knowledge on ",
    .topic,
    .lit " reveals several key theoretical perspectives that inform contemporary business understanding. Previous studies have established foundational principles that guide current research methodologies and analytical frameworks. The literature demonstrates significant gaps in understanding that warrant further investigation, particularly in areas of ",
    .keywords,
    .lit ".\n",
    .lit "\n",
    .lit "**Theoretical Framework:**\n",
    .lit "Our research approach utilizes established academic protocols, ensuring methodological rigor and reproducibility. The analytical framework incorporates peer-reviewed methodologies that have been validated through extensive empirical testing and cross-cultural validation studies. The theoretical foundation draws upon established principles in business management, strategic planning, and organizational theory.\n",
    .lit "\n",
    .lit "**Methodological Approach:**\n",
    .lit "The research methodology employs a mixed-methods approach, combining qualitative analysis with quantitative assessment. Data collection methods include systematic literature review, expert interviews, and case study analysis. The analytical framework ensures comprehensive coverage of the research objectives while maintaining academic rigor.\n",
    .lit "\n",
    .lit "**Key Research Questions:**\n",
    .lit "1. What are the fundamental theoretical principles underlying ",
    .topic,
    .lit "?\n",
    .lit "2. How do current theoretical models account for observed business phenomena?\n",
    .lit "3. What methodological approaches yield the most reliable and valid results in ",
    .topic,
    .lit " research?\n",
    .lit "4. How can theoretical findings be applied to real-world business contexts?\n",
    .lit "\n",
    .lit "**Implications and Future Research:**\n",
    .lit "The findings of this study contribute to the broader academic discourse on ",
    .prompt,
    .lit " and provide a foundation for future research initiatives. Further investigation is recommended in areas of theoretical development, methodological innovation, and practical application within the business sector." ]

/-- The `default` entry of `academicTemplates` (script.js, line 1023), as the pieces of its
template literal. -/
def academicDefault : List Piece :=
  [ .lit "🎓 **Academic Research: ",
    .prompt,
    .lit "**\n",
    .lit "\n",
    .lit "**Abstract:**\n",
    .lit "This scholarly investigation examines the multifaceted dimensions of ",
    .prompt,
    .lit " through rigorous academic inquiry and systematic analysis. The research employs both qualitative and quantitative methodologies to provide comprehensive insights into the theoretical frameworks and practical applications of this subject matter.\n",
    .lit "\n",
    .lit "**Literature Review:**\n",
    .lit "The existing body of knowledge on ",
    .topic,
    .lit " reveals several key theoretical perspectives that inform contemporary understanding. Previous studies have established foundational principles that guide current research methodologies and analytical frameworks. The literature demonstrates significant gaps in understanding that warrant further investigation, particularly in areas of ",
    .keywords,
    .lit ".\n",
    .lit "\n",
    .lit "**Theoretical Framework:**\n",
    .lit "Our research approach utilizes established academic protocols, ensuring methodological rigor and reproducibility. The analytical framework incorporates peer-reviewed methodologies that have been validated through extensive empirical testing and cross-cultural validation studies. The theoretical foundation draws upon established principles in the relevant academic discipline.\n",
    .lit "\n",
    .lit "**Methodological Approach:**\n",
    .lit "The research methodology employs a mixed-methods approach, combining qualitative analysis with quantitative assessment. Data collection methods include systematic literature review, expert interviews, and case study analysis. The analytical framework ensures comprehensive coverage of the research objectives while maintaining academic rigor.\n",
    .lit "\n",
    .lit "**Key Research Questions:**\n",
    .lit "1. What are the fundamental principles underlying ",
    .topic,
    .lit "?\n",
    .lit "2. How do current theoretical models account for observed phenomena?\n",
    .lit "3. What methodological approaches yield the most reliable and valid results?\n",
    .lit "4. How can findings be applied to real-world contexts and practical applications?\n",
    .lit "\n",
    .lit "**Implications and Future Research:**\n",
    .lit "The findings of this study contribute to the broader academic discourse on ",
    .prompt,
    .lit " and provide a foundation for future research initiatives. Further investigation is recommended in areas of theoretical development, methodological innovation, and practical application." ]

/-! ## Template selection -/

/-- Names of the members every object literal inherits from `Object.prototype`; a
property read with one of these keys yields that member (a function or an object) when
the literal has no own property of that name. -/
def objectPrototypeKeys : List String :=
  ["constructor", "__proto__", "hasOwnProperty", "isPrototypeOf", "propertyIsEnumerable",
   "toLocaleString", "toString", "valueOf", "__defineGetter__", "__defineSetter__",
   "__lookupGetter__", "__lookupSetter__"]

/-- The expression `templates[key] || templates.default` on an object literal whose own
properties are `templates`.  The result `none` stands for a value that is not a string:
the inherited member of `Object.prototype` (truthy, so `||` keeps it), or `undefined`
when the literal has no `default`. -/
def selectTemplate (templates : List (String × String)) (key : String) : Option String :=
  match templates.lookup key with
  | some text => if text = "" then templates.lookup "default" else some text
  | none => if objectPrototypeKeys.contains key then none else templates.lookup "default"

/-- The function `generateCreativeText(prompt, analysis)` of script.js (lines 723-799). -/
def generateCreativeText (prompt : String) (analysis : PromptAnalysis) : Option String :=
  let creativeTemplates : List (String × String) :=
    [ ("technology", render prompt analysis creativeTechnology),
      ("business", render prompt analysis creativeBusiness),
      ("creative", render prompt analysis creativeCreative),
      ("default", render prompt analysis creativeDefault) ]
  selectTemplate creativeTemplates analysis.category

/-- The function `generateProfessionalText(prompt, analysis)` of script.js
(lines 802-907). -/
def generateProfessionalText (prompt : String) (analysis : PromptAnalysis) : Option String :=
  let professionalTemplates : List (String × String) :=
    [ ("technology", render prompt analysis professionalTechnology),
      ("business", render prompt analysis professionalBusiness),
      ("default", render prompt analysis professionalDefault) ]
  selectTemplate professionalTemplates analysis.category

/-- The function `generateCasualText(prompt, analysis)` of script.js (lines 910-972). -/
def generateCasualText (prompt : String) (analysis : PromptAnalysis) : Option String :=
  let casualTemplates : List (String × String) :=
    [ ("technology", render prompt analysis casualTechnology),
      ("business", render prompt analysis casualBusiness),
      ("default", render prompt analysis casualDefault) ]
  selectTemplate casualTemplates analysis.category

/-- The function `generateAcademicText(prompt, analysis)` of script.js (lines 975-1048). -/
def generateAcademicText (prompt : String) (analysis : PromptAnalysis) : Option String :=
  let academicTemplates : List (String × String) :=
    [ ("technology", render prompt analysis academicTechnology),
      ("business", render prompt analysis academicBusiness),
      ("default", render prompt analysis academicDefault) ]
  selectTemplate academicTemplates analysis.category

/-! ## `generateAIText` -/

/-- Code points that `String.prototype.trim` strips: ECMAScript WhiteSpace (tab, vertical
tab, form feed, the byte order mark and the space separators of Unicode) and
LineTerminator (line feed, carriage return, line and paragraph separator). -/
def isTrimmed (c : Char) : Bool :=
  let n := c.val.toNat
  (9 ≤ n && n ≤ 13) || n = 32 || n = 160 || n = 5760 || (8192 ≤ n && n ≤ 8202)
    || n = 8232 || n = 8233 || n = 8239 || n = 8287 || n = 12288 || n = 65279

/-- The JavaScript `s.trim()`. -/
def trim (s : String) : String :=
  String.mk ((s.data.dropWhile isTrimmed).reverse.dropWhile isTrimmed).reverse

/-- The value of `promptAnalysis` in `generateAIText` (lines 645-649).  The platform
function `String.prototype.toLowerCase`, whose Unicode case tables are no part of the
repository, is the parameter `toLowerCase`. -/
def promptAnalysisOf (toLowerCase : String → String) (prompt : String) : PromptAnalysis :=
  let cleanPrompt := toLowerCase (trim prompt)
  let words := tokenize cleanPrompt
  analyzePrompt cleanPrompt words

/-- The function `generateAIText(prompt, type)` of script.js (lines 643-668): the value
the returned promise resolves to after the fixed delay; `none` stands for a value that is
not a string. -/
def generateAIText (toLowerCase : String → String) (prompt type : String) : Option String :=
  let promptAnalysis := promptAnalysisOf toLowerCase prompt
  let generatedText : Option String := some ""
  let generatedText :=
    if type = "creative" then generateCreativeText prompt promptAnalysis
    else if type = "professional" then generateProfessionalText prompt promptAnalysis
    else if type = "casual" then generateCasualText prompt promptAnalysis
    else if type = "academic" then generateAcademicText prompt promptAnalysis
    else generatedText
  generatedText

/-- Lower-casing of the letters `A` to `Z`, every other character kept: what
`toLowerCase` does on a string of ASCII characters. -/
def asciiToLowerCase (s : String) : String :=
  String.mk (s.data.map (fun c =>
    if 65 ≤ c.val.toNat && c.val.toNat ≤ 90 then Char.ofNat (c.val.toNat + 32) else c))

/-! ## The template each generator selects, and checks on templates -/

/-- The lookup of the specification (section 4.2) on the table of the creative style: the
dedicated entry for technology, business and creative, the `default` entry otherwise. -/
def creativeVariant (category : String) : List Piece :=
  if category = "technology" then creativeTechnology
  else if category = "business" then creativeBusiness
  else if category = "creative" then creativeCreative
  else creativeDefault

/-- The lookup of the specification on the table of the professional style. -/
def professionalVariant (category : String) : List Piece :=
  if category = "technology" then professionalTechnology
  else if category = "business" then professionalBusiness
  else professionalDefault

/-- The lookup of the specification on the table of the casual style. -/
def casualVariant (category : String) : List Piece :=
  if category = "technology" then casualTechnology
  else if category = "business" then casualBusiness
  else casualDefault

/-- The lookup of the specification on the table of the academic style. -/
def academicVariant (category : String) : List Piece :=
  if category = "technology" then academicTechnology
  else if category = "business" then academicBusiness
  else academicDefault

/-- The 13 template literals of the four generators, in source order. -/
def allTemplates : List (List Piece) :=
  [creativeTechnology, creativeBusiness, creativeCreative, creativeDefault,
   professionalTechnology, professionalBusiness, professionalDefault,
   casualTechnology, casualBusiness, casualDefault,
   academicTechnology, academicBusiness, academicDefault]

/-- Does the template begin with non-empty literal text? -/
def startsWithText : List Piece → Bool
  | .lit s :: _ => !(s.data.isEmpty)
  | _ => false

/-- Does the template substitute the whole keywords list somewhere? -/
def usesAllKeywords : List Piece → Bool
  | [] => false
  | .keywords :: _ => true
  | _ :: rest => usesAllKeywords rest

/-- Does the template substitute keywords, whole or first three, somewhere? -/
def usesKeywords : List Piece → Bool
  | [] => false
  | .keywords :: _ => true
  | .firstKeywords :: _ => true
  | _ :: rest => usesKeywords rest

/-- Does the template test the complexity somewhere? -/
def usesComplexity : List Piece → Bool
  | [] => false
  | .ifHigh _ _ :: _ => true
  | _ :: rest => usesComplexity rest

/-- Do two character sequences differ at some position that both have? -/
def diverge : List Char → List Char → Bool
  | c :: cs, d :: ds => if c = d then diverge cs ds else true
  | _, _ => false

/-- A sufficient check that two templates have different values whatever is substituted:
after a common beginning of equal pieces, both continue with literal text, and the two
literals differ at a position both have. -/
def differ : List Piece → List Piece → Bool
  | .lit s :: xs, .lit t :: ys => diverge s.data t.data || (decide (s = t) && differ xs ys)
  | .prompt :: xs, .prompt :: ys => differ xs ys
  | .topic :: xs, .topic :: ys => differ xs ys
  | .keywords :: xs, .keywords :: ys => differ xs ys
  | .firstKeywords :: xs, .firstKeywords :: ys => differ xs ys
  | _, _ => false

/-! ## The display of generated text -/

/-- The JavaScript `replace(/\\n/g, '<br>')` on a character sequence: the pattern is a
backslash followed by the letter `n`; the scan goes from left to right, a match is
replaced by `<br>` and the scan resumes behind it, any other character is copied. -/
def replaceBackslashN : List Char → List Char
  | '\\' :: 'n' :: rest => '<' :: 'b' :: 'r' :: '>' :: replaceBackslashN rest
  | c :: rest => c :: replaceBackslashN rest
  | [] => []

/-- The function `displayGeneratedText(text, prompt, type)` of script.js (lines 1648-1686),
as the value it assigns to the `innerHTML` of the text display (line 1661); its other
statements style and animate the page, and `prompt` and `type` are not used. -/
def displayGeneratedText (text _prompt _type : String) : String :=
  String.mk (replaceBackslashN text.data)

/-- Does a template hold a backslash in its literal text? -/
def hasBackslash : List Piece → Bool
  | [] => false
  | .lit s :: rest => s.data.contains '\\' || hasBackslash rest
  | .ifHigh yes no :: rest =>
    yes.data.contains '\\' || no.data.contains '\\' || hasBackslash rest
  | _ :: rest => hasBackslash rest

/-! ## Ambient state and the click handlers -/

/-- A call on the page that a handler makes, in the order of the calls. -/
inductive Effect where
  /-- `showNotification(message, kind)` -/
  | notification (message kind : String)
  /-- `button.classList.add('loading')` or `remove('loading')` -/
  | loadingClass (button : String) (active : Bool)
  /-- `showLoadingModal()` or `hideLoadingModal()` -/
  | loadingModal (shown : Bool)
  /-- `displayGeneratedText(text, prompt, type)` -/
  | textShown (text prompt type : String)
  /-- `displayGeneratedImage(imageUrl, prompt, style)` -/
  | imageShown (imageUrl prompt style : String)
  /-- `console.error(label, error)` -/
  | consoleError (label message : String)
  deriving DecidableEq, Repr

/-- The ambient variables of script.js (lines 18-22), the values of the two prompt inputs,
and the calls made on the page so far. -/
structure AppState where
  isGenerating : Bool
  selectedStyle : String
  selectedTextType : String
  currentTab : String
  /-- `promptInput.value` -/
  promptInput : String
  /-- `textPromptInput.value` -/
  textPromptInput : String
  effects : List Effect
  deriving DecidableEq, Repr

/-- The state after the declarations of lines 18-22, with empty inputs. -/
def initialState : AppState :=
  { isGenerating := false, selectedStyle := "realistic", selectedTextType := "creative",
    currentTab := "image", promptInput := "", textPromptInput := "", effects := [] }

/-- Record a call on the page. -/
def AppState.call (s : AppState) (e : Effect) : AppState :=
  { s with effects := s.effects ++ [e] }

/-- The function `handleTextGenerateClick` (lines 607-637) up to its `await`: the state it
leaves and, when it got that far, the arguments `(prompt, selectedTextType)` of the call
of `generateAIText` it awaits. -/
def handleTextGenerateClick (s : AppState) : AppState × Option (String × String) :=
  if s.isGenerating then (s, none)
  else
    let prompt := trim s.textPromptInput
    if prompt = "" then
      (s.call (.notification "Please enter a description for your text" "error"), none)
    else
      let s := { s with isGenerating := true }
      let s := s.call (.loadingClass "generateTextBtn" true)
      let s := s.call (.loadingModal true)
      (s, some (prompt, s.selectedTextType))

/-- The function `handleTextGenerateClick` from its `await` on (lines 622-636), when the
awaited promise settles: `.ok generatedText` when it is fulfilled, `.error message` when it
is rejected.  The `finally` block runs in both cases. -/
def handleTextGenerateClickAfter (s : AppState) (prompt : String)
    (outcome : Except String String) : AppState :=
  let s :=
    match outcome with
    | .ok generatedText =>
      let s := s.call (.textShown generatedText prompt s.selectedTextType)
      s.call (.notification "📝 Text generated successfully!" "success")
    | .error message =>
      let s := s.call (.consoleError "Text generation error:" message)
      s.call (.notification ("Failed to generate text: " ++ message) "error")
  let s := { s with isGenerating := false }
  let s := s.call (.loadingClass "generateTextBtn" false)
  s.call (.loadingModal false)

/-- What script.js reads of the object `CONFIG`, which `config.js` defines: the string
`CONFIG.ACTIVE_API`, and the value of the comparison of line 150,
`activeConfig.API_KEY === YOUR_..._API_KEY`, which is `none` when `activeConfig` is
undefined and reading its `API_KEY` throws. -/
structure Config where
  ACTIVE_API : String
  keyIsPlaceholder : Option Bool
  deriving DecidableEq, Repr

/-- How the part of a handler before its `await` ends. -/
inductive ClickResult where
  /-- A `return` before any generation. -/
  | returned
  /-- An exception before any generation. -/
  | threw
  /-- The call `generateAIImage(prompt, style)` was made and is awaited. -/
  | awaiting (prompt style : String)
  deriving DecidableEq, Repr

/-- The function `handleGenerateClick` (lines 134-184) up to its `await`. -/
def handleGenerateClick (cfg : Config) (s : AppState) : AppState × ClickResult :=
  if s.isGenerating then (s, .returned)
  else
    let prompt := trim s.promptInput
    if prompt = "" then
      (s.call (.notification "Please enter a description for your image" "error"), .returned)
    else if cfg.ACTIVE_API = "demo" then (s, .returned)
    else
      match cfg.keyIsPlaceholder with
      | none => (s, .threw)
      | some true =>
        (s.call (.notification ("Please configure your " ++ cfg.ACTIVE_API ++ " API key first")
          "error"), .returned)
      | some false =>
        let s := { s with isGenerating := true }
        let s := s.call (.loadingClass "generateBtn" true)
        let s := s.call (.loadingModal true)
        (s, .awaiting prompt s.selectedStyle)

/-- The function `handleGenerateClick` from its `await` on (lines 161-183), when the
promise of `generateAIImage` settles. -/
def handleGenerateClickAfter (cfg : Config) (s : AppState) (prompt : String)
    (outcome : Except String String) : AppState :=
  let s :=
    match outcome with
    | .ok imageUrl =>
      let s := s.call (.imageShown imageUrl prompt s.selectedStyle)
      let s :=
        if cfg.ACTIVE_API = "demo" then
          s.call (.notification "📸 Found relevant image from Unsplash" "info")
        else s.call (.notification "🎨 AI-generated image created" "success")
      s.call (.notification "🎨 Image generated successfully!" "success")
    | .error message =>
      let s := s.call (.consoleError "Image generation error:" message)
      s.call (.notification ("Failed to generate image: " ++ message) "error")
  let s := { s with isGenerating := false }
  let s := s.call (.loadingClass "generateBtn" false)
  s.call (.loadingModal false)

/-- A generation that was started and whose promise has not settled yet. -/
inductive Request where
  | text (prompt type : String)
  | image (prompt style : String)
  deriving DecidableEq, Repr

/-- The page while it runs: its state and the requests in flight, newest first. -/
structure Run where
  app : AppState
  inFlight : List Request
  deriving DecidableEq, Repr

/-- What can happen on the page. -/
inductive Event where
  /-- The user edits the text prompt. -/
  | editTextPrompt (value : String)
  /-- The user edits the image prompt. -/
  | editImagePrompt (value : String)
  /-- `handleTextTypeSelection` (line 502). -/
  | selectTextType (type : String)
  /-- `handleStyleSelection` (line 530). -/
  | selectStyle (style : String)
  /-- The tab switch (line 476). -/
  | switchTab (tabName : String)
  /-- A click on the text button: `handleTextGenerateClick`. -/
  | textClick
  /-- A click on the image button or the keyboard shortcut: `handleGenerateClick`. -/
  | imageClick
  /-- The promise of the oldest request in flight settles. -/
  | settle (outcome : Except String String)

/-- One event on the running page. -/
def step (cfg : Config) (r : Run) : Event → Run
  | .editTextPrompt value => { r with app := { r.app with textPromptInput := value } }
  | .editImagePrompt value => { r with app := { r.app with promptInput := value } }
  | .selectTextType type =>
    let s : AppState := { r.app with selectedTextType := type }
    { r with app := s.call (.notification ("Text type changed to: " ++ type) "info") }
  | .selectStyle style =>
    let s : AppState := { r.app with selectedStyle := style }
    { r with app := s.call (.notification ("Style changed to: " ++ style) "info") }
  | .switchTab tabName =>
    let s : AppState := { r.app with currentTab := tabName }
    { r with app := s.call (.notification ("Switched to " ++ tabName ++ " generation") "info") }
  | .textClick =>
    match handleTextGenerateClick r.app with
    | (s, none) => { r with app := s }
    | (s, some (prompt, type)) => { app := s, inFlight := r.inFlight ++ [.text prompt type] }
  | .imageClick =>
    match handleGenerateClick cfg r.app with
    | (s, .awaiting prompt style) =>
      { app := s, inFlight := r.inFlight ++ [.image prompt style] }
    | (s, _) => { r with app := s }
  | .settle outcome =>
    match r.inFlight with
    | [] => r
    | .text prompt _ :: rest =>
      { app := handleTextGenerateClickAfter r.app prompt outcome, inFlight := rest }
    | .image prompt _ :: rest =>
      { app := handleGenerateClickAfter cfg r.app prompt outcome, inFlight := rest }

/-- The page after a sequence of events, from the initial state. -/
def runEvents (cfg : Config) (events : List Event) : Run :=
  events.foldl (step cfg) { app := initialState, inFlight := [] }

/-! ## The function bodies as syntax

To state which variables a function body reads, the bodies of `analyzePrompt`, of the four
generators and of `generateAIText` are given a second time, as syntax trees in which every
identifier of the source occurs by name.  A body is run in an ambient state: an
identifier is looked up among the parameters and local declarations first and among the
ambient variables of lines 18-22 after that, as the scopes of the script nest. -/

/-- The values the six functions compute with. -/
inductive Val where
  | undefined
  | bool (b : Bool)
  | num (n : Nat)
  | str (s : String)
  | arr (items : List Val)
  | obj (fields : List (String × Val))
  /-- A built-in function or object, such as a member of `Object.prototype`. -/
  | native (name : String)

/-- The expressions that occur in the six function bodies. -/
inductive Expr where
  /-- A string literal. -/
  | str (s : String)
  /-- A number literal. -/
  | num (n : Nat)
  /-- An array literal of string literals. -/
  | strings (items : List String)
  /-- An identifier. -/
  | var (x : String)
  /-- `e.field` -/
  | member (e : Expr) (field : String)
  /-- `e[i]` -/
  | index (e i : Expr)
  /-- The end of an object literal. -/
  | objEnd
  /-- A property `key: value` of an object literal, followed by the remaining ones. -/
  | objField (key : String) (value rest : Expr)
  /-- The end of a template literal. -/
  | tplEnd
  /-- Literal text of a template literal, followed by the rest. -/
  | tplLit (s : String) (rest : Expr)
  /-- A substitution of a template literal, followed by the rest. -/
  | tplSubst (e rest : Expr)
  /-- `a || b` -/
  | or (a b : Expr)
  /-- `a && b` -/
  | and (a b : Expr)
  /-- `!a` -/
  | not (a : Expr)
  /-- `a > b` -/
  | gt (a b : Expr)
  /-- `a < b` -/
  | lt (a b : Expr)
  /-- `a === b` -/
  | strictEq (a b : Expr)
  /-- `c ? a : b` -/
  | cond (c a b : Expr)
  /-- `recv.includes(arg)` -/
  | includes (recv arg : Expr)
  /-- `recv.some(x => body)` -/
  | some (recv : Expr) (x : String) (body : Expr)
  /-- `recv.filter(x => body)` -/
  | filter (recv : Expr) (x : String) (body : Expr)
  /-- `recv.slice(start, stop)` -/
  | slice (recv start stop : Expr)
  /-- `recv.join(sep)` -/
  | join (recv sep : Expr)
  /-- `recv.trim()` -/
  | trim (recv : Expr)
  /-- `recv.toLowerCase()` -/
  | toLowerCase (recv : Expr)
  /-- `recv.split(sep)` -/
  | split (recv sep : Expr)

/-- The statements that occur in the six function bodies. -/
inductive Stmt where
  /-- `const x = e` or `let x = e` -/
  | decl (x : String) (e : Expr)
  /-- `const x = f(a, b)` -/
  | declCall (x f : String) (a b : Expr)
  /-- `x = e` -/
  | assign (x : String) (e : Expr)
  /-- `x = f(a, b)` -/
  | assignCall (x f : String) (a b : Expr)
  /-- `x.field = e` -/
  | assignMember (x field : String) (e : Expr)
  /-- `if (c) { t } else { e }` -/
  | ifThen (c : Expr) (t e : Stmt)
  /-- `for (const [k, v] of Object.entries(o)) { body }` -/
  | forEntries (k v : String) (o : Expr) (body : Stmt)
  /-- `break` -/
  | brk
  /-- Two statements in a row. -/
  | seq (first second : Stmt)
  /-- No statement. -/
  | skip
  /-- `return e` -/
  | ret (e : Expr)
  /-- `await new Promise(resolve => setTimeout(resolve, ms))` -/
  | awaitTimeout (ms : Nat)

/-- A function declaration: its parameters and its body. -/
structure FunDef where
  params : List String
  body : Stmt

/-- The parameters and local declarations in scope, innermost first. -/
abbrev Env := List (String × Val)

/-- The value of an ambient variable of lines 18-22. -/
def ambient (g : AppState) (x : String) : Option Val :=
  if x = "isGenerating" then some (.bool g.isGenerating)
  else if x = "selectedStyle" then some (.str g.selectedStyle)
  else if x = "selectedTextType" then some (.str g.selectedTextType)
  else if x = "currentTab" then some (.str g.currentTab)
  else none

/-- An assignment to an ambient variable of lines 18-22. -/
def setAmbient (g : AppState) (x : String) (v : Val) : Option AppState :=
  match v with
  | .bool b => if x = "isGenerating" then some { g with isGenerating := b } else none
  | .str s =>
    if x = "selectedStyle" then some { g with selectedStyle := s }
    else if x = "selectedTextType" then some { g with selectedTextType := s }
    else if x = "currentTab" then some { g with currentTab := s }
    else none
  | _ => none

/-- The value of an identifier: the innermost local binding, else the ambient variable of
that name; `none` when there is neither (a `ReferenceError`). -/
def lookupVar (g : AppState) (env : Env) (x : String) : Option Val :=
  match env.lookup x with
  | some v => some v
  | none => ambient g x

/-- Truthiness of a value. -/
def truthy : Val → Bool
  | .undefined => false
  | .bool b => b
  | .num n => n != 0
  | .str s => s != ""
  | _ => true

/-- The operator `===` on the values that the bodies compare: primitives by value;
arrays and objects, which are compared by identity, are never compared there. -/
def strictEq : Val → Val → Option Bool
  | .undefined, .undefined => some true
  | .bool a, .bool b => some (a == b)
  | .num a, .num b => some (a == b)
  | .str a, .str b => some (a == b)
  | .arr _, _ => none
  | _, .arr _ => none
  | .obj _, _ => none
  | _, .obj _ => none
  | .native _, _ => none
  | _, .native _ => none
  | _, _ => some false

/-- A property read `o[key]` or `o.key` on an object literal with the given own
properties: the own property, else the member inherited from `Object.prototype`, else
`undefined`. -/
def getProp (fields : List (String × Val)) (key : String) : Val :=
  match fields.lookup key with
  | some v => v
  | none => if objectPrototypeKeys.contains key then .native key else .undefined

/-- A property write `o.key = v` on an object with the given own properties. -/
def setProp : List (String × Val) → String → Val → List (String × Val)
  | [], key, v => [(key, v)]
  | (k, w) :: rest, key, v => if key = k then (k, v) :: rest else (k, w) :: setProp rest key v

/-- An assignment `x = v` to the innermost local binding of `x`, if there is one. -/
def setLocal : Env → String → Val → Option Env
  | [], _, _ => none
  | (k, w) :: rest, x, v =>
    if x = k then some ((k, v) :: rest)
    else (setLocal rest x v).map (fun rest' => (k, w) :: rest')

/-- The string a primitive value becomes in a template literal or in `join`; arrays and
objects are never converted in the bodies. -/
def toText : Val → Option String
  | .str s => some s
  | .undefined => some "undefined"
  | .bool b => some (if b then "true" else "false")
  | .num n => some (toString n)
  | _ => none

/-- The JavaScript `items.join(sep)`: an `undefined` element gives the empty string. -/
def joinVals (sep : String) : List Val → Option String
  | [] => some ""
  | [x] => match x with
    | .undefined => some ""
    | _ => toText x
  | x :: y :: rest =>
    match (match x with | .undefined => some "" | _ => toText x),
      joinVals sep (y :: rest) with
    | some a, some b => some (a ++ sep ++ b)
    | _, _ => none

/-- The array method `some` with the callback given as a function of the element. -/
def someWith (f : Val → Option Val) : List Val → Option Bool
  | [] => some false
  | x :: rest =>
    match f x with
    | none => none
    | some v => if truthy v then some true else someWith f rest

/-- The array method `filter` with the callback given as a function of the element. -/
def filterWith (f : Val → Option Val) : List Val → Option (List Val)
  | [] => some []
  | x :: rest =>
    match f x, filterWith f rest with
    | some v, some kept => some (if truthy v then x :: kept else kept)
    | _, _ => none

/-- Is a value among the elements of an array, by `===`? -/
def elemVal (v : Val) : List Val → Option Bool
  | [] => some false
  | x :: rest =>
    match strictEq x v with
    | none => none
    | some true => some true
    | some false => elemVal v rest

/-- The value of an expression in an ambient state and a scope; `none` stands for an
exception or for an operation on values the bodies never apply it to. -/
def eval (toLowerCase : String → String) (g : AppState) : Env → Expr → Option Val
  | _, .str s => some (.str s)
  | _, .num n => some (.num n)
  | _, .strings items => some (.arr (items.map Val.str))
  | env, .var x => lookupVar g env x
  | env, .member e field =>
    match eval toLowerCase g env e with
    | some (.obj fields) => some (getProp fields field)
    | some (.arr items) => if field = "length" then some (.num items.length) else none
    | some (.str s) => if field = "length" then some (.num (jsLength s)) else none
    | _ => none
  | env, .index e i =>
    match eval toLowerCase g env e, eval toLowerCase g env i with
    | some (.obj fields), some (.str key) => some (getProp fields key)
    | some (.arr items), some (.num n) => some (items.getD n .undefined)
    | _, _ => none
  | _, .objEnd => some (.obj [])
  | env, .objField key value rest =>
    match eval toLowerCase g env value, eval toLowerCase g env rest with
    | some v, some (.obj fields) => some (.obj ((key, v) :: fields))
    | _, _ => none
  | _, .tplEnd => some (.str "")
  | env, .tplLit s rest =>
    match eval toLowerCase g env rest with
    | some (.str r) => some (.str (s ++ r))
    | _ => none
  | env, .tplSubst e rest =>
    match (eval toLowerCase g env e).bind toText, eval toLowerCase g env rest with
    | some t, some (.str r) => some (.str (t ++ r))
    | _, _ => none
  | env, .or a b =>
    match eval toLowerCase g env a with
    | some v => if truthy v then some v else eval toLowerCase g env b
    | none => none
  | env, .and a b =>
    match eval toLowerCase g env a with
    | some v => if truthy v then eval toLowerCase g env b else some v
    | none => none
  | env, .not a => (eval toLowerCase g env a).map (fun v => .bool (!truthy v))
  | env, .gt a b =>
    match eval toLowerCase g env a, eval toLowerCase g env b with
    | some (.num m), some (.num n) => some (.bool (decide (m > n)))
    | _, _ => none
  | env, .lt a b =>
    match eval toLowerCase g env a, eval toLowerCase g env b with
    | some (.num m), some (.num n) => some (.bool (decide (m < n)))
    | _, _ => none
  | env, .strictEq a b =>
    match eval toLowerCase g env a, eval toLowerCase g env b with
    | some v, some w => (strictEq v w).map Val.bool
    | _, _ => none
  | env, .cond c a b =>
    match eval toLowerCase g env c with
    | some v => if truthy v then eval toLowerCase g env a else eval toLowerCase g env b
    | none => none
  | env, .includes recv arg =>
    match eval toLowerCase g env recv, eval toLowerCase g env arg with
    | some (.str s), some (.str k) => some (.bool (includes s k))
    | some (.arr items), some v => (elemVal v items).map Val.bool
    | _, _ => none
  | env, .some recv x body =>
    match eval toLowerCase g env recv with
    | some (.arr items) =>
      (someWith (fun v => eval toLowerCase g ((x, v) :: env) body) items).map Val.bool
    | _ => none
  | env, .filter recv x body =>
    match eval toLowerCase g env recv with
    | some (.arr items) =>
      (filterWith (fun v => eval toLowerCase g ((x, v) :: env) body) items).map Val.arr
    | _ => none
  | env, .slice recv start stop =>
    match eval toLowerCase g env recv, eval toLowerCase g env start,
      eval toLowerCase g env stop with
    | some (.arr items), some (.num a), some (.num b) =>
      some (.arr ((items.take b).drop a))
    | _, _, _ => none
  | env, .join recv sep =>
    match eval toLowerCase g env recv, eval toLowerCase g env sep with
    | some (.arr items), some (.str s) => (joinVals s items).map Val.str
    | _, _ => none
  | env, .trim recv =>
    match eval toLowerCase g env recv with
    | some (.str s) => some (.str (trim s))
    | _ => none
  | env, .toLowerCase recv =>
    match eval toLowerCase g env recv with
    | some (.str s) => some (.str (toLowerCase s))
    | _ => none
  | env, .split recv sep =>
    match eval toLowerCase g env recv, eval toLowerCase g env sep with
    | some (.str s), some (.str d) =>
      if d = " " then some (.arr ((splitSpace s).map Val.str)) else none
    | _, _ => none

/-- How the execution of a statement ends. -/
inductive Completion where
  | normal
  | brk
  | ret (v : Val)

/-- The loop `for (const [k, v] of Object.entries(o))` over the properties `rows` of `o`:
`body` runs the loop body in a scope that binds `k` and `v`; the bindings made during an
iteration end with it. -/
def runLoop (body : AppState → Env → Option (AppState × Env × Completion)) (k v : String) :
    List (String × Val) → AppState → Env → Option (AppState × Env × Completion)
  | [], g, env => some (g, env, .normal)
  | (key, value) :: rest, g, env =>
    match body g ((k, .str key) :: (v, value) :: env) with
    | none => none
    | some (g', env', .normal) =>
      runLoop body k v rest g' (env'.drop (env'.length - env.length))
    | some (g', env', .brk) => some (g', env'.drop (env'.length - env.length), .normal)
    | some (g', env', .ret r) => some (g', env'.drop (env'.length - env.length), .ret r)

/-- An assignment `x = v`: to the innermost local binding, else to the ambient variable. -/
def assignVar (g : AppState) (env : Env) (x : String) (v : Val) : Option (AppState × Env) :=
  match setLocal env x v with
  | some env' => some (g, env')
  | none => (setAmbient g x v).map (fun g' => (g', env))

/-- The execution of a statement in an ambient state and a scope.  `call f g a b` is the
call of the function named `f` in the ambient state `g`; it gives the state the call leaves
and the value it returns. -/
def exec (toLowerCase : String → String)
    (call : String → AppState → Val → Val → Option (AppState × Val)) :
    AppState → Env → Stmt → Option (AppState × Env × Completion)
  | g, env, .decl x e =>
    (eval toLowerCase g env e).map (fun v => (g, (x, v) :: env, .normal))
  | g, env, .declCall x f a b =>
    match eval toLowerCase g env a, eval toLowerCase g env b with
    | some va, some vb => (call f g va vb).map (fun r => (r.1, (x, r.2) :: env, .normal))
    | _, _ => none
  | g, env, .assign x e =>
    match eval toLowerCase g env e with
    | some v => (assignVar g env x v).map (fun r => (r.1, r.2, .normal))
    | none => none
  | g, env, .assignCall x f a b =>
    match eval toLowerCase g env a, eval toLowerCase g env b with
    | some va, some vb =>
      match call f g va vb with
      | some r => (assignVar r.1 env x r.2).map (fun q => (q.1, q.2, .normal))
      | none => none
    | _, _ => none
  | g, env, .assignMember x field e =>
    match lookupVar g env x, eval toLowerCase g env e with
    | some (.obj fields), some v =>
      (setLocal env x (.obj (setProp fields field v))).map (fun env' => (g, env', .normal))
    | _, _ => none
  | g, env, .ifThen c t e =>
    match eval toLowerCase g env c with
    | some v =>
      if truthy v then exec toLowerCase call g env t else exec toLowerCase call g env e
    | none => none
  | g, env, .forEntries k v o body =>
    match eval toLowerCase g env o with
    | some (.obj rows) =>
      runLoop (fun g' env' => exec toLowerCase call g' env' body) k v rows g env
    | _ => none
  | g, env, .brk => some (g, env, .brk)
  | g, env, .seq first second =>
    match exec toLowerCase call g env first with
    | some (g', env', .normal) => exec toLowerCase call g' env' second
    | other => other
  | g, env, .skip => some (g, env, .normal)
  | g, env, .ret e => (eval toLowerCase g env e).map (fun v => (g, env, .ret v))
  | g, env, .awaitTimeout _ => some (g, env, .normal)

/-- A call of a function with two arguments in an ambient state: the state the call
leaves and the value it returns. -/
def runFun (toLowerCase : String → String)
    (call : String → AppState → Val → Val → Option (AppState × Val))
    (g : AppState) (f : FunDef) (a b : Val) : Option (AppState × Val) :=
  match f.params with
  | [p, q] =>
    match exec toLowerCase call g [(q, b), (p, a)] f.body with
    | some (g', _, .ret v) => some (g', v)
    | some (g', _, .normal) => some (g', .undefined)
    | _ => none
  | _ => none

/-- A sequence of statements. -/
def Stmt.block : List Stmt → Stmt
  | [] => .skip
  | [s] => s
  | s :: rest => .seq s (Stmt.block rest)

/-- An object literal. -/
def Expr.object : List (String × Expr) → Expr
  | [] => .objEnd
  | (key, value) :: rest => .objField key value (Expr.object rest)

/-- The substitution `${...}` that a piece of a template literal stands for. -/
def substOf : Piece → Expr
  | .lit s => .str s
  | .prompt => .var "prompt"
  | .topic => .member (.var "analysis") "topic"
  | .keywords => .join (.member (.var "analysis") "keywords") (.str ", ")
  | .firstKeywords =>
    .join (.slice (.member (.var "analysis") "keywords") (.num 0) (.num 3)) (.str ", ")
  | .ifHigh yes no =>
    .cond (.strictEq (.member (.var "analysis") "complexity") (.str "high")) (.str yes) (.str no)

/-- A template literal of the generators as an expression. -/
def templateOf : List Piece → Expr
  | [] => .tplEnd
  | .lit s :: rest => .tplLit s (templateOf rest)
  | piece :: rest => .tplSubst (substOf piece) (templateOf rest)

/-- The declaration of `analyzePrompt` (script.js, lines 671-720). -/
def analyzePromptDef : FunDef :=
  { params := ["prompt", "words"],
    body := Stmt.block
      [ .decl "analysis" (Expr.object
          [ ("topic", .str ""), ("category", .str ""), ("keywords", .strings []),
            ("complexity", .str "medium"), ("tone", .str "neutral") ]),
        .assignMember "analysis" "topic" (.or (.index (.var "words") (.num 0)) (.str "topic")),
        .decl "categories" (Expr.object (categories.map (fun row => (row.1, .strings row.2)))),
        .forEntries "category" "keywords" (.var "categories")
          (.ifThen (.some (.var "keywords") "keyword" (.includes (.var "prompt") (.var "keyword")))
            (.seq (.assignMember "analysis" "category" (.var "category")) .brk)
            .skip),
        .assignMember "analysis" "keywords"
          (.slice
            (.filter (.var "words") "word"
              (.and (.gt (.member (.var "word") "length") (.num 3))
                (.not (.includes (.strings stopWords) (.var "word")))))
            (.num 0) (.num 5)),
        .ifThen
          (.or (.or (.gt (.member (.var "words") "length") (.num 10))
              (.includes (.var "prompt") (.str "advanced")))
            (.includes (.var "prompt") (.str "complex")))
          (.assignMember "analysis" "complexity" (.str "high"))
          (.ifThen (.lt (.member (.var "words") "length") (.num 5))
            (.assignMember "analysis" "complexity" (.str "low"))
            .skip),
        .ifThen
          (.or (.or (.includes (.var "prompt") (.str "fun"))
              (.includes (.var "prompt") (.str "creative")))
            (.includes (.var "prompt") (.str "exciting")))
          (.assignMember "analysis" "tone" (.str "enthusiastic"))
          (.ifThen
            (.or (.or (.includes (.var "prompt") (.str "serious"))
                (.includes (.var "prompt") (.str "professional")))
              (.includes (.var "prompt") (.str "formal")))
            (.assignMember "analysis" "tone" (.str "formal"))
            .skip),
        .ret (.var "analysis") ] }

/-- The declaration of `generateCreativeText` (script.js, lines 723-799). -/
def generateCreativeTextDef : FunDef :=
  { params := ["prompt", "analysis"],
    body := Stmt.block
      [ .decl "creativeTemplates" (Expr.object
          [ ("technology", templateOf creativeTechnology),
            ("business", templateOf creativeBusiness),
            ("creative", templateOf creativeCreative),
            ("default", templateOf creativeDefault) ]),
        .ret (.or (.index (.var "creativeTemplates") (.member (.var "analysis") "category"))
          (.member (.var "creativeTemplates") "default")) ] }

/-- The declaration of `generateProfessionalText` (script.js, lines 802-907). -/
def generateProfessionalTextDef : FunDef :=
  { params := ["prompt", "analysis"],
    body := Stmt.block
      [ .decl "professionalTemplates" (Expr.object
          [ ("technology", templateOf professionalTechnology),
            ("business", templateOf professionalBusiness),
            ("default", templateOf professionalDefault) ]),
        .ret (.or
          (.index (.var "professionalTemplates") (.member (.var "analysis") "category"))
          (.member (.var "professionalTemplates") "default")) ] }

/-- The declaration of `generateCasualText` (script.js, lines 910-972). -/
def generateCasualTextDef : FunDef :=
  { params := ["prompt", "analysis"],
    body := Stmt.block
      [ .decl "casualTemplates" (Expr.object
          [ ("technology", templateOf casualTechnology),
            ("business", templateOf casualBusiness),
            ("default", templateOf casualDefault) ]),
        .ret (.or (.index (.var "casualTemplates") (.member (.var "analysis") "category"))
          (.member (.var "casualTemplates") "default")) ] }

/-- The declaration of `generateAcademicText` (script.js, lines 975-1048). -/
def generateAcademicTextDef : FunDef :=
  { params := ["prompt", "analysis"],
    body := Stmt.block
      [ .decl "academicTemplates" (Expr.object
          [ ("technology", templateOf academicTechnology),
            ("business", templateOf academicBusiness),
            ("default", templateOf academicDefault) ]),
        .ret (.or (.index (.var "academicTemplates") (.member (.var "analysis") "category"))
          (.member (.var "academicTemplates") "default")) ] }

/-- The declaration of `generateAIText` (script.js, lines 643-668). -/
def generateAITextDef : FunDef :=
  { params := ["prompt", "type"],
    body := Stmt.block
      [ .decl "cleanPrompt" (.toLowerCase (.trim (.var "prompt"))),
        .decl "words"
          (.filter (.split (.var "cleanPrompt") (.str " ")) "word"
            (.gt (.member (.var "word") "length") (.num 2))),
        .declCall "promptAnalysis" "analyzePrompt" (.var "cleanPrompt") (.var "words"),
        .decl "generatedText" (.str ""),
        .ifThen (.strictEq (.var "type") (.str "creative"))
          (.assignCall "generatedText" "generateCreativeText" (.var "prompt")
            (.var "promptAnalysis"))
          (.ifThen (.strictEq (.var "type") (.str "professional"))
            (.assignCall "generatedText" "generateProfessionalText" (.var "prompt")
              (.var "promptAnalysis"))
            (.ifThen (.strictEq (.var "type") (.str "casual"))
              (.assignCall "generatedText" "generateCasualText" (.var "prompt")
                (.var "promptAnalysis"))
              (.ifThen (.strictEq (.var "type") (.str "academic"))
                (.assignCall "generatedText" "generateAcademicText" (.var "prompt")
                  (.var "promptAnalysis"))
                .skip))),
        .awaitTimeout 1500,
        .ret (.var "generatedText") ] }

/-- The function declarations that `generateAIText` calls, by name. -/
def declared (f : String) : Option FunDef :=
  if f = "analyzePrompt" then some analyzePromptDef
  else if f = "generateCreativeText" then some generateCreativeTextDef
  else if f = "generateProfessionalText" then some generateProfessionalTextDef
  else if f = "generateCasualText" then some generateCasualTextDef
  else if f = "generateAcademicText" then some generateAcademicTextDef
  else none

/-- A function body that calls no function. -/
def noCall : String → AppState → Val → Val → Option (AppState × Val) :=
  fun _ _ _ _ => none

/-- A call, by name, of one of the declared functions, none of which calls a function. -/
def callDeclared (toLowerCase : String → String) :
    String → AppState → Val → Val → Option (AppState × Val) :=
  fun f g a b => (declared f).bind (fun d => runFun toLowerCase noCall g d a b)

/-- An analysis record as a value. -/
def analysisVal (analysis : PromptAnalysis) : Val :=
  .obj [ ("topic", .str analysis.topic), ("category", .str analysis.category),
         ("keywords", .arr (analysis.keywords.map Val.str)),
         ("complexity", .str analysis.complexity), ("tone", .str analysis.tone) ]

/-- The result of a generator as a value: the text, or the member of `Object.prototype`
that the category names. -/
def resultVal (category : String) : Option String → Val
  | some text => .str text
  | none => .native category

/-! ## Auxiliary facts about the primitives -/

theorem includesChars_iff (needle hay : List Char) :
    includesChars needle hay = true ↔ needle <:+: hay := by
  induction hay with
  | nil => simp [includesChars, List.isEmpty_iff]
  | cons c cs ih =>
    simp only [includesChars, Bool.or_eq_true, ih, List.infix_cons_iff,
      List.isPrefixOf_iff_prefix]

theorem includes_iff (s k : String) : includes s k = true ↔ k.data <:+: s.data :=
  includesChars_iff k.data s.data

theorem any_includes_iff (prompt : String) (keywords : List String) :
    keywords.any (fun keyword => includes prompt keyword) = true ↔
      ∃ k ∈ keywords, k.data <:+: prompt.data := by
  simp [List.any_eq_true, includes_iff]

theorem categorize_of_match (prompt : String) (current category : String)
    (keywords : List String) (earlier later : List (String × List String))
    (hk : ∃ k ∈ keywords, k.data <:+: prompt.data)
    (he : ∀ e ∈ earlier, ∀ k ∈ e.2, ¬ k.data <:+: prompt.data) :
    categorize prompt (earlier ++ (category, keywords) :: later) current = category := by
  induction earlier with
  | nil =>
    simp only [List.nil_append, categorize]
    rw [if_pos ((any_includes_iff prompt keywords).mpr hk)]
  | cons e es ih =>
    obtain ⟨c, ks⟩ := e
    have hno : ¬ (ks.any (fun keyword => includes prompt keyword) = true) := by
      rw [any_includes_iff]
      rintro ⟨k, hkm, hin⟩
      exact he (c, ks) (List.mem_cons_self _ _) k hkm hin
    simp only [List.cons_append, categorize]
    rw [if_neg hno]
    exact ih (fun e he' => he e (List.mem_cons_of_mem _ he'))

theorem categorize_of_no_match (prompt : String) (current : String)
    (table : List (String × List String))
    (h : ∀ e ∈ table, ∀ k ∈ e.2, ¬ k.data <:+: prompt.data) :
    categorize prompt table current = current := by
  induction table with
  | nil => rfl
  | cons e es ih =>
    obtain ⟨c, ks⟩ := e
    have hno : ¬ (ks.any (fun keyword => includes prompt keyword) = true) := by
      rw [any_includes_iff]
      rintro ⟨k, hkm, hin⟩
      exact h (c, ks) (List.mem_cons_self _ _) k hkm hin
    simp only [categorize]
    rw [if_neg hno]
    exact ih (fun e he' => h e (List.mem_cons_of_mem _ he'))

theorem categorize_mem (prompt : String) (current : String)
    (table : List (String × List String)) :
    categorize prompt table current = current ∨
      categorize prompt table current ∈ table.map Prod.fst := by
  induction table with
  | nil => exact Or.inl rfl
  | cons e es ih =>
    obtain ⟨c, ks⟩ := e
    simp only [categorize]
    split_ifs with hm
    · exact Or.inr (by simp)
    · rcases ih with h | h
      · exact Or.inl h
      · exact Or.inr (by simp only [List.map_cons, List.mem_cons]; exact Or.inr h)

theorem jsLength_pos_of_ne_empty (s : String) (h : s ≠ "") : 0 < jsLength s := by
  obtain ⟨cs⟩ := s
  cases cs with
  | nil => exact absurd rfl h
  | cons c cs =>
    have hc : 0 < utf16Units c := by
      unfold utf16Units
      split_ifs <;> decide
    show 0 < utf16Units c + jsLengthChars cs
    omega

theorem orElse_ne_empty (a : Option String) (b : String) (hb : b ≠ "") :
    orElse a b ≠ "" := by
  unfold orElse
  cases a with
  | none => exact hb
  | some s =>
    simp only []
    split_ifs with hs
    · exact hb
    · exact hs

theorem isKeyword_eq (word : String) :
    isKeyword word = decide (3 < jsLength word ∧
      word ∉ ["what", "how", "why", "when", "where", "this", "that", "with", "from",
        "into", "during", "before", "after", "above", "below"]) := by
  unfold isKeyword stopWords
  by_cases hl : jsLength word > 3 <;>
    by_cases hm : word ∈ ["what", "how", "why", "when", "where", "this", "that", "with",
      "from", "into", "during", "before", "after", "above", "below"] <;>
    simp [hl, hm]

/-! ## The fields of the analysis, one by one -/

theorem analyzePrompt_topic (prompt : String) (words : List String) :
    (analyzePrompt prompt words).topic = orElse words.head? "topic" := by
  unfold analyzePrompt
  simp only []
  split_ifs <;> rfl

theorem analyzePrompt_category (prompt : String) (words : List String) :
    (analyzePrompt prompt words).category = categorize prompt categories "" := by
  unfold analyzePrompt
  simp only []
  split_ifs <;> rfl

theorem analyzePrompt_keywords (prompt : String) (words : List String) :
    (analyzePrompt prompt words).keywords = (words.filter isKeyword).take 5 := by
  unfold analyzePrompt
  simp only []
  split_ifs <;> rfl

theorem analyzePrompt_complexity (prompt : String) (words : List String) :
    (analyzePrompt prompt words).complexity =
      if words.length > 10 || includes prompt "advanced" || includes prompt "complex" then
        "high"
      else if words.length < 5 then "low" else "medium" := by
  unfold analyzePrompt
  simp only []
  split_ifs <;> rfl

theorem analyzePrompt_tone (prompt : String) (words : List String) :
    (analyzePrompt prompt words).tone =
      if includes prompt "fun" || includes prompt "creative" || includes prompt "exciting" then
        "enthusiastic"
      else if includes prompt "serious" || includes prompt "professional"
          || includes prompt "formal" then "formal"
      else "neutral" := by
  unfold analyzePrompt
  simp only []
  split_ifs <;> rfl

/-! ## Category -/

/-- C1: the category set by `analyzePrompt` is the first entry of the table
technology, business, creative, education, lifestyle (in exactly that order) one of whose
keywords occurs as a substring of the raw prompt, and the token list plays no part in
the choice. -/
theorem analyzePrompt_category_first_match (prompt : String) (words words' : List String) :
    categories.map Prod.fst =
        ["technology", "business", "creative", "education", "lifestyle"] ∧
      (analyzePrompt prompt words).category = (analyzePrompt prompt words').category ∧
      ∀ (earlier later : List (String × List String)) (category : String)
        (keywords : List String),
        categories = earlier ++ (category, keywords) :: later →
        (∃ k ∈ keywords, k.data <:+: prompt.data) →
        (∀ e ∈ earlier, ∀ k ∈ e.2, ¬ k.data <:+: prompt.data) →
        (analyzePrompt prompt words).category = category := by
  refine ⟨rfl, ?_, ?_⟩
  · rw [analyzePrompt_category, analyzePrompt_category]
  · intro earlier later category keywords hsplit hk he
    rw [analyzePrompt_category, hsplit]
    exact categorize_of_match prompt "" category keywords earlier later hk he

/-- Witness for C1: "launch my startup story" has no technology keyword, the business
keyword "startup" and the creative keywords "story" and "art"; business comes first. -/
theorem analyzePrompt_category_first_match_witness :
    (∃ k ∈ ["business", "company", "startup", "marketing", "strategy", "plan",
        "project", "team", "product", "service"],
        k.data <:+: "launch my startup story".data) ∧
      (∀ e ∈ categories.take 1, ∀ k ∈ e.2, ¬ k.data <:+: "launch my startup story".data) ∧
      (analyzePrompt "launch my startup story" ["launch", "startup", "story"]).category
        = "business" := by
  have hk : ∃ k ∈ ["business", "company", "startup", "marketing", "strategy", "plan",
      "project", "team", "product", "service"],
      k.data <:+: "launch my startup story".data :=
    ⟨"startup", by decide, (includes_iff _ _).mp (by decide)⟩
  have he : ∀ e ∈ categories.take 1, ∀ k ∈ e.2,
      ¬ k.data <:+: "launch my startup story".data := by
    intro e he k hkm hin
    have hany : e.2.any (fun keyword => includes "launch my startup story" keyword) = true :=
      (any_includes_iff _ _).mpr ⟨k, hkm, hin⟩
    have hall : ∀ e ∈ categories.take 1,
        e.2.any (fun keyword => includes "launch my startup story" keyword) = false := by
      decide
    rw [hall e he] at hany
    exact Bool.noConfusion hany
  exact ⟨hk, he,
    (analyzePrompt_category_first_match "launch my startup story"
      ["launch", "startup", "story"] []).2.2 (categories.take 1) (categories.drop 2)
      "business" _ (by decide) hk he⟩

/-- C2 fails as stated: for the prompt "hello there", in which no category keyword occurs,
the category is the empty string, which is not one of the six names and is not
`uncategorized`. -/
theorem analyzePrompt_category_uncategorized_counterexample :
    (∀ e ∈ categories, ∀ k ∈ e.2, includes "hello there" k = false) ∧
      (analyzePrompt "hello there" ["hello", "there"]).category = "" ∧
      (analyzePrompt "hello there" ["hello", "there"]).category ∉
        ["technology", "business", "creative", "education", "lifestyle", "uncategorized"] ∧
      (analyzePrompt "hello there" ["hello", "there"]).category ≠ "uncategorized" := by
  decide

/-- C2, amended: the category returned by `analyzePrompt` is one of technology, business,
creative, education, lifestyle or the empty string, and it is the empty string whenever no
category keyword occurs in the prompt. -/
theorem analyzePrompt_category_range (prompt : String) (words : List String) :
    (analyzePrompt prompt words).category ∈
        ["technology", "business", "creative", "education", "lifestyle", ""] ∧
      ((∀ e ∈ categories, ∀ k ∈ e.2, ¬ k.data <:+: prompt.data) →
        (analyzePrompt prompt words).category = "") := by
  constructor
  · rw [analyzePrompt_category]
    rcases categorize_mem prompt "" categories with h | h
    · rw [h]; decide
    · have hnames : categories.map Prod.fst =
          ["technology", "business", "creative", "education", "lifestyle"] := rfl
      rw [hnames] at h
      simp only [List.mem_cons] at h ⊢
      tauto
  · intro h
    rw [analyzePrompt_category]
    exact categorize_of_no_match prompt "" categories h

/-- Witness for the amended C2, at the prompt "hello there". -/
theorem analyzePrompt_category_range_witness :
    (∀ e ∈ categories, ∀ k ∈ e.2, ¬ k.data <:+: "hello there".data) ∧
      (analyzePrompt "hello there" ["hello", "there"]).category = "" := by
  have h : ∀ e ∈ categories, ∀ k ∈ e.2, ¬ k.data <:+: "hello there".data := by
    intro e he k hkm hin
    have hall : ∀ e ∈ categories, ∀ k ∈ e.2, includes "hello there" k = false := by decide
    have := (includes_iff "hello there" k).mpr hin
    rw [hall e he k hkm] at this
    exact Bool.noConfusion this
  exact ⟨h, (analyzePrompt_category_range "hello there" ["hello", "there"]).2 h⟩

/-- C3: a prompt that contains one of the technology keywords anywhere as a substring,
also inside a longer word, gets category technology, whatever else it contains. -/
theorem analyzePrompt_technology (prompt : String) (words : List String) (k : String)
    (hk : k ∈ ["app", "website", "software", "program", "code", "system", "platform",
      "database", "api", "algorithm"])
    (hin : k.data <:+: prompt.data) :
    (analyzePrompt prompt words).category = "technology" := by
  rw [analyzePrompt_category]
  exact categorize_of_match prompt "" "technology" _ [] (categories.drop 1) ⟨k, hk, hin⟩
    (fun e he => absurd he (List.not_mem_nil e))

/-- Witness for C3: "a happy business story" contains "app" only inside "happy", and also
a business and a creative keyword. -/
theorem analyzePrompt_technology_witness :
    "app".data <:+: "a happy business story".data ∧
      "business".data <:+: "a happy business story".data ∧
      "story".data <:+: "a happy business story".data ∧
      (analyzePrompt "a happy business story" ["happy", "business", "story"]).category
        = "technology" :=
  ⟨(includes_iff _ _).mp (by decide), (includes_iff _ _).mp (by decide),
    (includes_iff _ _).mp (by decide),
    analyzePrompt_technology "a happy business story" ["happy", "business", "story"] "app"
      (by decide) ((includes_iff _ _).mp (by decide))⟩

/-! ## Keywords -/

/-- C4: for every prompt and every token list, of any length, the keywords list returned
by `analyzePrompt` has at most 5 elements. -/
theorem analyzePrompt_keywords_length_le (prompt : String) (words : List String) :
    (analyzePrompt prompt words).keywords.length ≤ 5 := by
  rw [analyzePrompt_keywords, List.length_take]
  exact Nat.min_le_left _ _

/-- C5: the keywords are the first 5 elements, in original order, of the sub-list of the
tokens that have length > 3 and are not one of the 15 stop words; duplicates are kept and
the prompt string has no influence. -/
theorem analyzePrompt_keywords_eq (prompt prompt' : String) (words : List String) :
    (analyzePrompt prompt words).keywords =
        (words.filter (fun w => decide (3 < jsLength w ∧
          w ∉ ["what", "how", "why", "when", "where", "this", "that", "with", "from",
            "into", "during", "before", "after", "above", "below"]))).take 5 ∧
      ["what", "how", "why", "when", "where", "this", "that", "with", "from", "into",
        "during", "before", "after", "above", "below"].length = 15 ∧
      (analyzePrompt prompt words).keywords = (analyzePrompt prompt' words).keywords ∧
      (analyzePrompt prompt ["data", "with", "data", "api", "data"]).keywords
        = ["data", "data", "data"] := by
  refine ⟨?_, rfl, ?_, ?_⟩
  · rw [analyzePrompt_keywords]
    congr 1
    exact List.filter_congr (fun w _ => isKeyword_eq w)
  · rw [analyzePrompt_keywords, analyzePrompt_keywords]
  · rw [analyzePrompt_keywords]
    decide

/-! ## Topic -/

/-- C6: when every token has length > 2, the topic is the first token if there is one and
the literal "topic" if the list is empty. -/
theorem analyzePrompt_topic_first (prompt : String) (words : List String)
    (hlen : ∀ w ∈ words, jsLength w > 2) :
    (words = [] → (analyzePrompt prompt words).topic = "topic") ∧
      (∀ w rest, words = w :: rest → (analyzePrompt prompt words).topic = w) := by
  constructor
  · intro h
    rw [analyzePrompt_topic, h]
    rfl
  · intro w rest h
    have hw : w ≠ "" := by
      intro he
      have h2 := hlen w (by rw [h]; exact List.mem_cons_self _ _)
      rw [he] at h2
      exact absurd h2 (by decide)
    rw [analyzePrompt_topic, h]
    simp only [List.head?_cons, orElse]
    rw [if_neg hw]

/-- Witness for C6, at the tokens of "build mobile app". -/
theorem analyzePrompt_topic_first_witness :
    (∀ w ∈ ["build", "mobile", "app"], jsLength w > 2) ∧
      (analyzePrompt "build mobile app" ["build", "mobile", "app"]).topic = "build" :=
  ⟨by decide,
    (analyzePrompt_topic_first "build mobile app" ["build", "mobile", "app"]
      (by decide)).2 "build" ["mobile", "app"] rfl⟩

/-- C7: for every prompt and every token list of strings, the empty list and a list whose
first element is the empty string included, the topic is a non-empty string. -/
theorem analyzePrompt_topic_nonempty (prompt : String) (words : List String) :
    (analyzePrompt prompt words).topic ≠ "" ∧
      0 < jsLength (analyzePrompt prompt words).topic ∧
      (analyzePrompt prompt []).topic = "topic" ∧
      (analyzePrompt prompt ("" :: words)).topic = "topic" := by
  have h : (analyzePrompt prompt words).topic ≠ "" := by
    rw [analyzePrompt_topic]
    exact orElse_ne_empty _ _ (by decide)
  refine ⟨h, jsLength_pos_of_ne_empty _ h, ?_, ?_⟩
  · rw [analyzePrompt_topic]; rfl
  · rw [analyzePrompt_topic]; rfl

/-! ## Complexity -/

theorem complexity_high (prompt : String) (words : List String)
    (h : 10 < words.length ∨ "advanced".data <:+: prompt.data ∨
      "complex".data <:+: prompt.data) :
    (analyzePrompt prompt words).complexity = "high" := by
  rw [analyzePrompt_complexity, if_pos]
  simp only [Bool.or_eq_true, decide_eq_true_eq, includes_iff]
  tauto

theorem complexity_not_high (prompt : String) (words : List String)
    (hlen : words.length ≤ 10) (ha : ¬ "advanced".data <:+: prompt.data)
    (hc : ¬ "complex".data <:+: prompt.data) :
    (analyzePrompt prompt words).complexity =
      if words.length < 5 then "low" else "medium" := by
  rw [analyzePrompt_complexity, if_neg]
  simp only [Bool.or_eq_true, decide_eq_true_eq, includes_iff]
  rintro ((h | h) | h)
  · omega
  · exact ha h
  · exact hc h

/-- C8: the complexity is high if the token count exceeds 10 or the prompt contains
"advanced" or "complex"; otherwise low if the token count is below 5; otherwise medium.
In particular 11 or more tokens give high, 5 to 10 tokens without an override word give
medium, and the high check wins over the low check. -/
theorem analyzePrompt_complexity_cases (prompt : String) (words : List String) :
    ((10 < words.length ∨ "advanced".data <:+: prompt.data ∨
        "complex".data <:+: prompt.data) →
        (analyzePrompt prompt words).complexity = "high") ∧
      (¬ (10 < words.length ∨ "advanced".data <:+: prompt.data ∨
        "complex".data <:+: prompt.data) → words.length < 5 →
        (analyzePrompt prompt words).complexity = "low") ∧
      (¬ (10 < words.length ∨ "advanced".data <:+: prompt.data ∨
        "complex".data <:+: prompt.data) → ¬ words.length < 5 →
        (analyzePrompt prompt words).complexity = "medium") ∧
      (11 ≤ words.length → (analyzePrompt prompt words).complexity = "high") ∧
      (5 ≤ words.length → words.length ≤ 10 → ¬ "advanced".data <:+: prompt.data →
        ¬ "complex".data <:+: prompt.data →
        (analyzePrompt prompt words).complexity = "medium") ∧
      (words.length < 5 →
        ("advanced".data <:+: prompt.data ∨ "complex".data <:+: prompt.data) →
        (analyzePrompt prompt words).complexity = "high") := by
  refine ⟨complexity_high prompt words, ?_, ?_, ?_, ?_, ?_⟩
  · intro hn hl
    rw [complexity_not_high prompt words (by omega) (fun h => hn (Or.inr (Or.inl h)))
      (fun h => hn (Or.inr (Or.inr h))), if_pos hl]
  · intro hn hl
    rw [complexity_not_high prompt words (by_contra (fun h => hn (Or.inl (by omega))))
      (fun h => hn (Or.inr (Or.inl h))) (fun h => hn (Or.inr (Or.inr h))), if_neg hl]
  · intro h
    exact complexity_high prompt words (Or.inl (by omega))
  · intro h5 h10 ha hc
    rw [complexity_not_high prompt words h10 ha hc, if_neg (by omega)]
  · intro _ h
    exact complexity_high prompt words (Or.inr h)

/-- Witness for C8: five tokens and no override word give medium. -/
theorem analyzePrompt_complexity_cases_witness :
    5 ≤ ["write", "short", "note", "about", "cats"].length ∧
      ["write", "short", "note", "about", "cats"].length ≤ 10 ∧
      ¬ "advanced".data <:+: "write short note about cats".data ∧
      ¬ "complex".data <:+: "write short note about cats".data ∧
      (analyzePrompt "write short note about cats"
        ["write", "short", "note", "about", "cats"]).complexity = "medium" := by
  have ha : ¬ "advanced".data <:+: "write short note about cats".data := by
    rw [← includes_iff]; decide
  have hc : ¬ "complex".data <:+: "write short note about cats".data := by
    rw [← includes_iff]; decide
  exact ⟨by decide, by decide, ha, hc,
    (analyzePrompt_complexity_cases "write short note about cats"
      ["write", "short", "note", "about", "cats"]).2.2.2.2.1 (by decide) (by decide) ha hc⟩

/-- C9 fails as stated: "build advanced mobile app" has exactly 4 tokens of length > 2,
and its complexity is high, not low. -/
theorem analyzePrompt_four_tokens_counterexample :
    tokenize "build advanced mobile app" = ["build", "advanced", "mobile", "app"] ∧
      (tokenize "build advanced mobile app").length = 4 ∧
      (analyzePrompt "build advanced mobile app"
        (tokenize "build advanced mobile app")).complexity = "high" ∧
      (analyzePrompt "build advanced mobile app"
        (tokenize "build advanced mobile app")).complexity ≠ "low" := by
  decide

/-- C9, amended: for every prompt that contains neither "advanced" nor "complex" and
every list of exactly 4 tokens, the complexity is low. -/
theorem analyzePrompt_four_tokens_low (prompt : String) (words : List String)
    (hlen : words.length = 4) (ha : ¬ "advanced".data <:+: prompt.data)
    (hc : ¬ "complex".data <:+: prompt.data) :
    (analyzePrompt prompt words).complexity = "low" := by
  rw [complexity_not_high prompt words (by omega) ha hc, if_pos (by omega)]

/-- Witness for the amended C9, at the 4 tokens of "design simple mobile game". -/
theorem analyzePrompt_four_tokens_low_witness :
    (tokenize "design simple mobile game").length = 4 ∧
      (analyzePrompt "design simple mobile game"
        (tokenize "design simple mobile game")).complexity = "low" :=
  ⟨by decide,
    analyzePrompt_four_tokens_low "design simple mobile game"
      (tokenize "design simple mobile game") (by decide)
      (by rw [← includes_iff]; decide) (by rw [← includes_iff]; decide)⟩

/-! ## Tone -/

theorem tone_enthusiastic (prompt : String) (words : List String)
    (h : "fun".data <:+: prompt.data ∨ "creative".data <:+: prompt.data ∨
      "exciting".data <:+: prompt.data) :
    (analyzePrompt prompt words).tone = "enthusiastic" := by
  rw [analyzePrompt_tone, if_pos]
  simp only [Bool.or_eq_true, includes_iff]
  tauto

theorem tone_not_enthusiastic (prompt : String) (words : List String)
    (h : ¬ ("fun".data <:+: prompt.data ∨ "creative".data <:+: prompt.data ∨
      "exciting".data <:+: prompt.data)) :
    (analyzePrompt prompt words).tone =
      if includes prompt "serious" || includes prompt "professional"
          || includes prompt "formal" then "formal"
      else "neutral" := by
  rw [analyzePrompt_tone, if_neg]
  simp only [Bool.or_eq_true, includes_iff]
  tauto

/-- C10: the tone is enthusiastic if the prompt contains "fun", "creative" or "exciting"
as a substring; otherwise formal if it contains "serious", "professional" or "formal";
otherwise neutral.  Hence a prompt containing both "fun" and "serious" is
enthusiastic. -/
theorem analyzePrompt_tone_cases (prompt : String) (words : List String) :
    (("fun".data <:+: prompt.data ∨ "creative".data <:+: prompt.data ∨
        "exciting".data <:+: prompt.data) →
        (analyzePrompt prompt words).tone = "enthusiastic") ∧
      (¬ ("fun".data <:+: prompt.data ∨ "creative".data <:+: prompt.data ∨
        "exciting".data <:+: prompt.data) →
        ("serious".data <:+: prompt.data ∨ "professional".data <:+: prompt.data ∨
          "formal".data <:+: prompt.data) →
        (analyzePrompt prompt words).tone = "formal") ∧
      (¬ ("fun".data <:+: prompt.data ∨ "creative".data <:+: prompt.data ∨
        "exciting".data <:+: prompt.data) →
        ¬ ("serious".data <:+: prompt.data ∨ "professional".data <:+: prompt.data ∨
          "formal".data <:+: prompt.data) →
        (analyzePrompt prompt words).tone = "neutral") ∧
      ("fun".data <:+: prompt.data → "serious".data <:+: prompt.data →
        (analyzePrompt prompt words).tone = "enthusiastic") := by
  refine ⟨tone_enthusiastic prompt words, ?_, ?_, ?_⟩
  · intro hn hf
    rw [tone_not_enthusiastic prompt words hn, if_pos]
    simp only [Bool.or_eq_true, includes_iff]
    tauto
  · intro hn hf
    rw [tone_not_enthusiastic prompt words hn, if_neg]
    simp only [Bool.or_eq_true, includes_iff]
    tauto
  · intro h _
    exact tone_enthusiastic prompt words (Or.inl h)

/-- Witness for C10: "a fun but serious story" contains both "fun" and "serious". -/
theorem analyzePrompt_tone_cases_witness :
    "fun".data <:+: "a fun but serious story".data ∧
      "serious".data <:+: "a fun but serious story".data ∧
      (analyzePrompt "a fun but serious story" ["fun", "but", "serious", "story"]).tone
        = "enthusiastic" :=
  ⟨(includes_iff _ _).mp (by decide), (includes_iff _ _).mp (by decide),
    (analyzePrompt_tone_cases "a fun but serious story"
      ["fun", "but", "serious", "story"]).2.2.2
      ((includes_iff _ _).mp (by decide)) ((includes_iff _ _).mp (by decide))⟩

/-! ## Auxiliary facts about templates and their selection -/

theorem render_cons_data (prompt : String) (analysis : PromptAnalysis) (piece : Piece)
    (rest : List Piece) :
    (render prompt analysis (piece :: rest)).data =
      (piece.text prompt analysis).data ++ (render prompt analysis rest).data := by
  simp only [render, String.data_append]

theorem text_occurs_in_render (prompt : String) (analysis : PromptAnalysis) (piece : Piece)
    (pieces : List Piece) (h : piece ∈ pieces) :
    (piece.text prompt analysis).data <:+: (render prompt analysis pieces).data := by
  induction pieces with
  | nil => exact absurd h (List.not_mem_nil _)
  | cons x xs ih =>
    rw [render_cons_data]
    rcases List.mem_cons.mp h with rfl | hx
    · exact ⟨[], (render prompt analysis xs).data, by simp⟩
    · obtain ⟨u, v, huv⟩ := ih hx
      exact ⟨(x.text prompt analysis).data ++ u, v, by simp [← huv]⟩

theorem render_ne_empty (prompt : String) (analysis : PromptAnalysis) (pieces : List Piece)
    (h : startsWithText pieces = true) : render prompt analysis pieces ≠ "" := by
  intro he
  have hd : (render prompt analysis pieces).data = [] := by rw [he]
  cases pieces with
  | nil => simp [startsWithText] at h
  | cons x xs =>
    cases x with
    | lit s =>
      rw [render_cons_data] at hd
      have hs : s.data = [] := (List.append_eq_nil.mp hd).1
      simp [startsWithText, Piece.text, hs] at h
    | prompt => simp [startsWithText] at h
    | topic => simp [startsWithText] at h
    | keywords => simp [startsWithText] at h
    | firstKeywords => simp [startsWithText] at h
    | ifHigh y n => simp [startsWithText] at h

theorem all_start_with_text : ∀ t ∈ allTemplates, startsWithText t = true := by
  decide

theorem selectTemplate_own (templates : List (String × String)) (key text : String)
    (hl : templates.lookup key = some text) (hne : text ≠ "") :
    selectTemplate templates key = some text := by
  unfold selectTemplate
  rw [hl]
  simp only []
  rw [if_neg hne]

theorem selectTemplate_default (templates : List (String × String)) (key : String)
    (hl : templates.lookup key = none) (hk : key ∉ objectPrototypeKeys) :
    selectTemplate templates key = templates.lookup "default" := by
  unfold selectTemplate
  rw [hl]
  simp only []
  rw [if_neg]
  simpa using hk

theorem lookup_cons_ne (key k : String) (v : String) (rest : List (String × String))
    (h : key ≠ k) : List.lookup key ((k, v) :: rest) = List.lookup key rest := by
  have hb : (key == k) = false := by simpa using h
  simp only [List.lookup, hb]

theorem generateCreativeText_eq (prompt : String) (analysis : PromptAnalysis)
    (hk : analysis.category ∉ objectPrototypeKeys) :
    generateCreativeText prompt analysis =
      some (render prompt analysis (creativeVariant analysis.category)) := by
  unfold generateCreativeText creativeVariant
  by_cases h1 : analysis.category = "technology"
  · rw [h1]
    exact selectTemplate_own _ _ _ (by simp [List.lookup]) (render_ne_empty _ _ _ (by decide))
  by_cases h2 : analysis.category = "business"
  · rw [h2]
    exact selectTemplate_own _ _ _ (by simp [List.lookup]) (render_ne_empty _ _ _ (by decide))
  by_cases h3 : analysis.category = "creative"
  · rw [h3]
    exact selectTemplate_own _ _ _ (by simp [List.lookup]) (render_ne_empty _ _ _ (by decide))
  by_cases h4 : analysis.category = "default"
  · rw [h4]
    exact selectTemplate_own _ _ _ (by simp [List.lookup]) (render_ne_empty _ _ _ (by decide))
  · rw [if_neg h1, if_neg h2, if_neg h3]
    rw [selectTemplate_default _ _ (by
      rw [lookup_cons_ne _ _ _ _ h1, lookup_cons_ne _ _ _ _ h2, lookup_cons_ne _ _ _ _ h3,
        lookup_cons_ne _ _ _ _ h4]
      rfl) hk]
    simp [List.lookup]

theorem generateProfessionalText_eq (prompt : String) (analysis : PromptAnalysis)
    (hk : analysis.category ∉ objectPrototypeKeys) :
    generateProfessionalText prompt analysis =
      some (render prompt analysis (professionalVariant analysis.category)) := by
  unfold generateProfessionalText professionalVariant
  by_cases h1 : analysis.category = "technology"
  · rw [h1]
    exact selectTemplate_own _ _ _ (by simp [List.lookup]) (render_ne_empty _ _ _ (by decide))
  by_cases h2 : analysis.category = "business"
  · rw [h2]
    exact selectTemplate_own _ _ _ (by simp [List.lookup]) (render_ne_empty _ _ _ (by decide))
  by_cases h4 : analysis.category = "default"
  · rw [h4]
    exact selectTemplate_own _ _ _ (by simp [List.lookup]) (render_ne_empty _ _ _ (by decide))
  · rw [if_neg h1, if_neg h2]
    rw [selectTemplate_default _ _ (by
      rw [lookup_cons_ne _ _ _ _ h1, lookup_cons_ne _ _ _ _ h2, lookup_cons_ne _ _ _ _ h4]
      rfl) hk]
    simp [List.lookup]

theorem generateCasualText_eq (prompt : String) (analysis : PromptAnalysis)
    (hk : analysis.category ∉ objectPrototypeKeys) :
    generateCasualText prompt analysis =
      some (render prompt analysis (casualVariant analysis.category)) := by
  unfold generateCasualText casualVariant
  by_cases h1 : analysis.category = "technology"
  · rw [h1]
    exact selectTemplate_own _ _ _ (by simp [List.lookup]) (render_ne_empty _ _ _ (by decide))
  by_cases h2 : analysis.category = "business"
  · rw [h2]
    exact selectTemplate_own _ _ _ (by simp [List.lookup]) (render_ne_empty _ _ _ (by decide))
  by_cases h4 : analysis.category = "default"
  · rw [h4]
    exact selectTemplate_own _ _ _ (by simp [List.lookup]) (render_ne_empty _ _ _ (by decide))
  · rw [if_neg h1, if_neg h2]
    rw [selectTemplate_default _ _ (by
      rw [lookup_cons_ne _ _ _ _ h1, lookup_cons_ne _ _ _ _ h2, lookup_cons_ne _ _ _ _ h4]
      rfl) hk]
    simp [List.lookup]

theorem generateAcademicText_eq (prompt : String) (analysis : PromptAnalysis)
    (hk : analysis.category ∉ objectPrototypeKeys) :
    generateAcademicText prompt analysis =
      some (render prompt analysis (academicVariant analysis.category)) := by
  unfold generateAcademicText academicVariant
  by_cases h1 : analysis.category = "technology"
  · rw [h1]
    exact selectTemplate_own _ _ _ (by simp [List.lookup]) (render_ne_empty _ _ _ (by decide))
  by_cases h2 : analysis.category = "business"
  · rw [h2]
    exact selectTemplate_own _ _ _ (by simp [List.lookup]) (render_ne_empty _ _ _ (by decide))
  by_cases h4 : analysis.category = "default"
  · rw [h4]
    exact selectTemplate_own _ _ _ (by simp [List.lookup]) (render_ne_empty _ _ _ (by decide))
  · rw [if_neg h1, if_neg h2]
    rw [selectTemplate_default _ _ (by
      rw [lookup_cons_ne _ _ _ _ h1, lookup_cons_ne _ _ _ _ h2, lookup_cons_ne _ _ _ _ h4]
      rfl) hk]
    simp [List.lookup]

theorem mentions_prompt_and_topic :
    ∀ t ∈ allTemplates, Piece.prompt ∈ t ∧ Piece.topic ∈ t := by
  decide

theorem creativeVariant_mem (category : String) : creativeVariant category ∈ allTemplates := by
  unfold creativeVariant
  split_ifs <;> simp [allTemplates]

theorem professionalVariant_mem (category : String) :
    professionalVariant category ∈ allTemplates := by
  unfold professionalVariant
  split_ifs <;> simp [allTemplates]

theorem casualVariant_mem (category : String) : casualVariant category ∈ allTemplates := by
  unfold casualVariant
  split_ifs <;> simp [allTemplates]

theorem academicVariant_mem (category : String) : academicVariant category ∈ allTemplates := by
  unfold academicVariant
  split_ifs <;> simp [allTemplates]

theorem template_contains_prompt_and_topic (prompt : String) (analysis : PromptAnalysis)
    (t : List Piece) (ht : t ∈ allTemplates) :
    prompt.data <:+: (render prompt analysis t).data ∧
      analysis.topic.data <:+: (render prompt analysis t).data :=
  ⟨text_occurs_in_render prompt analysis Piece.prompt t (mentions_prompt_and_topic t ht).1,
    text_occurs_in_render prompt analysis Piece.topic t (mentions_prompt_and_topic t ht).2⟩

theorem render_lit_prompt (prompt : String) (analysis : PromptAnalysis) (s : String)
    (rest : List Piece) :
    render prompt analysis (Piece.lit s :: Piece.prompt :: rest) =
      s ++ prompt ++ render prompt analysis rest := by
  simp only [render, Piece.text, String.append_assoc]

theorem text_congr (prompt : String) (a b : PromptAnalysis) (piece : Piece)
    (ht : a.topic = b.topic) (hc : a.complexity = b.complexity)
    (hk : a.keywords = b.keywords) : piece.text prompt a = piece.text prompt b := by
  cases piece <;> simp only [Piece.text, ht, hc, hk]

theorem render_congr (prompt : String) (a b : PromptAnalysis) (pieces : List Piece)
    (ht : a.topic = b.topic) (hc : a.complexity = b.complexity)
    (hk : a.keywords = b.keywords) : render prompt a pieces = render prompt b pieces := by
  induction pieces with
  | nil => rfl
  | cons x xs ih => simp only [render, ih, text_congr prompt a b x ht hc hk]

theorem render_congr_first_three (prompt : String) (a b : PromptAnalysis)
    (pieces : List Piece) (ht : a.topic = b.topic) (hc : a.complexity = b.complexity)
    (hk : a.keywords.take 3 = b.keywords.take 3) (hu : usesAllKeywords pieces = false) :
    render prompt a pieces = render prompt b pieces := by
  induction pieces with
  | nil => rfl
  | cons x xs ih =>
    cases x with
    | keywords => simp [usesAllKeywords] at hu
    | lit s => simp only [render, Piece.text, ih (by simpa [usesAllKeywords] using hu)]
    | prompt => simp only [render, Piece.text, ih (by simpa [usesAllKeywords] using hu)]
    | topic => simp only [render, Piece.text, ht, ih (by simpa [usesAllKeywords] using hu)]
    | firstKeywords =>
      simp only [render, Piece.text, hk, ih (by simpa [usesAllKeywords] using hu)]
    | ifHigh y n =>
      simp only [render, Piece.text, hc, ih (by simpa [usesAllKeywords] using hu)]

theorem analyzePrompt_category_not_inherited (prompt : String) (words : List String) :
    (analyzePrompt prompt words).category ∉ objectPrototypeKeys := by
  rw [analyzePrompt_category]
  rcases categorize_mem prompt "" categories with h | h
  · rw [h]; decide
  · have hall : ∀ c ∈ categories.map Prod.fst, c ∉ objectPrototypeKeys := by decide
    exact hall _ h

theorem generateAIText_creative (toLowerCase : String → String) (prompt : String) :
    generateAIText toLowerCase prompt "creative" =
      some (render prompt (promptAnalysisOf toLowerCase prompt)
        (creativeVariant (promptAnalysisOf toLowerCase prompt).category)) := by
  unfold generateAIText
  simp only [↓reduceIte]
  exact generateCreativeText_eq _ _ (analyzePrompt_category_not_inherited _ _)

theorem generateAIText_professional (toLowerCase : String → String) (prompt : String) :
    generateAIText toLowerCase prompt "professional" =
      some (render prompt (promptAnalysisOf toLowerCase prompt)
        (professionalVariant (promptAnalysisOf toLowerCase prompt).category)) := by
  unfold generateAIText
  simp only [↓reduceIte]
  exact generateProfessionalText_eq _ _ (analyzePrompt_category_not_inherited _ _)

theorem generateAIText_casual (toLowerCase : String → String) (prompt : String) :
    generateAIText toLowerCase prompt "casual" =
      some (render prompt (promptAnalysisOf toLowerCase prompt)
        (casualVariant (promptAnalysisOf toLowerCase prompt).category)) := by
  unfold generateAIText
  simp only [↓reduceIte]
  exact generateCasualText_eq _ _ (analyzePrompt_category_not_inherited _ _)

theorem generateAIText_academic (toLowerCase : String → String) (prompt : String) :
    generateAIText toLowerCase prompt "academic" =
      some (render prompt (promptAnalysisOf toLowerCase prompt)
        (academicVariant (promptAnalysisOf toLowerCase prompt).category)) := by
  unfold generateAIText
  simp only [↓reduceIte]
  exact generateAcademicText_eq _ _ (analyzePrompt_category_not_inherited _ _)

theorem diverge_sound : ∀ (xs ys r₁ r₂ : List Char), diverge xs ys = true →
    xs ++ r₁ ≠ ys ++ r₂
  | [], _, _, _, h => by simp [diverge] at h
  | _ :: _, [], _, _, h => by simp [diverge] at h
  | c :: cs, d :: ds, r₁, r₂, h => by
    intro he
    simp only [List.cons_append, List.cons.injEq] at he
    simp only [diverge] at h
    rw [if_pos he.1] at h
    exact diverge_sound cs ds r₁ r₂ h he.2

theorem render_cons_ne (prompt : String) (analysis : PromptAnalysis) (piece : Piece)
    (xs ys : List Piece) (h : render prompt analysis xs ≠ render prompt analysis ys) :
    render prompt analysis (piece :: xs) ≠ render prompt analysis (piece :: ys) := by
  intro he
  have hd := congrArg String.data he
  rw [render_cons_data, render_cons_data] at hd
  exact h (String.ext (List.append_cancel_left hd))

theorem differ_sound (prompt : String) (analysis : PromptAnalysis) (s t : List Piece)
    (h : differ s t = true) : render prompt analysis s ≠ render prompt analysis t := by
  induction s, t using differ.induct with
  | case1 u xs v ys ih =>
    simp only [differ, Bool.or_eq_true, Bool.and_eq_true, decide_eq_true_eq] at h
    rcases h with h | ⟨rfl, h⟩
    · intro he
      have hd := congrArg String.data he
      rw [render_cons_data, render_cons_data] at hd
      exact diverge_sound _ _ _ _ h hd
    · exact render_cons_ne _ _ _ _ _ (ih h)
  | case2 xs ys ih => exact render_cons_ne _ _ _ _ _ (ih (by simpa [differ] using h))
  | case3 xs ys ih => exact render_cons_ne _ _ _ _ _ (ih (by simpa [differ] using h))
  | case4 xs ys ih => exact render_cons_ne _ _ _ _ _ (ih (by simpa [differ] using h))
  | case5 xs ys ih => exact render_cons_ne _ _ _ _ _ (ih (by simpa [differ] using h))
  | case6 s t h1 h2 h3 h4 h5 =>
    rw [differ] at h
    · exact absurd h (by decide)
    all_goals assumption

/-! ## Tokens and substrings without a space -/

theorem infix_of_sep_not_mem (k l₁ l₂ : List Char) (a : Char) (ha : a ∉ k)
    (h : k <:+: l₁ ++ a :: l₂) : k <:+: l₁ ∨ k <:+: l₂ := by
  induction l₁ with
  | nil =>
    simp only [List.nil_append] at h
    rcases List.infix_cons_iff.mp h with hp | hi
    · cases k with
      | nil => exact Or.inl List.nil_infix
      | cons c cs =>
        obtain ⟨t, ht⟩ := hp
        simp only [List.cons_append, List.cons.injEq] at ht
        exact absurd (ht.1 ▸ List.mem_cons_self c cs) ha
    · exact Or.inr hi
  | cons b l ih =>
    simp only [List.cons_append] at h
    rcases List.infix_cons_iff.mp h with hp | hi
    · left
      have h1 : (b :: l) <+: b :: (l ++ a :: l₂) := ⟨a :: l₂, by simp⟩
      rcases List.prefix_or_prefix_of_prefix hp h1 with hk | hk
      · exact hk.isInfix
      · obtain ⟨t, rfl⟩ := hk
        cases t with
        | nil => exact ⟨[], [], by simp⟩
        | cons c cs =>
          obtain ⟨u, hu⟩ := hp
          have hu' : c :: (cs ++ u) = a :: l₂ := by
            have : (b :: l) ++ (c :: (cs ++ u)) = (b :: l) ++ (a :: l₂) := by
              simpa using hu
            exact List.append_cancel_left this
          simp only [List.cons.injEq] at hu'
          exact absurd (by simp [hu'.1]) ha
    · rcases ih hi with h' | h'
      · obtain ⟨u, v, huv⟩ := h'
        exact Or.inl ⟨b :: u, v, by simp [← huv]⟩
      · exact Or.inr h'

theorem occurs_in_token (k : List Char) (hk : ' ' ∉ k) :
    ∀ (cs cur : List Char), k <:+: cur.reverse ++ cs →
      ∃ w ∈ splitSpaceAux cs cur, k <:+: w.data
  | [], cur, h => ⟨String.mk cur.reverse, by simp [splitSpaceAux], by simpa using h⟩
  | c :: cs, cur, h => by
    simp only [splitSpaceAux]
    split_ifs with hc
    · subst hc
      rcases infix_of_sep_not_mem k _ _ ' ' hk h with h1 | h2
      · exact ⟨_, List.mem_cons_self _ _, h1⟩
      · obtain ⟨w, hw, hkw⟩ := occurs_in_token k hk cs [] (by simpa using h2)
        exact ⟨w, List.mem_cons_of_mem _ hw, hkw⟩
    · exact occurs_in_token k hk cs (c :: cur) (by simpa using h)

theorem length_le_jsLengthChars (cs : List Char) : cs.length ≤ jsLengthChars cs := by
  induction cs with
  | nil => exact Nat.le_refl _
  | cons c cs ih =>
    have hc : 1 ≤ utf16Units c := by
      unfold utf16Units
      split_ifs <;> decide
    simp only [List.length_cons, jsLengthChars]
    omega

theorem not_occurs_of_short_tokens (s k : String)
    (hshort : ∀ w ∈ splitSpace s, jsLength w ≤ 2) (hsp : ' ' ∉ k.data)
    (hlen : 3 ≤ k.data.length) : ¬ k.data <:+: s.data := by
  intro hin
  obtain ⟨w, hw, hkw⟩ := occurs_in_token k.data hsp s.data [] (by simpa using hin)
  have h1 : k.data.length ≤ w.data.length := hkw.length_le
  have h2 : w.data.length ≤ jsLength w := length_le_jsLengthChars w.data
  have h3 : jsLength w ≤ 2 := hshort w hw
  omega

theorem category_keywords_shape :
    ∀ e ∈ categories, ∀ k ∈ e.2, ' ' ∉ k.data ∧ 3 ≤ k.data.length := by
  decide

/-! ## Template selection by the generators -/

/-- C12: each generator returns the dedicated template of its style when the category has
one (technology and business, and also creative for the creative style) and the default
template of its style otherwise; the category ranges over strings that name no member of
`Object.prototype`, as every category of the data model does.  In particular category
lifestyle under the academic style gives the academic default template, which is not
empty. -/
theorem generators_select_template (prompt : String) (analysis : PromptAnalysis) :
    (analysis.category = "technology" →
        generateCreativeText prompt analysis
          = some (render prompt analysis creativeTechnology) ∧
        generateProfessionalText prompt analysis
          = some (render prompt analysis professionalTechnology) ∧
        generateCasualText prompt analysis
          = some (render prompt analysis casualTechnology) ∧
        generateAcademicText prompt analysis
          = some (render prompt analysis academicTechnology)) ∧
      (analysis.category = "business" →
        generateCreativeText prompt analysis
          = some (render prompt analysis creativeBusiness) ∧
        generateProfessionalText prompt analysis
          = some (render prompt analysis professionalBusiness) ∧
        generateCasualText prompt analysis
          = some (render prompt analysis casualBusiness) ∧
        generateAcademicText prompt analysis
          = some (render prompt analysis academicBusiness)) ∧
      (analysis.category = "creative" →
        generateCreativeText prompt analysis
          = some (render prompt analysis creativeCreative)) ∧
      (analysis.category ∉ ["technology", "business", "creative"] →
        analysis.category ∉ objectPrototypeKeys →
        generateCreativeText prompt analysis
          = some (render prompt analysis creativeDefault)) ∧
      (analysis.category ∉ ["technology", "business"] →
        analysis.category ∉ objectPrototypeKeys →
        generateProfessionalText prompt analysis
          = some (render prompt analysis professionalDefault) ∧
        generateCasualText prompt analysis
          = some (render prompt analysis casualDefault) ∧
        generateAcademicText prompt analysis
          = some (render prompt analysis academicDefault)) ∧
      (analysis.category = "lifestyle" →
        generateAcademicText prompt analysis
          = some (render prompt analysis academicDefault) ∧
        render prompt analysis academicDefault ≠ "") := by
  refine ⟨?_, ?_, ?_, ?_, ?_, ?_⟩
  · intro h
    have hk : analysis.category ∉ objectPrototypeKeys := by rw [h]; decide
    rw [generateCreativeText_eq _ _ hk, generateProfessionalText_eq _ _ hk,
      generateCasualText_eq _ _ hk, generateAcademicText_eq _ _ hk, h]
    exact ⟨rfl, rfl, rfl, rfl⟩
  · intro h
    have hk : analysis.category ∉ objectPrototypeKeys := by rw [h]; decide
    rw [generateCreativeText_eq _ _ hk, generateProfessionalText_eq _ _ hk,
      generateCasualText_eq _ _ hk, generateAcademicText_eq _ _ hk, h]
    exact ⟨rfl, rfl, rfl, rfl⟩
  · intro h
    have hk : analysis.category ∉ objectPrototypeKeys := by rw [h]; decide
    rw [generateCreativeText_eq _ _ hk, h]
    rfl
  · intro hn hk
    simp only [List.mem_cons, List.mem_singleton, List.not_mem_nil, or_false, not_or] at hn
    rw [generateCreativeText_eq _ _ hk, creativeVariant, if_neg hn.1, if_neg hn.2.1,
      if_neg hn.2.2]
  · intro hn hk
    simp only [List.mem_cons, List.mem_singleton, List.not_mem_nil, or_false, not_or] at hn
    rw [generateProfessionalText_eq _ _ hk, generateCasualText_eq _ _ hk,
      generateAcademicText_eq _ _ hk]
    simp only [professionalVariant, casualVariant, academicVariant, if_neg hn.1,
      if_neg hn.2, and_self]
  · intro h
    have hk : analysis.category ∉ objectPrototypeKeys := by rw [h]; decide
    rw [generateAcademicText_eq _ _ hk, h]
    exact ⟨rfl, render_ne_empty _ _ _ (by decide)⟩

/-- Witness for C12: category lifestyle, which has no dedicated academic template. -/
theorem generators_select_template_witness :
    generateAcademicText "Plan a garden"
        { topic := "plan", category := "lifestyle", keywords := ["plan", "garden"],
          complexity := "low", tone := "neutral" }
      = some (render "Plan a garden"
        { topic := "plan", category := "lifestyle", keywords := ["plan", "garden"],
          complexity := "low", tone := "neutral" } academicDefault) :=
  ((generators_select_template "Plan a garden"
    { topic := "plan", category := "lifestyle", keywords := ["plan", "garden"],
      complexity := "low", tone := "neutral" }).2.2.2.2.2 rfl).1

/-- C13: for an analysis whose category is technology, `generateProfessionalText`
returns the professional technology variant; the text starts with
"🔧 **Professional Technical Analysis: " immediately followed by the prompt, and so
contains the prompt verbatim. -/
theorem generateProfessionalText_technology (prompt : String) (analysis : PromptAnalysis)
    (h : analysis.category = "technology") :
    generateProfessionalText prompt analysis
        = some (render prompt analysis professionalTechnology) ∧
      (∃ rest : String, generateProfessionalText prompt analysis
        = some ("🔧 **Professional Technical Analysis: " ++ prompt ++ rest)) ∧
      (∃ text : String, generateProfessionalText prompt analysis = some text ∧
        prompt.data <:+: text.data) := by
  have hk : analysis.category ∉ objectPrototypeKeys := by rw [h]; decide
  have hsel : generateProfessionalText prompt analysis
      = some (render prompt analysis professionalTechnology) := by
    rw [generateProfessionalText_eq _ _ hk, h]
    rfl
  refine ⟨hsel, ⟨render prompt analysis (professionalTechnology.drop 2), ?_⟩,
    ⟨_, hsel, (template_contains_prompt_and_topic prompt analysis _ (by simp [allTemplates])).1⟩⟩
  rw [hsel, ← render_lit_prompt]
  rfl

/-- Witness for C13, at the prompt "Build a mobile app". -/
theorem generateProfessionalText_technology_witness :
    ∃ rest : String, generateProfessionalText "Build a mobile app"
        { topic := "build", category := "technology", keywords := ["build", "mobile"],
          complexity := "low", tone := "neutral" }
      = some ("🔧 **Professional Technical Analysis: " ++ "Build a mobile app" ++ rest) :=
  (generateProfessionalText_technology "Build a mobile app"
    { topic := "build", category := "technology", keywords := ["build", "mobile"],
      complexity := "low", tone := "neutral" } rfl).2.1

/-! ## What the templates embed -/

/-- C14: whichever of the 13 template variants is selected, its text contains the
original prompt verbatim and contains `analysis.topic`; so does the text each of the four
generators returns (for a category that names no member of `Object.prototype`, as every
category of the data model does). -/
theorem generated_text_contains_prompt_and_topic (prompt : String)
    (analysis : PromptAnalysis) :
    (∀ t ∈ allTemplates,
        prompt.data <:+: (render prompt analysis t).data ∧
        analysis.topic.data <:+: (render prompt analysis t).data) ∧
      (analysis.category ∉ objectPrototypeKeys →
        ∀ generate ∈ [generateCreativeText, generateProfessionalText, generateCasualText,
          generateAcademicText],
          ∃ text : String, generate prompt analysis = some text ∧
            prompt.data <:+: text.data ∧ analysis.topic.data <:+: text.data) := by
  refine ⟨template_contains_prompt_and_topic prompt analysis, ?_⟩
  intro hk generate hg
  simp only [List.mem_cons, List.mem_singleton, List.not_mem_nil, or_false] at hg
  rcases hg with rfl | rfl | rfl | rfl
  · exact ⟨_, generateCreativeText_eq _ _ hk,
      template_contains_prompt_and_topic _ _ _ (creativeVariant_mem _)⟩
  · exact ⟨_, generateProfessionalText_eq _ _ hk,
      template_contains_prompt_and_topic _ _ _ (professionalVariant_mem _)⟩
  · exact ⟨_, generateCasualText_eq _ _ hk,
      template_contains_prompt_and_topic _ _ _ (casualVariant_mem _)⟩
  · exact ⟨_, generateAcademicText_eq _ _ hk,
      template_contains_prompt_and_topic _ _ _ (academicVariant_mem _)⟩

/-- Witness for C14: the casual text for an analysis with the empty category. -/
theorem generated_text_contains_prompt_and_topic_witness :
    ∃ text : String,
      generateCasualText "Tell me about Owls"
          { topic := "tell", category := "", keywords := ["tell", "about", "owls"],
            complexity := "low", tone := "neutral" } = some text ∧
        "Tell me about Owls".data <:+: text.data ∧ "tell".data <:+: text.data :=
  (generated_text_contains_prompt_and_topic "Tell me about Owls"
    { topic := "tell", category := "", keywords := ["tell", "about", "owls"],
      complexity := "low", tone := "neutral" }).2 (by decide) generateCasualText
    (by simp)

set_option maxRecDepth 1000000 in
/-- C15 fails as stated: under the creative style, two analyses that agree on category,
topic, complexity and on the first 3 keywords, and differ in the fourth keyword, give
different texts. -/
theorem first_three_keywords_counterexample :
    (["paint", "cats", "dogs", "birds"].take 3 = ["paint", "cats", "dogs", "owls"].take 3) ∧
      generateCreativeText "paint cats dogs birds"
          { topic := "paint", category := "", keywords := ["paint", "cats", "dogs", "birds"],
            complexity := "low", tone := "neutral" }
        ≠ generateCreativeText "paint cats dogs birds"
          { topic := "paint", category := "", keywords := ["paint", "cats", "dogs", "owls"],
            complexity := "low", tone := "neutral" } := by
  decide

/-- C15, amended: the professional and the casual generator depend on the keywords only
through their first 3 elements, so two analyses that agree on category, topic, complexity
and on the first 3 keywords get the same text from them; the creative and the academic
generator embed the whole keywords list, and two analyses that agree on category, topic,
complexity and on the whole keywords list get the same text from them. -/
theorem generated_text_keywords_dependence (prompt : String) (a b : PromptAnalysis)
    (hcat : a.category = b.category) (ht : a.topic = b.topic)
    (hc : a.complexity = b.complexity) :
    (a.keywords.take 3 = b.keywords.take 3 →
        generateProfessionalText prompt a = generateProfessionalText prompt b ∧
        generateCasualText prompt a = generateCasualText prompt b) ∧
      (a.keywords = b.keywords →
        generateCreativeText prompt a = generateCreativeText prompt b ∧
        generateAcademicText prompt a = generateAcademicText prompt b) := by
  constructor
  · intro hk
    constructor
    · unfold generateProfessionalText
      rw [render_congr_first_three prompt a b professionalTechnology ht hc hk (by decide),
        render_congr_first_three prompt a b professionalBusiness ht hc hk (by decide),
        render_congr_first_three prompt a b professionalDefault ht hc hk (by decide), hcat]
    · unfold generateCasualText
      rw [render_congr_first_three prompt a b casualTechnology ht hc hk (by decide),
        render_congr_first_three prompt a b casualBusiness ht hc hk (by decide),
        render_congr_first_three prompt a b casualDefault ht hc hk (by decide), hcat]
  · intro hk
    constructor
    · unfold generateCreativeText
      rw [render_congr prompt a b creativeTechnology ht hc hk,
        render_congr prompt a b creativeBusiness ht hc hk,
        render_congr prompt a b creativeCreative ht hc hk,
        render_congr prompt a b creativeDefault ht hc hk, hcat]
    · unfold generateAcademicText
      rw [render_congr prompt a b academicTechnology ht hc hk,
        render_congr prompt a b academicBusiness ht hc hk,
        render_congr prompt a b academicDefault ht hc hk, hcat]

/-- Witness for the amended C15: the casual text is the same for two analyses that differ
in the fourth keyword and in the tone only. -/
theorem generated_text_keywords_dependence_witness :
    generateCasualText "build apps"
        { topic := "build", category := "technology",
          keywords := ["build", "apps", "fast", "today"], complexity := "low",
          tone := "neutral" }
      = generateCasualText "build apps"
        { topic := "build", category := "technology",
          keywords := ["build", "apps", "fast", "later"], complexity := "low",
          tone := "formal" } :=
  ((generated_text_keywords_dependence "build apps"
    { topic := "build", category := "technology",
      keywords := ["build", "apps", "fast", "today"], complexity := "low",
      tone := "neutral" }
    { topic := "build", category := "technology",
      keywords := ["build", "apps", "fast", "later"], complexity := "low",
      tone := "formal" } rfl rfl rfl).1 rfl).2

/-- C16: embedded keywords are joined by comma and space: every creative and every
academic variant contains the whole keywords list joined with ", ", the casual technology
and business variants contain the first three keywords joined with ", ", and the other
variants embed no keywords. -/
theorem keywords_joined_by_comma_space (prompt : String) (analysis : PromptAnalysis) :
    (∀ t ∈ [creativeTechnology, creativeBusiness, creativeCreative, creativeDefault,
        academicTechnology, academicBusiness, academicDefault],
        (joinWith ", " analysis.keywords).data <:+: (render prompt analysis t).data) ∧
      (∀ t ∈ [casualTechnology, casualBusiness],
        (joinWith ", " (analysis.keywords.take 3)).data
          <:+: (render prompt analysis t).data) ∧
      (∀ t ∈ [professionalTechnology, professionalBusiness, professionalDefault,
        casualDefault], usesKeywords t = false) ∧
      joinWith ", " ["build", "mobile", "app"] = "build, mobile, app" := by
  refine ⟨?_, ?_, by decide, by decide⟩
  · intro t ht
    have hm : ∀ t ∈ [creativeTechnology, creativeBusiness, creativeCreative,
        creativeDefault, academicTechnology, academicBusiness, academicDefault],
        Piece.keywords ∈ t := by decide
    exact text_occurs_in_render prompt analysis Piece.keywords t (hm t ht)
  · intro t ht
    have hm : ∀ t ∈ [casualTechnology, casualBusiness], Piece.firstKeywords ∈ t := by decide
    exact text_occurs_in_render prompt analysis Piece.firstKeywords t (hm t ht)

/-- Witness for C16: the academic default variant with two keywords. -/
theorem keywords_joined_by_comma_space_witness :
    "plan, garden".data <:+: (render "Plan a garden"
      { topic := "plan", category := "lifestyle", keywords := ["plan", "garden"],
        complexity := "low", tone := "neutral" } academicDefault).data :=
  (keywords_joined_by_comma_space "Plan a garden"
    { topic := "plan", category := "lifestyle", keywords := ["plan", "garden"],
      complexity := "low", tone := "neutral" }).1 academicDefault (by simp)

/-! ## `generateAIText` -/

/-- C17: for every prompt and each of the four styles creative, professional, casual and
academic, `generateAIText` yields a string, and the string is not empty. -/
theorem generateAIText_nonempty (toLowerCase : String → String) (prompt : String) :
    (∃ text : String, generateAIText toLowerCase prompt "creative" = some text ∧ text ≠ "") ∧
      (∃ text : String,
        generateAIText toLowerCase prompt "professional" = some text ∧ text ≠ "") ∧
      (∃ text : String, generateAIText toLowerCase prompt "casual" = some text ∧ text ≠ "") ∧
      (∃ text : String,
        generateAIText toLowerCase prompt "academic" = some text ∧ text ≠ "") :=
  ⟨⟨_, generateAIText_creative toLowerCase prompt,
      render_ne_empty _ _ _ (all_start_with_text _ (creativeVariant_mem _))⟩,
    ⟨_, generateAIText_professional toLowerCase prompt,
      render_ne_empty _ _ _ (all_start_with_text _ (professionalVariant_mem _))⟩,
    ⟨_, generateAIText_casual toLowerCase prompt,
      render_ne_empty _ _ _ (all_start_with_text _ (casualVariant_mem _))⟩,
    ⟨_, generateAIText_academic toLowerCase prompt,
      render_ne_empty _ _ _ (all_start_with_text _ (academicVariant_mem _))⟩⟩

/-- C18: for the empty prompt (which lower-casing leaves empty) and each of the four
styles, `generateAIText` yields the default template of the style, instantiated with
topic "topic" and an empty keywords list. -/
theorem generateAIText_empty_prompt (toLowerCase : String → String)
    (hempty : toLowerCase "" = "") :
    promptAnalysisOf toLowerCase "" =
        { topic := "topic", category := "", keywords := [], complexity := "low",
          tone := "neutral" } ∧
      generateAIText toLowerCase "" "creative" = some (render ""
        { topic := "topic", category := "", keywords := [], complexity := "low",
          tone := "neutral" } creativeDefault) ∧
      generateAIText toLowerCase "" "professional" = some (render ""
        { topic := "topic", category := "", keywords := [], complexity := "low",
          tone := "neutral" } professionalDefault) ∧
      generateAIText toLowerCase "" "casual" = some (render ""
        { topic := "topic", category := "", keywords := [], complexity := "low",
          tone := "neutral" } casualDefault) ∧
      generateAIText toLowerCase "" "academic" = some (render ""
        { topic := "topic", category := "", keywords := [], complexity := "low",
          tone := "neutral" } academicDefault) := by
  have ha : promptAnalysisOf toLowerCase "" =
      { topic := "topic", category := "", keywords := [], complexity := "low",
        tone := "neutral" } := by
    unfold promptAnalysisOf
    have ht : trim "" = "" := by decide
    simp only [ht, hempty]
    decide
  refine ⟨ha, ?_, ?_, ?_, ?_⟩
  · rw [generateAIText_creative, ha]; rfl
  · rw [generateAIText_professional, ha]; rfl
  · rw [generateAIText_casual, ha]; rfl
  · rw [generateAIText_academic, ha]; rfl

/-- Witness for C18, with the lower-casing of ASCII letters. -/
theorem generateAIText_empty_prompt_witness :
    asciiToLowerCase "" = "" ∧
      generateAIText asciiToLowerCase "" "casual" = some (render ""
        { topic := "topic", category := "", keywords := [], complexity := "low",
          tone := "neutral" } casualDefault) :=
  ⟨by decide, (generateAIText_empty_prompt asciiToLowerCase (by decide)).2.2.2.1⟩

/-- C19: classification is case-insensitive: two prompts that become equal after trimming
and lower-casing have the same analysis, and for each style the same template variant is
instantiated for both, each with its own original prompt text, which the result contains
verbatim. -/
theorem generateAIText_case_insensitive (toLowerCase : String → String) (p q : String)
    (h : toLowerCase (trim p) = toLowerCase (trim q)) :
    promptAnalysisOf toLowerCase p = promptAnalysisOf toLowerCase q ∧
      (generateAIText toLowerCase p "creative" = some (render p (promptAnalysisOf toLowerCase p)
          (creativeVariant (promptAnalysisOf toLowerCase p).category)) ∧
        generateAIText toLowerCase q "creative" = some (render q (promptAnalysisOf toLowerCase p)
          (creativeVariant (promptAnalysisOf toLowerCase p).category))) ∧
      (generateAIText toLowerCase p "professional" =
          some (render p (promptAnalysisOf toLowerCase p)
            (professionalVariant (promptAnalysisOf toLowerCase p).category)) ∧
        generateAIText toLowerCase q "professional" =
          some (render q (promptAnalysisOf toLowerCase p)
            (professionalVariant (promptAnalysisOf toLowerCase p).category))) ∧
      (generateAIText toLowerCase p "casual" = some (render p (promptAnalysisOf toLowerCase p)
          (casualVariant (promptAnalysisOf toLowerCase p).category)) ∧
        generateAIText toLowerCase q "casual" = some (render q (promptAnalysisOf toLowerCase p)
          (casualVariant (promptAnalysisOf toLowerCase p).category))) ∧
      (generateAIText toLowerCase p "academic" = some (render p (promptAnalysisOf toLowerCase p)
          (academicVariant (promptAnalysisOf toLowerCase p).category)) ∧
        generateAIText toLowerCase q "academic" = some (render q (promptAnalysisOf toLowerCase p)
          (academicVariant (promptAnalysisOf toLowerCase p).category))) ∧
      (∀ (analysis : PromptAnalysis), ∀ t ∈ allTemplates,
        p.data <:+: (render p analysis t).data ∧ q.data <:+: (render q analysis t).data) := by
  have ha : promptAnalysisOf toLowerCase p = promptAnalysisOf toLowerCase q := by
    unfold promptAnalysisOf
    simp only [h]
  refine ⟨ha, ⟨generateAIText_creative _ _, ?_⟩, ⟨generateAIText_professional _ _, ?_⟩,
    ⟨generateAIText_casual _ _, ?_⟩, ⟨generateAIText_academic _ _, ?_⟩, ?_⟩
  · rw [generateAIText_creative, ha]
  · rw [generateAIText_professional, ha]
  · rw [generateAIText_casual, ha]
  · rw [generateAIText_academic, ha]
  · intro analysis t ht
    exact ⟨(template_contains_prompt_and_topic p analysis t ht).1,
      (template_contains_prompt_and_topic q analysis t ht).1⟩

/-- Witness for C19: "Build a mobile APP" and "build a mobile app" are classified alike,
as technology, and the professional text for the former is the technology variant with
the prompt in its original letter case. -/
theorem generateAIText_case_insensitive_witness :
    asciiToLowerCase (trim "Build a mobile APP") = asciiToLowerCase (trim "build a mobile app") ∧
      promptAnalysisOf asciiToLowerCase "Build a mobile APP" =
        { topic := "build", category := "technology", keywords := ["build", "mobile"],
          complexity := "low", tone := "neutral" } ∧
      generateAIText asciiToLowerCase "Build a mobile APP" "professional" =
        some (render "Build a mobile APP"
          { topic := "build", category := "technology", keywords := ["build", "mobile"],
            complexity := "low", tone := "neutral" } professionalTechnology) := by
  have ha : promptAnalysisOf asciiToLowerCase "Build a mobile APP" =
      { topic := "build", category := "technology", keywords := ["build", "mobile"],
        complexity := "low", tone := "neutral" } := by decide
  have h := (generateAIText_case_insensitive asciiToLowerCase "Build a mobile APP"
    "build a mobile app" (by decide)).2.2.1.1
  rw [ha] at h
  exact ⟨by decide, ha, h⟩

/-! ## The 13 variants are different texts -/

/-- C20: for every fixed prompt and fixed topic, keywords and complexity, the 13 template
instantiations (creative: technology, business, creative, default; professional, casual
and academic: technology, business, default) are pairwise different strings. -/
theorem templates_pairwise_distinct (prompt : String) (analysis : PromptAnalysis) :
    allTemplates.length = 13 ∧
      List.Pairwise (fun s t => s ≠ t) (allTemplates.map (render prompt analysis)) := by
  refine ⟨rfl, ?_⟩
  rw [List.pairwise_map]
  have hall : List.Pairwise (fun s t => differ s t = true) allTemplates := by decide
  exact hall.imp (fun h => differ_sound prompt analysis _ _ h)

/-! ## Prompts without a token of length > 2 -/

/-- C11 fails as stated: "Go on" has no token of length > 2, and its category is the
empty string, not `uncategorized`. -/
theorem short_tokens_category_counterexample :
    tokenize (asciiToLowerCase (trim "Go on")) = [] ∧
      (promptAnalysisOf asciiToLowerCase "Go on").category = "" ∧
      (promptAnalysisOf asciiToLowerCase "Go on").category ≠ "uncategorized" := by
  decide

/-- C11, amended: for every prompt whose space-separated tokens, after the trimming and
lower-casing of `generateAIText`, include none of length > 2, the analysis has topic
"topic", category equal to the empty string and an empty keywords list. -/
theorem short_tokens_analysis (toLowerCase : String → String) (prompt : String)
    (hshort : ∀ w ∈ splitSpace (toLowerCase (trim prompt)), jsLength w ≤ 2) :
    (promptAnalysisOf toLowerCase prompt).topic = "topic" ∧
      (promptAnalysisOf toLowerCase prompt).category = "" ∧
      (promptAnalysisOf toLowerCase prompt).keywords = [] := by
  have htok : tokenize (toLowerCase (trim prompt)) = [] := by
    unfold tokenize
    rw [List.filter_eq_nil_iff]
    intro w hw
    have := hshort w hw
    simp only [decide_eq_true_eq]
    omega
  unfold promptAnalysisOf
  simp only [htok]
  refine ⟨?_, ?_, ?_⟩
  · rw [analyzePrompt_topic]; rfl
  · rw [analyzePrompt_category]
    exact categorize_of_no_match _ "" categories (fun e he k hk =>
      not_occurs_of_short_tokens _ k hshort (category_keywords_shape e he k hk).1
        (category_keywords_shape e he k hk).2)
  · rw [analyzePrompt_keywords]; rfl

/-- Witness for the amended C11, at the prompt "Go on". -/
theorem short_tokens_analysis_witness :
    (∀ w ∈ splitSpace (asciiToLowerCase (trim "Go on")), jsLength w ≤ 2) ∧
      (promptAnalysisOf asciiToLowerCase "Go on").topic = "topic" ∧
      (promptAnalysisOf asciiToLowerCase "Go on").category = "" ∧
      (promptAnalysisOf asciiToLowerCase "Go on").keywords = [] :=
  ⟨by decide, short_tokens_analysis asciiToLowerCase "Go on" (by decide)⟩

/-! ## The display transformation -/

theorem replaceBackslashN_match (rest : List Char) :
    replaceBackslashN ('\\' :: 'n' :: rest) = '<' :: 'b' :: 'r' :: '>' :: replaceBackslashN rest := by
  simp [replaceBackslashN]

theorem replaceBackslashN_other (c : Char) (rest : List Char) (hc : c ≠ '\\') :
    replaceBackslashN (c :: rest) = c :: replaceBackslashN rest := by
  rw [replaceBackslashN]
  intro rest' h1 h2
  exact hc h1

theorem replaceBackslashN_single : replaceBackslashN ['\\'] = ['\\'] := by
  simp [replaceBackslashN]

theorem replaceBackslashN_backslash (d : Char) (rest : List Char) (hd : d ≠ 'n') :
    replaceBackslashN ('\\' :: d :: rest) = '\\' :: replaceBackslashN (d :: rest) := by
  rw [replaceBackslashN]
  intro rest' h1 h2
  simp only [List.cons.injEq] at h2
  exact hd h2.1

theorem backslashN_infix_cons (c : Char) (l : List Char) :
    ['\\', 'n'] <:+: c :: l ↔ (c = '\\' ∧ ∃ r, l = 'n' :: r) ∨ ['\\', 'n'] <:+: l := by
  rw [List.infix_cons_iff]
  constructor
  · rintro (⟨t, ht⟩ | h)
    · simp only [List.cons_append, List.nil_append, List.cons.injEq] at ht
      exact Or.inl ⟨ht.1.symm, t, ht.2.symm⟩
    · exact Or.inr h
  · rintro (⟨rfl, r, rfl⟩ | h)
    · exact Or.inl ⟨r, rfl⟩
    · exact Or.inr h

theorem head_replaceBackslashN (l r : List Char) (h : replaceBackslashN l = 'n' :: r) :
    ∃ r', l = 'n' :: r' := by
  cases l with
  | nil => simp [replaceBackslashN] at h
  | cons c rest =>
    by_cases hc : c = '\\'
    · subst hc
      cases rest with
      | nil =>
        rw [replaceBackslashN_single] at h
        simp only [List.cons.injEq] at h
        exact absurd h.1 (by decide)
      | cons d rest' =>
        by_cases hd : d = 'n'
        · subst hd
          rw [replaceBackslashN_match] at h
          simp only [List.cons.injEq] at h
          exact absurd h.1 (by decide)
        · rw [replaceBackslashN_backslash d rest' hd] at h
          simp only [List.cons.injEq] at h
          exact absurd h.1 (by decide)
    · rw [replaceBackslashN_other c rest hc] at h
      simp only [List.cons.injEq] at h
      exact ⟨rest, by rw [h.1]⟩

theorem replaceBackslashN_cons (c : Char) (rest : List Char)
    (h : ∀ rest', c = '\\' → rest = 'n' :: rest' → False) :
    replaceBackslashN (c :: rest) = c :: replaceBackslashN rest := by
  rw [replaceBackslashN]
  exact h

theorem replaceBackslashN_free (l : List Char) : ¬ ['\\', 'n'] <:+: replaceBackslashN l := by
  induction l using replaceBackslashN.induct with
  | case1 rest ih =>
    rw [replaceBackslashN_match]
    intro h
    rcases (backslashN_infix_cons _ _).mp h with ⟨h1, _⟩ | h
    · exact absurd h1 (by decide)
    rcases (backslashN_infix_cons _ _).mp h with ⟨h1, _⟩ | h
    · exact absurd h1 (by decide)
    rcases (backslashN_infix_cons _ _).mp h with ⟨h1, _⟩ | h
    · exact absurd h1 (by decide)
    rcases (backslashN_infix_cons _ _).mp h with ⟨h1, _⟩ | h
    · exact absurd h1 (by decide)
    exact ih h
  | case2 c rest hno ih =>
    rw [replaceBackslashN_cons c rest hno]
    intro h
    rcases (backslashN_infix_cons _ _).mp h with ⟨h1, r, hr⟩ | h
    · obtain ⟨r', hr'⟩ := head_replaceBackslashN rest r hr
      exact hno r' h1 hr'
    · exact ih h
  | case3 =>
    intro h
    simp [replaceBackslashN] at h

theorem replaceBackslashN_id (l : List Char) (h : ¬ ['\\', 'n'] <:+: l) :
    replaceBackslashN l = l := by
  induction l using replaceBackslashN.induct with
  | case1 rest ih => exact absurd ⟨[], rest, rfl⟩ h
  | case2 c rest hno ih =>
    rw [replaceBackslashN_cons c rest hno,
      ih (fun h' => h ((backslashN_infix_cons c rest).mpr (Or.inr h')))]
  | case3 => rfl

theorem replaceBackslashN_append (a b : List Char) :
    replaceBackslashN (a ++ '\\' :: 'n' :: b) =
      replaceBackslashN a ++ '<' :: 'b' :: 'r' :: '>' :: replaceBackslashN b := by
  induction a using replaceBackslashN.induct with
  | case1 rest ih =>
    simp only [List.cons_append, replaceBackslashN_match, ih]
  | case2 c rest hno ih =>
    have hno' : ∀ rest', c = '\\' → rest ++ '\\' :: 'n' :: b = 'n' :: rest' → False := by
      intro rest' hc he
      cases rest with
      | nil =>
        simp only [List.nil_append, List.cons.injEq] at he
        exact absurd he.1 (by decide)
      | cons d r =>
        simp only [List.cons_append, List.cons.injEq] at he
        exact hno r hc (by rw [he.1])
    rw [List.cons_append, replaceBackslashN_cons c _ hno', replaceBackslashN_cons c rest hno,
      ih, List.cons_append]
  | case3 =>
    simp only [List.nil_append, replaceBackslashN_match]
    rfl

theorem no_backslashN_of_no_backslash (l : List Char) (h : '\\' ∉ l) :
    ¬ ['\\', 'n'] <:+: l := by
  intro hin
  exact h (hin.subset (List.mem_cons_self _ _))

/-- C23: the display transformation replaces every occurrence of the two characters
backslash and `n` by `<br>` and changes nothing else: a text without the sequence is
kept as it is, real line breaks included, the transformation works on the two sides of
an occurrence separately, and its result holds no backslash followed by `n`. -/
theorem displayGeneratedText_replaces (text prompt type : String) :
    ¬ "\\n".data <:+: (displayGeneratedText text prompt type).data ∧
      (∀ a b : String, displayGeneratedText (a ++ "\\n" ++ b) prompt type =
        displayGeneratedText a prompt type ++ "<br>" ++ displayGeneratedText b prompt type) ∧
      (¬ "\\n".data <:+: text.data → displayGeneratedText text prompt type = text) ∧
      displayGeneratedText "two\nlines" prompt type = "two\nlines" ∧
      displayGeneratedText "two\\nlines" prompt type = "two<br>lines" := by
  have h1 : ∀ p t : String, displayGeneratedText "two\nlines" p t = "two\nlines" :=
    fun _ _ => by unfold displayGeneratedText; decide
  have h2 : ∀ p t : String, displayGeneratedText "two\\nlines" p t = "two<br>lines" :=
    fun _ _ => by unfold displayGeneratedText; decide
  refine ⟨replaceBackslashN_free text.data, ?_, ?_, h1 prompt type, h2 prompt type⟩
  · intro a b
    apply String.ext
    simp only [displayGeneratedText, String.data_append, List.append_assoc]
    exact replaceBackslashN_append a.data b.data
  · intro h
    apply String.ext
    exact replaceBackslashN_id text.data h

/-- Witness for C23: a text with a real line break and no backslash. -/
theorem displayGeneratedText_replaces_witness :
    ¬ "\\n".data <:+: "**Abstract:**\nThis".data ∧
      displayGeneratedText "**Abstract:**\nThis" "p" "academic" = "**Abstract:**\nThis" :=
  ⟨no_backslashN_of_no_backslash _ (by decide),
    (displayGeneratedText_replaces "**Abstract:**\nThis" "p" "academic").2.2.1
      (no_backslashN_of_no_backslash _ (by decide))⟩

/-! ## Prompts whose tokens all have length ≤ 2: the whole analysis -/

theorem override_words_shape :
    ∀ k ∈ ["advanced", "complex", "fun", "creative", "exciting", "serious", "professional",
      "formal"], ' ' ∉ k.data ∧ 3 ≤ k.data.length := by
  decide

theorem includes_false_of_short_tokens (s k : String)
    (hshort : ∀ w ∈ splitSpace s, jsLength w ≤ 2) (hsp : ' ' ∉ k.data)
    (hlen : 3 ≤ k.data.length) : includes s k = false := by
  cases h : includes s k with
  | false => rfl
  | true => exact absurd ((includes_iff s k).mp h) (not_occurs_of_short_tokens s k hshort hsp hlen)

/-- C24: for every prompt whose space-separated tokens, after trimming and lower-casing,
all have length ≤ 2, the analysis computed by `generateAIText` is exactly topic "topic",
category "", keywords [], complexity low, tone neutral; no category keyword, complexity
override word or tone word occurs in such a prompt, since each has at least 3 characters
and no space. -/
theorem short_tokens_whole_analysis (toLowerCase : String → String) (prompt : String)
    (hshort : ∀ w ∈ splitSpace (toLowerCase (trim prompt)), jsLength w ≤ 2) :
    promptAnalysisOf toLowerCase prompt =
        { topic := "topic", category := "", keywords := [], complexity := "low",
          tone := "neutral" } ∧
      (∀ e ∈ categories, ∀ k ∈ e.2, ¬ k.data <:+: (toLowerCase (trim prompt)).data) ∧
      (∀ k ∈ ["advanced", "complex", "fun", "creative", "exciting", "serious",
        "professional", "formal"], ¬ k.data <:+: (toLowerCase (trim prompt)).data) := by
  have htok : tokenize (toLowerCase (trim prompt)) = [] := by
    unfold tokenize
    rw [List.filter_eq_nil_iff]
    intro w hw
    have := hshort w hw
    simp only [decide_eq_true_eq]
    omega
  have hcat : ∀ e ∈ categories, ∀ k ∈ e.2, ¬ k.data <:+: (toLowerCase (trim prompt)).data :=
    fun e he k hk => not_occurs_of_short_tokens _ k hshort (category_keywords_shape e he k hk).1
      (category_keywords_shape e he k hk).2
  have hinc : ∀ k ∈ ["advanced", "complex", "fun", "creative", "exciting", "serious",
      "professional", "formal"], includes (toLowerCase (trim prompt)) k = false :=
    fun k hk => includes_false_of_short_tokens _ k hshort (override_words_shape k hk).1
      (override_words_shape k hk).2
  refine ⟨?_, hcat, fun k hk => not_occurs_of_short_tokens _ k hshort
    (override_words_shape k hk).1 (override_words_shape k hk).2⟩
  have heta : ∀ x : PromptAnalysis,
      x = { topic := x.topic, category := x.category, keywords := x.keywords,
            complexity := x.complexity, tone := x.tone } := fun _ => rfl
  unfold promptAnalysisOf
  simp only [htok]
  rw [heta (analyzePrompt (toLowerCase (trim prompt)) [])]
  rw [analyzePrompt_topic, analyzePrompt_category, analyzePrompt_keywords,
    analyzePrompt_complexity, analyzePrompt_tone,
    categorize_of_no_match _ "" categories hcat,
    hinc "advanced" (by decide), hinc "complex" (by decide), hinc "fun" (by decide),
    hinc "creative" (by decide), hinc "exciting" (by decide), hinc "serious" (by decide),
    hinc "professional" (by decide), hinc "formal" (by decide)]
  rfl

/-- Witness for C24, at the prompt " Is it OK " with the lower-casing of ASCII letters. -/
theorem short_tokens_whole_analysis_witness :
    (∀ w ∈ splitSpace (asciiToLowerCase (trim " Is it OK ")), jsLength w ≤ 2) ∧
      promptAnalysisOf asciiToLowerCase " Is it OK " =
        { topic := "topic", category := "", keywords := [], complexity := "low",
          tone := "neutral" } :=
  ⟨by decide, (short_tokens_whole_analysis asciiToLowerCase " Is it OK " (by decide)).1⟩

/-! ## What does not reach the generated text -/

theorem generators_congr (prompt : String) (a b : PromptAnalysis)
    (hrender : ∀ t ∈ allTemplates, render prompt a t = render prompt b t)
    (hcat : a.category = b.category) :
    generateCreativeText prompt a = generateCreativeText prompt b ∧
      generateProfessionalText prompt a = generateProfessionalText prompt b ∧
      generateCasualText prompt a = generateCasualText prompt b ∧
      generateAcademicText prompt a = generateAcademicText prompt b := by
  unfold generateCreativeText generateProfessionalText generateCasualText generateAcademicText
  rw [hrender creativeTechnology (by simp [allTemplates]),
    hrender creativeBusiness (by simp [allTemplates]),
    hrender creativeCreative (by simp [allTemplates]),
    hrender creativeDefault (by simp [allTemplates]),
    hrender professionalTechnology (by simp [allTemplates]),
    hrender professionalBusiness (by simp [allTemplates]),
    hrender professionalDefault (by simp [allTemplates]),
    hrender casualTechnology (by simp [allTemplates]),
    hrender casualBusiness (by simp [allTemplates]),
    hrender casualDefault (by simp [allTemplates]),
    hrender academicTechnology (by simp [allTemplates]),
    hrender academicBusiness (by simp [allTemplates]),
    hrender academicDefault (by simp [allTemplates]), hcat]
  exact ⟨rfl, rfl, rfl, rfl⟩

/-- C25: the tone of the analysis never influences the generated text: for each of the
four generators and every prompt, an analysis and the same analysis with any other tone
give the same output. -/
theorem tone_never_influences_text (prompt : String) (analysis : PromptAnalysis)
    (tone : String) :
    generateCreativeText prompt { analysis with tone := tone }
        = generateCreativeText prompt analysis ∧
      generateProfessionalText prompt { analysis with tone := tone }
        = generateProfessionalText prompt analysis ∧
      generateCasualText prompt { analysis with tone := tone }
        = generateCasualText prompt analysis ∧
      generateAcademicText prompt { analysis with tone := tone }
        = generateAcademicText prompt analysis :=
  generators_congr prompt _ _ (fun t _ => render_congr prompt _ _ t rfl rfl rfl) rfl

theorem render_congr_high (prompt : String) (a b : PromptAnalysis) (pieces : List Piece)
    (ht : a.topic = b.topic) (hk : a.keywords = b.keywords)
    (hc : a.complexity = "high" ↔ b.complexity = "high") :
    render prompt a pieces = render prompt b pieces := by
  induction pieces with
  | nil => rfl
  | cons x xs ih =>
    cases x with
    | ifHigh y n =>
      simp only [render, Piece.text, ih]
      by_cases h : a.complexity = "high"
      · rw [if_pos h, if_pos (hc.mp h)]
      · rw [if_neg h, if_neg (fun h' => h (hc.mpr h'))]
    | lit s => simp only [render, Piece.text, ih]
    | prompt => simp only [render, Piece.text, ih]
    | topic => simp only [render, Piece.text, ht, ih]
    | keywords => simp only [render, Piece.text, hk, ih]
    | firstKeywords => simp only [render, Piece.text, hk, ih]

theorem render_congr_no_complexity (prompt : String) (a b : PromptAnalysis)
    (pieces : List Piece) (ht : a.topic = b.topic) (hk : a.keywords = b.keywords)
    (hu : usesComplexity pieces = false) :
    render prompt a pieces = render prompt b pieces := by
  induction pieces with
  | nil => rfl
  | cons x xs ih =>
    cases x with
    | ifHigh y n => simp [usesComplexity] at hu
    | lit s => simp only [render, Piece.text, ih (by simpa [usesComplexity] using hu)]
    | prompt => simp only [render, Piece.text, ih (by simpa [usesComplexity] using hu)]
    | topic => simp only [render, Piece.text, ht, ih (by simpa [usesComplexity] using hu)]
    | keywords => simp only [render, Piece.text, hk, ih (by simpa [usesComplexity] using hu)]
    | firstKeywords =>
      simp only [render, Piece.text, hk, ih (by simpa [usesComplexity] using hu)]

theorem generators_ignore_complexity (prompt : String) (a b : PromptAnalysis)
    (hcat : a.category = b.category) (ht : a.topic = b.topic)
    (hk : a.keywords = b.keywords) :
    generateCreativeText prompt a = generateCreativeText prompt b ∧
      generateCasualText prompt a = generateCasualText prompt b ∧
      generateAcademicText prompt a = generateAcademicText prompt b := by
  unfold generateCreativeText generateCasualText generateAcademicText
  rw [render_congr_no_complexity prompt a b creativeTechnology ht hk (by decide),
    render_congr_no_complexity prompt a b creativeBusiness ht hk (by decide),
    render_congr_no_complexity prompt a b creativeCreative ht hk (by decide),
    render_congr_no_complexity prompt a b creativeDefault ht hk (by decide),
    render_congr_no_complexity prompt a b casualTechnology ht hk (by decide),
    render_congr_no_complexity prompt a b casualBusiness ht hk (by decide),
    render_congr_no_complexity prompt a b casualDefault ht hk (by decide),
    render_congr_no_complexity prompt a b academicTechnology ht hk (by decide),
    render_congr_no_complexity prompt a b academicBusiness ht hk (by decide),
    render_congr_no_complexity prompt a b academicDefault ht hk (by decide), hcat]
  exact ⟨rfl, rfl, rfl⟩

theorem professional_congr_high (prompt : String) (a b : PromptAnalysis)
    (hcat : a.category = b.category) (ht : a.topic = b.topic)
    (hk : a.keywords = b.keywords)
    (hc : a.complexity = "high" ↔ b.complexity = "high") :
    generateProfessionalText prompt a = generateProfessionalText prompt b := by
  unfold generateProfessionalText
  rw [render_congr_high prompt a b professionalTechnology ht hk hc,
    render_congr_high prompt a b professionalBusiness ht hk hc,
    render_congr_high prompt a b professionalDefault ht hk hc, hcat]

set_option maxRecDepth 1000000 in
/-- C26: the complexity reaches the output only as the test `complexity = high` and only
in the professional style: the creative, casual and academic generators give the same
text whatever the complexity, the professional generator gives the same text for two
complexities that agree on being `high` (and different texts for high and low, on an
example), and for all four generators complexity low gives the same text as complexity
medium. -/
theorem complexity_only_as_high_test (prompt : String) (analysis : PromptAnalysis)
    (c c' : String) :
    (generateCreativeText prompt { analysis with complexity := c }
          = generateCreativeText prompt { analysis with complexity := c' } ∧
        generateCasualText prompt { analysis with complexity := c }
          = generateCasualText prompt { analysis with complexity := c' } ∧
        generateAcademicText prompt { analysis with complexity := c }
          = generateAcademicText prompt { analysis with complexity := c' }) ∧
      ((c = "high" ↔ c' = "high") →
        generateProfessionalText prompt { analysis with complexity := c }
          = generateProfessionalText prompt { analysis with complexity := c' }) ∧
      (generateCreativeText prompt { analysis with complexity := "low" }
          = generateCreativeText prompt { analysis with complexity := "medium" } ∧
        generateProfessionalText prompt { analysis with complexity := "low" }
          = generateProfessionalText prompt { analysis with complexity := "medium" } ∧
        generateCasualText prompt { analysis with complexity := "low" }
          = generateCasualText prompt { analysis with complexity := "medium" } ∧
        generateAcademicText prompt { analysis with complexity := "low" }
          = generateAcademicText prompt { analysis with complexity := "medium" }) ∧
      generateProfessionalText "app"
          { topic := "app", category := "technology", keywords := [], complexity := "high",
            tone := "neutral" }
        ≠ generateProfessionalText "app"
          { topic := "app", category := "technology", keywords := [], complexity := "low",
            tone := "neutral" } := by
  have hlm := generators_ignore_complexity prompt { analysis with complexity := "low" }
    { analysis with complexity := "medium" } rfl rfl rfl
  refine ⟨generators_ignore_complexity prompt _ _ rfl rfl rfl,
    fun h => professional_congr_high prompt _ _ rfl rfl rfl h,
    ⟨hlm.1, professional_congr_high prompt _ _ rfl rfl rfl
      (show ("low" = "high" ↔ "medium" = "high") by decide), hlm.2.1, hlm.2.2⟩,
    by decide⟩

/-- Witness for C26: complexities low and medium agree on not being `high`. -/
theorem complexity_only_as_high_test_witness :
    ("low" = "high" ↔ "medium" = "high") ∧
      generateProfessionalText "build apps"
          { topic := "build", category := "technology", keywords := ["build", "apps"],
            complexity := "low", tone := "neutral" }
        = generateProfessionalText "build apps"
          { topic := "build", category := "technology", keywords := ["build", "apps"],
            complexity := "medium", tone := "neutral" } :=
  ⟨by decide,
    (complexity_only_as_high_test "build apps"
      { topic := "build", category := "technology", keywords := ["build", "apps"],
        complexity := "", tone := "neutral" } "low" "medium").2.1 (by decide)⟩

/-! ## The keyword "explanation" -/

/-- C27: every prompt that contains "explanation" also contains the business keyword
"plan", so `analyzePrompt` returns technology or business for it and never education. -/
theorem explanation_never_decides (prompt : String) (words : List String)
    (h : "explanation".data <:+: prompt.data) :
    "plan".data <:+: prompt.data ∧
      ((analyzePrompt prompt words).category = "technology" ∨
        (analyzePrompt prompt words).category = "business") ∧
      (analyzePrompt prompt words).category ≠ "education" := by
  have hplan : "plan".data <:+: prompt.data :=
    List.IsInfix.trans ((includes_iff "explanation" "plan").mp (by decide)) h
  have hor : (analyzePrompt prompt words).category = "technology" ∨
      (analyzePrompt prompt words).category = "business" := by
    rw [analyzePrompt_category]
    by_cases ht : ∃ k ∈ ["app", "website", "software", "program", "code", "system",
        "platform", "database", "api", "algorithm"], k.data <:+: prompt.data
    · exact Or.inl (categorize_of_match prompt "" "technology" _ [] (categories.drop 1) ht
        (fun e he => absurd he (List.not_mem_nil e)))
    · refine Or.inr (categorize_of_match prompt "" "business" _ (categories.take 1)
        (categories.drop 2) ⟨"plan", by decide, hplan⟩ ?_)
      intro e he k hk hin
      have he' : e = categories.head! := by
        simpa [categories] using he
      subst he'
      exact ht ⟨k, hk, hin⟩
  refine ⟨hplan, hor, ?_⟩
  rcases hor with h1 | h1 <;> rw [h1] <;> decide

/-- Witness for C27: a prompt with "explanation" and no technology keyword. -/
theorem explanation_never_decides_witness :
    "explanation".data <:+: "an explanation".data ∧
      "plan".data <:+: "an explanation".data ∧
      (analyzePrompt "an explanation" ["explanation"]).category ≠ "education" :=
  ⟨(includes_iff _ _).mp (by decide),
    (explanation_never_decides "an explanation" ["explanation"]
      ((includes_iff _ _).mp (by decide))).1,
    (explanation_never_decides "an explanation" ["explanation"]
      ((includes_iff _ _).mp (by decide))).2.2⟩

/-! ## Type strings that name no style -/

/-- C28: for every prompt and every type string other than creative, professional, casual
and academic, `generateAIText` yields the empty string. -/
theorem generateAIText_other_type (toLowerCase : String → String) (prompt type : String)
    (h : type ∉ ["creative", "professional", "casual", "academic"]) :
    generateAIText toLowerCase prompt type = some "" := by
  simp only [List.mem_cons, List.mem_singleton, List.not_mem_nil, or_false, not_or] at h
  unfold generateAIText
  simp only [if_neg h.1, if_neg h.2.1, if_neg h.2.2.1, if_neg h.2.2.2]

/-- Witness for C28, at the type string "poetic". -/
theorem generateAIText_other_type_witness :
    generateAIText asciiToLowerCase "Build a mobile app" "poetic" = some "" :=
  generateAIText_other_type asciiToLowerCase "Build a mobile app" "poetic" (by decide)

/-! ## Generated text holds no backslash -/

theorem mem_of_mem_trim (s : String) (c : Char) (h : c ∈ (trim s).data) : c ∈ s.data := by
  unfold trim at h
  simp only [List.mem_reverse] at h
  have h1 := (List.dropWhile_sublist isTrimmed).subset h
  rw [List.mem_reverse] at h1
  exact (List.dropWhile_sublist isTrimmed).subset h1

theorem mem_of_mem_splitSpaceAux :
    ∀ (cs cur : List Char) (w : String), w ∈ splitSpaceAux cs cur →
      ∀ c ∈ w.data, c ∈ cs ∨ c ∈ cur
  | [], cur, w, hw, c, hc => by
    simp only [splitSpaceAux, List.mem_singleton] at hw
    subst hw
    exact Or.inr (by simpa using hc)
  | d :: cs, cur, w, hw, c, hc => by
    simp only [splitSpaceAux] at hw
    split_ifs at hw with hd
    · rcases List.mem_cons.mp hw with rfl | hw'
      · exact Or.inr (by simpa using hc)
      · rcases mem_of_mem_splitSpaceAux cs [] w hw' c hc with h | h
        · exact Or.inl (List.mem_cons_of_mem _ h)
        · exact absurd h (List.not_mem_nil c)
    · rcases mem_of_mem_splitSpaceAux cs (d :: cur) w hw c hc with h | h
      · exact Or.inl (List.mem_cons_of_mem _ h)
      · rcases List.mem_cons.mp h with rfl | h'
        · exact Or.inl (List.mem_cons_self _ _)
        · exact Or.inr h'

theorem tokens_without_backslash (s : String) (h : '\\' ∉ s.data) :
    ∀ w ∈ tokenize s, '\\' ∉ w.data := by
  intro w hw hc
  unfold tokenize at hw
  have hw' : w ∈ splitSpace s := List.mem_of_mem_filter hw
  rcases mem_of_mem_splitSpaceAux s.data [] w hw' '\\' hc with h' | h'
  · exact h h'
  · exact absurd h' (List.not_mem_nil _)

theorem joinWith_without_backslash (sep : String) (hsep : '\\' ∉ sep.data) :
    ∀ (ks : List String), (∀ k ∈ ks, '\\' ∉ k.data) → '\\' ∉ (joinWith sep ks).data
  | [], _ => by simp [joinWith]
  | [x], h => by
    simp only [joinWith]
    exact h x (List.mem_singleton.mpr rfl)
  | x :: y :: rest, h => by
    simp only [joinWith, String.data_append, List.mem_append, not_or]
    exact ⟨⟨h x (List.mem_cons_self _ _), hsep⟩,
      joinWith_without_backslash sep hsep (y :: rest)
        (fun k hk => h k (List.mem_cons_of_mem _ hk))⟩

theorem render_without_backslash (prompt : String) (analysis : PromptAnalysis)
    (hp : '\\' ∉ prompt.data) (ht : '\\' ∉ analysis.topic.data)
    (hk : ∀ k ∈ analysis.keywords, '\\' ∉ k.data) :
    ∀ (pieces : List Piece), hasBackslash pieces = false →
      '\\' ∉ (render prompt analysis pieces).data
  | [], _ => by simp [render]
  | x :: xs, h => by
    rw [render_cons_data, List.mem_append, not_or]
    cases x with
    | lit s =>
      simp only [hasBackslash, Bool.or_eq_false_iff, List.contains_eq_any_beq,
        List.any_eq_false, beq_iff_eq] at h
      exact ⟨fun hc => h.1 _ hc rfl,
        render_without_backslash prompt analysis hp ht hk xs h.2⟩
    | prompt => exact ⟨hp, render_without_backslash prompt analysis hp ht hk xs h⟩
    | topic => exact ⟨ht, render_without_backslash prompt analysis hp ht hk xs h⟩
    | keywords =>
      exact ⟨joinWith_without_backslash ", " (by decide) _ hk,
        render_without_backslash prompt analysis hp ht hk xs h⟩
    | firstKeywords =>
      exact ⟨joinWith_without_backslash ", " (by decide) _
          (fun k hk' => hk k (List.mem_of_mem_take hk')),
        render_without_backslash prompt analysis hp ht hk xs h⟩
    | ifHigh y n =>
      simp only [hasBackslash, Bool.or_eq_false_iff, List.contains_eq_any_beq,
        List.any_eq_false, beq_iff_eq] at h
      refine ⟨?_, render_without_backslash prompt analysis hp ht hk xs h.2⟩
      simp only [Piece.text]
      split_ifs
      · exact fun hc => h.1.1 _ hc rfl
      · exact fun hc => h.1.2 _ hc rfl

theorem templates_without_backslash : ∀ t ∈ allTemplates, hasBackslash t = false := by
  decide

theorem analysis_without_backslash (prompt : String) (words : List String)
    (hw : ∀ w ∈ words, '\\' ∉ w.data) :
    '\\' ∉ (analyzePrompt prompt words).topic.data ∧
      ∀ k ∈ (analyzePrompt prompt words).keywords, '\\' ∉ k.data := by
  constructor
  · rw [analyzePrompt_topic]
    cases words with
    | nil => decide
    | cons w ws =>
      simp only [List.head?_cons, orElse]
      split_ifs
      · decide
      · exact hw w (List.mem_cons_self _ _)
  · intro k hk
    rw [analyzePrompt_keywords] at hk
    exact hw k (List.mem_of_mem_filter (List.mem_of_mem_take hk))

theorem promptAnalysisOf_without_backslash (toLowerCase : String → String)
    (hlower : ∀ s : String, '\\' ∉ s.data → '\\' ∉ (toLowerCase s).data)
    (prompt : String) (hp : '\\' ∉ prompt.data) :
    '\\' ∉ (promptAnalysisOf toLowerCase prompt).topic.data ∧
      ∀ k ∈ (promptAnalysisOf toLowerCase prompt).keywords, '\\' ∉ k.data := by
  unfold promptAnalysisOf
  exact analysis_without_backslash _ _ (tokens_without_backslash _
    (hlower (trim prompt) (fun h => hp (mem_of_mem_trim prompt _ h))))

theorem render_not_converted (prompt type : String) (analysis : PromptAnalysis)
    (t : List Piece) (ht : t ∈ allTemplates) (hp : '\\' ∉ prompt.data)
    (ha : '\\' ∉ analysis.topic.data ∧ ∀ k ∈ analysis.keywords, '\\' ∉ k.data) :
    '\\' ∉ (render prompt analysis t).data ∧
      ¬ "\\n".data <:+: (render prompt analysis t).data ∧
      displayGeneratedText (render prompt analysis t) prompt type
        = render prompt analysis t := by
  have h := render_without_backslash prompt analysis hp ha.1 ha.2 t
    (templates_without_backslash t ht)
  exact ⟨h, no_backslashN_of_no_backslash _ h,
    String.ext (replaceBackslashN_id _ (no_backslashN_of_no_backslash _ h))⟩

theorem asciiToLowerCase_without_backslash (s : String) (h : '\\' ∉ s.data) :
    '\\' ∉ (asciiToLowerCase s).data := by
  unfold asciiToLowerCase
  simp only [List.mem_map, not_exists, not_and]
  intro c hc
  split_ifs with hup
  · simp only [Bool.and_eq_true, decide_eq_true_eq] at hup
    generalize c.val.toNat = n at hup
    obtain ⟨h1, h2⟩ := hup
    interval_cases n <;> decide
  · intro he
    exact h (he ▸ hc)

/-- C29: line breaks of generated text are never converted for display: for every prompt
without a backslash (lower-casing introducing none) and each of the four styles, the text
of `generateAIText` holds no backslash, so no backslash followed by `n`, and the
replacement of `displayGeneratedText` leaves it as it is. -/
theorem generated_text_not_converted (toLowerCase : String → String)
    (hlower : ∀ s : String, '\\' ∉ s.data → '\\' ∉ (toLowerCase s).data)
    (prompt : String) (hp : '\\' ∉ prompt.data) :
    ∀ type ∈ ["creative", "professional", "casual", "academic"],
      ∃ text : String, generateAIText toLowerCase prompt type = some text ∧
        '\\' ∉ text.data ∧ ¬ "\\n".data <:+: text.data ∧
        displayGeneratedText text prompt type = text := by
  have ha := promptAnalysisOf_without_backslash toLowerCase hlower prompt hp
  intro type htype
  simp only [List.mem_cons, List.mem_singleton, List.not_mem_nil, or_false] at htype
  rcases htype with rfl | rfl | rfl | rfl
  · exact ⟨_, generateAIText_creative toLowerCase prompt,
      render_not_converted prompt _ _ _ (creativeVariant_mem _) hp ha⟩
  · exact ⟨_, generateAIText_professional toLowerCase prompt,
      render_not_converted prompt _ _ _ (professionalVariant_mem _) hp ha⟩
  · exact ⟨_, generateAIText_casual toLowerCase prompt,
      render_not_converted prompt _ _ _ (casualVariant_mem _) hp ha⟩
  · exact ⟨_, generateAIText_academic toLowerCase prompt,
      render_not_converted prompt _ _ _ (academicVariant_mem _) hp ha⟩

/-- Witness for C29, at the prompt "Plan a garden" with the lower-casing of ASCII
letters. -/
theorem generated_text_not_converted_witness :
    '\\' ∉ "Plan a garden".data ∧
      ∃ text : String, generateAIText asciiToLowerCase "Plan a garden" "academic" = some text ∧
        '\\' ∉ text.data ∧ ¬ "\\n".data <:+: text.data ∧
        displayGeneratedText text "Plan a garden" "academic" = text :=
  ⟨by decide,
    generated_text_not_converted asciiToLowerCase asciiToLowerCase_without_backslash
      "Plan a garden" (by decide) "academic" (by decide)⟩

/-! ## The busy flag and the requests in flight -/

theorem call_isGenerating (s : AppState) (e : Effect) :
    (s.call e).isGenerating = s.isGenerating := rfl

theorem textAfter_isGenerating (s : AppState) (prompt : String)
    (outcome : Except String String) :
    (handleTextGenerateClickAfter s prompt outcome).isGenerating = false := by
  cases outcome <;> rfl

theorem imageAfter_isGenerating (cfg : Config) (s : AppState) (prompt : String)
    (outcome : Except String String) :
    (handleGenerateClickAfter cfg s prompt outcome).isGenerating = false := by
  cases outcome <;> rfl

theorem textClick_busy (s : AppState) (h : s.isGenerating = true) :
    handleTextGenerateClick s = (s, none) := by
  unfold handleTextGenerateClick
  rw [if_pos h]

theorem textClick_cases (s : AppState) :
    ((handleTextGenerateClick s).2 = none ∧
        (handleTextGenerateClick s).1.isGenerating = s.isGenerating) ∨
      (s.isGenerating = false ∧ trim s.textPromptInput ≠ "" ∧
        (handleTextGenerateClick s).2 = some (trim s.textPromptInput, s.selectedTextType) ∧
        (handleTextGenerateClick s).1.isGenerating = true) := by
  unfold handleTextGenerateClick
  by_cases hb : s.isGenerating = true
  · rw [if_pos hb]
    exact Or.inl ⟨rfl, rfl⟩
  · rw [if_neg hb]
    simp only []
    by_cases hp : trim s.textPromptInput = ""
    · rw [if_pos hp]
      exact Or.inl ⟨rfl, rfl⟩
    · rw [if_neg hp]
      exact Or.inr ⟨by simpa using hb, hp, rfl, rfl⟩

theorem imageClick_cases (cfg : Config) (s : AppState) :
    ((∀ p t, (handleGenerateClick cfg s).2 ≠ .awaiting p t) ∧
        (handleGenerateClick cfg s).1.isGenerating = s.isGenerating) ∨
      (s.isGenerating = false ∧ cfg.ACTIVE_API ≠ "demo" ∧
        (handleGenerateClick cfg s).2 = .awaiting (trim s.promptInput) s.selectedStyle ∧
        (handleGenerateClick cfg s).1.isGenerating = true) := by
  unfold handleGenerateClick
  by_cases hb : s.isGenerating = true
  · rw [if_pos hb]
    exact Or.inl ⟨fun _ _ h => ClickResult.noConfusion h, rfl⟩
  · rw [if_neg hb]
    simp only []
    by_cases hp : trim s.promptInput = ""
    · rw [if_pos hp]
      exact Or.inl ⟨fun _ _ h => ClickResult.noConfusion h, rfl⟩
    · rw [if_neg hp]
      by_cases hd : cfg.ACTIVE_API = "demo"
      · rw [if_pos hd]
        exact Or.inl ⟨fun _ _ h => ClickResult.noConfusion h, rfl⟩
      · rw [if_neg hd]
        cases hk : cfg.keyIsPlaceholder with
        | none => exact Or.inl ⟨fun _ _ h => ClickResult.noConfusion h, rfl⟩
        | some b =>
          cases b with
          | true => exact Or.inl ⟨fun _ _ h => ClickResult.noConfusion h, rfl⟩
          | false => exact Or.inr ⟨by simpa using hb, hd, rfl, rfl⟩

theorem idle_of_not_busy (r : Run) (hiff : r.app.isGenerating = true ↔ r.inFlight ≠ [])
    (h : r.app.isGenerating = false) : r.inFlight = [] := by
  by_contra hne
  have := hiff.mpr hne
  rw [h] at this
  exact Bool.noConfusion this

theorem step_invariant (cfg : Config) (r : Run) (e : Event)
    (hlen : r.inFlight.length ≤ 1)
    (hiff : r.app.isGenerating = true ↔ r.inFlight ≠ []) :
    (step cfg r e).inFlight.length ≤ 1 ∧
      ((step cfg r e).app.isGenerating = true ↔ (step cfg r e).inFlight ≠ []) := by
  cases e with
  | editTextPrompt value => exact ⟨hlen, hiff⟩
  | editImagePrompt value => exact ⟨hlen, hiff⟩
  | selectTextType type => exact ⟨hlen, hiff⟩
  | selectStyle style => exact ⟨hlen, hiff⟩
  | switchTab tabName => exact ⟨hlen, hiff⟩
  | textClick =>
    have hc := textClick_cases r.app
    simp only [step]
    rcases h : handleTextGenerateClick r.app with ⟨s, o⟩
    rw [h] at hc
    cases o with
    | none =>
      rcases hc with ⟨_, hflag⟩ | ⟨_, _, hsome, _⟩
      · simp only [] at hflag ⊢
        rw [hflag]
        exact ⟨hlen, hiff⟩
      · exact Option.noConfusion hsome
    | some q =>
      obtain ⟨prompt, type⟩ := q
      rcases hc with ⟨hnone, _⟩ | ⟨hidle, _, _, hflag⟩
      · exact Option.noConfusion hnone
      · simp only [] at hflag ⊢
        rw [idle_of_not_busy r hiff hidle, hflag]
        exact ⟨Nat.le_refl 1, by simp⟩
  | imageClick =>
    have hc := imageClick_cases cfg r.app
    simp only [step]
    rcases h : handleGenerateClick cfg r.app with ⟨s, o⟩
    rw [h] at hc
    cases o with
    | returned =>
      rcases hc with ⟨_, hflag⟩ | ⟨_, _, hsome, _⟩
      · simp only [] at hflag ⊢
        rw [hflag]
        exact ⟨hlen, hiff⟩
      · exact ClickResult.noConfusion hsome
    | threw =>
      rcases hc with ⟨_, hflag⟩ | ⟨_, _, hsome, _⟩
      · simp only [] at hflag ⊢
        rw [hflag]
        exact ⟨hlen, hiff⟩
      · exact ClickResult.noConfusion hsome
    | awaiting prompt style =>
      rcases hc with ⟨hno, _⟩ | ⟨hidle, _, _, hflag⟩
      · exact absurd rfl (hno prompt style)
      · simp only [] at hflag ⊢
        rw [idle_of_not_busy r hiff hidle, hflag]
        exact ⟨Nat.le_refl 1, by simp⟩
  | settle outcome =>
    simp only [step]
    cases hq : r.inFlight with
    | nil =>
      simp only []
      rw [hq] at hlen hiff
      exact ⟨by rw [hq]; exact hlen, by rw [hq]; exact hiff⟩
    | cons q rest =>
      have hrest : rest = [] := by
        rw [hq] at hlen
        simp only [List.length_cons] at hlen
        exact List.length_eq_zero.mp (by omega)
      subst hrest
      cases q with
      | text prompt type =>
        simp only [List.length_nil, textAfter_isGenerating]
        exact ⟨Nat.zero_le 1, by simp⟩
      | image prompt style =>
        simp only [List.length_nil, imageAfter_isGenerating]
        exact ⟨Nat.zero_le 1, by simp⟩

theorem foldl_step_invariant (cfg : Config) (events : List Event) :
    ∀ r : Run, r.inFlight.length ≤ 1 → (r.app.isGenerating = true ↔ r.inFlight ≠ []) →
      (events.foldl (step cfg) r).inFlight.length ≤ 1 ∧
        ((events.foldl (step cfg) r).app.isGenerating = true ↔
          (events.foldl (step cfg) r).inFlight ≠ []) := by
  induction events with
  | nil => exact fun r h1 h2 => ⟨h1, h2⟩
  | cons e es ih =>
    intro r h1 h2
    exact ih (step cfg r e) (step_invariant cfg r e h1 h2).1 (step_invariant cfg r e h1 h2).2

/-- C22: at most one request is in flight: `handleTextGenerateClick` invoked while
`isGenerating` is true starts no generation and leaves the state unchanged; invoked with a
prompt that is empty after trimming it starts none and does not set the flag; when the
generation it started has settled, fulfilled or rejected, `isGenerating` is false; and
after every sequence of events on the page at most one request is in flight, one being in
flight exactly when the flag is set. -/
theorem at_most_one_request_in_flight (cfg : Config) :
    (∀ s : AppState, s.isGenerating = true → handleTextGenerateClick s = (s, none)) ∧
      (∀ s : AppState, trim s.textPromptInput = "" →
        (handleTextGenerateClick s).2 = none ∧
        (handleTextGenerateClick s).1.isGenerating = s.isGenerating) ∧
      (∀ (s : AppState) (prompt : String) (outcome : Except String String),
        (handleTextGenerateClickAfter s prompt outcome).isGenerating = false) ∧
      (∀ events : List Event,
        (runEvents cfg events).inFlight.length ≤ 1 ∧
        ((runEvents cfg events).app.isGenerating = true ↔
          (runEvents cfg events).inFlight ≠ [])) := by
  refine ⟨textClick_busy, ?_, textAfter_isGenerating, ?_⟩
  · intro s hs
    rcases textClick_cases s with h | ⟨_, hne, _, _⟩
    · exact h
    · exact absurd hs hne
  · intro events
    exact foldl_step_invariant cfg events _ (Nat.zero_le 1) (by simp [initialState])

/-- Witness for C22: a second click while the first text request is in flight starts
nothing, and the flag is down once the request has settled. -/
theorem at_most_one_request_in_flight_witness :
    (runEvents { ACTIVE_API := "demo", keyIsPlaceholder := none }
        [.editTextPrompt "Build a mobile app", .textClick, .textClick]).inFlight
      = [.text "Build a mobile app" "creative"] ∧
    handleTextGenerateClick
        (runEvents { ACTIVE_API := "demo", keyIsPlaceholder := none }
          [.editTextPrompt "Build a mobile app", .textClick]).app
      = ((runEvents { ACTIVE_API := "demo", keyIsPlaceholder := none }
          [.editTextPrompt "Build a mobile app", .textClick]).app, none) :=
  ⟨by decide,
    (at_most_one_request_in_flight { ACTIVE_API := "demo", keyIsPlaceholder := none }).1 _
      (by decide)⟩

/-! ## Demo mode -/

theorem imageClick_demo (cfg : Config) (hdemo : cfg.ACTIVE_API = "demo") (s : AppState) :
    (handleGenerateClick cfg s).2 = .returned ∧
      (handleGenerateClick cfg s).1.isGenerating = s.isGenerating := by
  unfold handleGenerateClick
  by_cases hb : s.isGenerating = true
  · rw [if_pos hb]
    exact ⟨rfl, rfl⟩
  · rw [if_neg hb]
    simp only []
    by_cases hp : trim s.promptInput = ""
    · rw [if_pos hp]
      exact ⟨rfl, rfl⟩
    · rw [if_neg hp, if_pos hdemo]
      exact ⟨rfl, rfl⟩

theorem step_text_only (cfg : Config) (hdemo : cfg.ACTIVE_API = "demo") (r : Run) (e : Event)
    (h : ∀ q ∈ r.inFlight, ∃ p t, q = Request.text p t) :
    ∀ q ∈ (step cfg r e).inFlight, ∃ p t, q = Request.text p t := by
  cases e with
  | editTextPrompt value => exact h
  | editImagePrompt value => exact h
  | selectTextType type => exact h
  | selectStyle style => exact h
  | switchTab tabName => exact h
  | textClick =>
    simp only [step]
    rcases handleTextGenerateClick r.app with ⟨s, o⟩
    cases o with
    | none => exact h
    | some q =>
      obtain ⟨prompt, type⟩ := q
      intro q hq
      simp only [List.mem_append, List.mem_singleton] at hq
      rcases hq with hq | rfl
      · exact h q hq
      · exact ⟨prompt, type, rfl⟩
  | imageClick =>
    have hd := (imageClick_demo cfg hdemo r.app).1
    simp only [step]
    rcases hc : handleGenerateClick cfg r.app with ⟨s, o⟩
    rw [hc] at hd
    simp only [] at hd
    subst hd
    exact h
  | settle outcome =>
    simp only [step]
    cases hq : r.inFlight with
    | nil =>
      simp only []
      rw [hq]
      exact fun q hq' => absurd hq' (List.not_mem_nil q)
    | cons q rest =>
      rw [hq] at h
      cases q with
      | text prompt type => exact fun q' hq' => h q' (List.mem_cons_of_mem _ hq')
      | image prompt style =>
        obtain ⟨p, t, hpt⟩ := h _ (List.mem_cons_self _ _)
        exact Request.noConfusion hpt

theorem foldl_step_text_only (cfg : Config) (hdemo : cfg.ACTIVE_API = "demo")
    (events : List Event) :
    ∀ r : Run, (∀ q ∈ r.inFlight, ∃ p t, q = Request.text p t) →
      ∀ q ∈ (events.foldl (step cfg) r).inFlight, ∃ p t, q = Request.text p t := by
  induction events with
  | nil => exact fun r h => h
  | cons e es ih => exact fun r h => ih (step cfg r e) (step_text_only cfg hdemo r e h)

/-- C30: when `CONFIG.ACTIVE_API` is "demo", `handleGenerateClick` returns before it sets
`isGenerating` and before the call of `generateAIImage`, whatever the prompt, so that after
every sequence of events no image request is in flight; and under every configuration
the part of the handler behind the `await`, with its demo branch, is reached only when
`CONFIG.ACTIVE_API` is not "demo". -/
theorem demo_mode_requests_no_image (cfg : Config) (hdemo : cfg.ACTIVE_API = "demo") :
    (∀ s : AppState, (handleGenerateClick cfg s).2 = .returned ∧
        (handleGenerateClick cfg s).1.isGenerating = s.isGenerating) ∧
      (∀ events : List Event, ∀ q ∈ (runEvents cfg events).inFlight,
        ∃ p t, q = Request.text p t) ∧
      (∀ (other : Config) (s : AppState) (prompt style : String),
        (handleGenerateClick other s).2 = .awaiting prompt style →
        other.ACTIVE_API ≠ "demo") := by
  refine ⟨imageClick_demo cfg hdemo, ?_, ?_⟩
  · intro events
    exact foldl_step_text_only cfg hdemo events _
      (fun q hq => absurd hq (List.not_mem_nil q))
  · intro other s prompt style h hd
    rw [(imageClick_demo other hd s).1] at h
    exact ClickResult.noConfusion h

/-- Witness for C30: in demo mode a click on the image button with a prompt typed in
starts nothing and leaves the flag down. -/
theorem demo_mode_requests_no_image_witness :
    (handleGenerateClick { ACTIVE_API := "demo", keyIsPlaceholder := some false }
        { initialState with promptInput := "a red fox" }).2 = .returned ∧
      (handleGenerateClick { ACTIVE_API := "demo", keyIsPlaceholder := some false }
        { initialState with promptInput := "a red fox" }).1.isGenerating = false :=
  (demo_mode_requests_no_image { ACTIVE_API := "demo", keyIsPlaceholder := some false }
    rfl).1 { initialState with promptInput := "a red fox" }

/-! ## The syntax trees compute what the functions compute -/

theorem someWith_map (f : Val → Option Val) (p : String → Bool)
    (h : ∀ w : String, ∃ v, f (.str w) = some v ∧ truthy v = p w) (ws : List String) :
    someWith f (ws.map Val.str) = some (ws.any p) := by
  induction ws with
  | nil => rfl
  | cons w ws ih =>
    obtain ⟨v, hv, ht⟩ := h w
    simp only [List.map_cons, someWith, hv, ht, ih, List.any_cons]
    cases p w <;> simp

theorem filterWith_map (f : Val → Option Val) (p : String → Bool)
    (h : ∀ w : String, ∃ v, f (.str w) = some v ∧ truthy v = p w) (ws : List String) :
    filterWith f (ws.map Val.str) = some ((ws.filter p).map Val.str) := by
  induction ws with
  | nil => rfl
  | cons w ws ih =>
    obtain ⟨v, hv, ht⟩ := h w
    simp only [List.map_cons, filterWith, hv, ht, ih, List.filter_cons]
    cases p w <;> simp

theorem elemVal_map (w : String) (xs : List String) :
    elemVal (.str w) (xs.map Val.str) = some (xs.contains w) := by
  induction xs with
  | nil => rfl
  | cons x xs ih =>
    simp only [List.map_cons, elemVal, strictEq, ih, List.contains_cons]
    by_cases hx : x = w
    · subst hx
      simp
    · have h1 : (x == w) = false := by simpa using hx
      have h2 : (w == x) = false := by simpa using (fun h : w = x => hx h.symm)
      simp [h1, h2]

theorem joinVals_map (sep : String) (ks : List String) :
    joinVals sep (ks.map Val.str) = some (joinWith sep ks) := by
  induction ks with
  | nil => rfl
  | cons k ks ih =>
    cases ks with
    | nil => rfl
    | cons k' ks' =>
      simp only [List.map_cons] at ih ⊢
      simp only [joinVals, toText, ih, joinWith]

theorem eval_object_strings (toLowerCase : String → String) (g : AppState) (env : Env)
    (rows : List (String × List String)) :
    eval toLowerCase g env (Expr.object (rows.map (fun row => (row.1, .strings row.2)))) =
      some (.obj (rows.map (fun row => (row.1, .arr (row.2.map Val.str))))) := by
  induction rows with
  | nil => rfl
  | cons row rows ih =>
    simp only [List.map_cons, Expr.object, eval, ih]

theorem eval_substOf (toLowerCase : String → String) (g : AppState) (env : Env)
    (prompt : String) (analysis : PromptAnalysis)
    (hp : env.lookup "prompt" = some (.str prompt))
    (ha : env.lookup "analysis" = some (analysisVal analysis)) (piece : Piece) :
    (eval toLowerCase g env (substOf piece)).bind toText =
      some (piece.text prompt analysis) := by
  cases piece with
  | lit s => rfl
  | prompt => simp [substOf, eval, lookupVar, hp, toText, Piece.text]
  | topic =>
    simp [substOf, eval, lookupVar, ha, analysisVal, getProp, List.lookup, toText, Piece.text]
  | keywords =>
    simp [substOf, eval, lookupVar, ha, analysisVal, getProp, List.lookup, toText,
      Piece.text, joinVals_map]
  | firstKeywords =>
    simp [substOf, eval, lookupVar, ha, analysisVal, getProp, List.lookup, toText,
      Piece.text, ← List.map_take, joinVals_map]
  | ifHigh yes no =>
    simp only [substOf, eval, lookupVar, ha, analysisVal, getProp, List.lookup, Piece.text]
    by_cases h : analysis.complexity = "high"
    · simp [h, strictEq, truthy, toText]
    · simp [h, strictEq, truthy, toText]

theorem eval_tplSubst (toLowerCase : String → String) (g : AppState) (env : Env)
    (e rest : Expr) (t r : String)
    (he : (eval toLowerCase g env e).bind toText = some t)
    (hr : eval toLowerCase g env rest = some (.str r)) :
    eval toLowerCase g env (.tplSubst e rest) = some (.str (t ++ r)) := by
  rw [eval, he, hr]

theorem eval_templateOf (toLowerCase : String → String) (g : AppState) (env : Env)
    (prompt : String) (analysis : PromptAnalysis)
    (hp : env.lookup "prompt" = some (.str prompt))
    (ha : env.lookup "analysis" = some (analysisVal analysis)) (pieces : List Piece) :
    eval toLowerCase g env (templateOf pieces) =
      some (.str (render prompt analysis pieces)) := by
  induction pieces with
  | nil => rfl
  | cons piece rest ih =>
    have hs := eval_substOf toLowerCase g env prompt analysis hp ha
    cases piece with
    | lit s => simp only [templateOf, eval, ih, render, Piece.text]
    | prompt => exact eval_tplSubst _ _ _ _ _ _ _ (hs .prompt) ih
    | topic => exact eval_tplSubst _ _ _ _ _ _ _ (hs .topic) ih
    | keywords => exact eval_tplSubst _ _ _ _ _ _ _ (hs .keywords) ih
    | firstKeywords => exact eval_tplSubst _ _ _ _ _ _ _ (hs .firstKeywords) ih
    | ifHigh yes no => exact eval_tplSubst _ _ _ _ _ _ _ (hs (.ifHigh yes no)) ih

theorem lookup_map_snd {α β : Type} (f : α → β) (l : List (String × α)) (key : String) :
    (l.map (fun e => (e.1, f e.2))).lookup key = (l.lookup key).map f := by
  induction l with
  | nil => rfl
  | cons e rest ih =>
    obtain ⟨k, t⟩ := e
    simp only [List.map_cons, List.lookup]
    cases key == k with
    | true => rfl
    | false => exact ih

theorem select_refines (templates : List (String × String)) (key d : String)
    (hd : templates.lookup "default" = some d) :
    (if truthy (getProp (templates.map (fun kt => (kt.1, Val.str kt.2))) key) then
        getProp (templates.map (fun kt => (kt.1, Val.str kt.2))) key
      else getProp (templates.map (fun kt => (kt.1, Val.str kt.2))) "default") =
      resultVal key (selectTemplate templates key) := by
  have hdefault : getProp (templates.map (fun kt => (kt.1, Val.str kt.2))) "default"
      = .str d := by
    simp only [getProp, lookup_map_snd, hd, Option.map_some']
  rw [hdefault]
  simp only [getProp, lookup_map_snd, selectTemplate]
  cases hk : templates.lookup key with
  | some t =>
    simp only [Option.map_some', truthy]
    by_cases ht : t = ""
    · simp [ht, hd, resultVal]
    · simp [ht, resultVal]
  | none =>
    simp only [Option.map_none']
    by_cases hp : key ∈ objectPrototypeKeys
    · simp [hp, truthy, resultVal]
    · simp [hp, truthy, resultVal, hd]

/-! ### One step of evaluation at a time -/

section Steps

variable (toLowerCase : String → String)
  (call : String → AppState → Val → Val → Option (AppState × Val)) (g : AppState) (env : Env)

theorem eval_var (x : String) (v : Val) (h : env.lookup x = some v) :
    eval toLowerCase g env (.var x) = some v := by
  rw [eval, lookupVar, h]

theorem eval_member_obj (e : Expr) (field : String) (fields : List (String × Val))
    (h : eval toLowerCase g env e = some (.obj fields)) :
    eval toLowerCase g env (.member e field) = some (getProp fields field) := by
  rw [eval, h]

theorem eval_length_arr (e : Expr) (items : List Val)
    (h : eval toLowerCase g env e = some (.arr items)) :
    eval toLowerCase g env (.member e "length") = some (.num items.length) := by
  rw [eval, h]
  rfl

theorem eval_length_str (e : Expr) (s : String)
    (h : eval toLowerCase g env e = some (.str s)) :
    eval toLowerCase g env (.member e "length") = some (.num (jsLength s)) := by
  rw [eval, h]
  rfl

theorem eval_index_obj (e i : Expr) (fields : List (String × Val)) (key : String)
    (he : eval toLowerCase g env e = some (.obj fields))
    (hi : eval toLowerCase g env i = some (.str key)) :
    eval toLowerCase g env (.index e i) = some (getProp fields key) := by
  rw [eval, he, hi]

theorem eval_index_arr (e i : Expr) (items : List Val) (n : Nat)
    (he : eval toLowerCase g env e = some (.arr items))
    (hi : eval toLowerCase g env i = some (.num n)) :
    eval toLowerCase g env (.index e i) = some (items.getD n .undefined) := by
  rw [eval, he, hi]

theorem eval_objField (key : String) (value rest : Expr) (v : Val)
    (fields : List (String × Val))
    (hv : eval toLowerCase g env value = some v)
    (hr : eval toLowerCase g env rest = some (.obj fields)) :
    eval toLowerCase g env (.objField key value rest) = some (.obj ((key, v) :: fields)) := by
  rw [eval, hv, hr]

theorem eval_or (a b : Expr) (v : Val) (ha : eval toLowerCase g env a = some v) :
    eval toLowerCase g env (.or a b) =
      if truthy v then some v else eval toLowerCase g env b := by
  rw [eval, ha]

theorem eval_or_bool (a b : Expr) (x y : Bool)
    (ha : eval toLowerCase g env a = some (.bool x))
    (hb : eval toLowerCase g env b = some (.bool y)) :
    eval toLowerCase g env (.or a b) = some (.bool (x || y)) := by
  rw [eval, ha, hb]
  cases x <;> rfl

theorem eval_and_bool (a b : Expr) (x y : Bool)
    (ha : eval toLowerCase g env a = some (.bool x))
    (hb : eval toLowerCase g env b = some (.bool y)) :
    eval toLowerCase g env (.and a b) = some (.bool (x && y)) := by
  rw [eval, ha, hb]
  cases x <;> rfl

theorem eval_not_bool (a : Expr) (x : Bool)
    (ha : eval toLowerCase g env a = some (.bool x)) :
    eval toLowerCase g env (.not a) = some (.bool (!x)) := by
  rw [eval, ha]
  rfl

theorem eval_gt (a b : Expr) (m n : Nat)
    (ha : eval toLowerCase g env a = some (.num m))
    (hb : eval toLowerCase g env b = some (.num n)) :
    eval toLowerCase g env (.gt a b) = some (.bool (decide (m > n))) := by
  rw [eval, ha, hb]

theorem eval_lt (a b : Expr) (m n : Nat)
    (ha : eval toLowerCase g env a = some (.num m))
    (hb : eval toLowerCase g env b = some (.num n)) :
    eval toLowerCase g env (.lt a b) = some (.bool (decide (m < n))) := by
  rw [eval, ha, hb]

theorem eval_strictEq_str (a b : Expr) (s t : String)
    (ha : eval toLowerCase g env a = some (.str s))
    (hb : eval toLowerCase g env b = some (.str t)) :
    eval toLowerCase g env (.strictEq a b) = some (.bool (s == t)) := by
  rw [eval, ha, hb]
  rfl

theorem eval_includes_str (recv arg : Expr) (s k : String)
    (hr : eval toLowerCase g env recv = some (.str s))
    (ha : eval toLowerCase g env arg = some (.str k)) :
    eval toLowerCase g env (.includes recv arg) = some (.bool (includes s k)) := by
  rw [eval, hr, ha]

theorem eval_includes_strings (xs : List String) (arg : Expr) (w : String)
    (ha : eval toLowerCase g env arg = some (.str w)) :
    eval toLowerCase g env (.includes (.strings xs) arg) = some (.bool (xs.contains w)) := by
  rw [eval, ha]
  simp only [eval, elemVal_map, Option.map_some']

theorem eval_some (recv : Expr) (x : String) (body : Expr) (ws : List String)
    (p : String → Bool)
    (hr : eval toLowerCase g env recv = some (.arr (ws.map Val.str)))
    (hb : ∀ w : String, ∃ v, eval toLowerCase g ((x, .str w) :: env) body = some v ∧
      truthy v = p w) :
    eval toLowerCase g env (.some recv x body) = some (.bool (ws.any p)) := by
  rw [eval, hr]
  simp only [someWith_map (fun v => eval toLowerCase g ((x, v) :: env) body) p hb,
    Option.map_some']

theorem eval_filter (recv : Expr) (x : String) (body : Expr) (ws : List String)
    (p : String → Bool)
    (hr : eval toLowerCase g env recv = some (.arr (ws.map Val.str)))
    (hb : ∀ w : String, ∃ v, eval toLowerCase g ((x, .str w) :: env) body = some v ∧
      truthy v = p w) :
    eval toLowerCase g env (.filter recv x body) =
      some (.arr ((ws.filter p).map Val.str)) := by
  rw [eval, hr]
  simp only [filterWith_map (fun v => eval toLowerCase g ((x, v) :: env) body) p hb,
    Option.map_some']

theorem eval_slice (recv start stop : Expr) (items : List Val) (a b : Nat)
    (hr : eval toLowerCase g env recv = some (.arr items))
    (ha : eval toLowerCase g env start = some (.num a))
    (hb : eval toLowerCase g env stop = some (.num b)) :
    eval toLowerCase g env (.slice recv start stop) = some (.arr ((items.take b).drop a)) := by
  rw [eval, hr, ha, hb]

theorem exec_decl (x : String) (e : Expr) (v : Val)
    (h : eval toLowerCase g env e = some v) :
    exec toLowerCase call g env (.decl x e) = some (g, (x, v) :: env, .normal) := by
  rw [exec, h]
  rfl

theorem exec_ret (e : Expr) (v : Val) (h : eval toLowerCase g env e = some v) :
    exec toLowerCase call g env (.ret e) = some (g, env, .ret v) := by
  rw [exec, h]
  rfl

theorem exec_seq (first second : Stmt) (g' : AppState) (env' : Env)
    (h : exec toLowerCase call g env first = some (g', env', .normal)) :
    exec toLowerCase call g env (.seq first second) =
      exec toLowerCase call g' env' second := by
  rw [exec, h]

theorem exec_assignMember (x field : String) (e : Expr) (fields : List (String × Val))
    (v : Val) (env' : Env)
    (hx : env.lookup x = some (.obj fields))
    (he : eval toLowerCase g env e = some v)
    (hs : setLocal env x (.obj (setProp fields field v)) = some env') :
    exec toLowerCase call g env (.assignMember x field e) = some (g, env', .normal) := by
  rw [exec, lookupVar, hx, he]
  simp only [hs, Option.map_some']

theorem exec_ifThen (c : Expr) (t e : Stmt) (b : Bool)
    (hc : eval toLowerCase g env c = some (.bool b)) :
    exec toLowerCase call g env (.ifThen c t e) =
      if b then exec toLowerCase call g env t else exec toLowerCase call g env e := by
  rw [exec, hc]
  rfl

theorem runFun_ret (f : FunDef) (p q : String) (a b v : Val) (g' : AppState) (env' : Env)
    (hp : f.params = [p, q])
    (h : exec toLowerCase call g [(q, b), (p, a)] f.body = some (g', env', .ret v)) :
    runFun toLowerCase call g f a b = some (g', v) := by
  unfold runFun
  rw [hp]
  simp only [h]

end Steps

theorem eval_object_templates (toLowerCase : String → String) (g : AppState) (env : Env)
    (prompt : String) (analysis : PromptAnalysis)
    (hp : env.lookup "prompt" = some (.str prompt))
    (ha : env.lookup "analysis" = some (analysisVal analysis))
    (entries : List (String × List Piece)) :
    eval toLowerCase g env (Expr.object (entries.map (fun e => (e.1, templateOf e.2)))) =
      some (.obj (entries.map (fun e => (e.1, Val.str (render prompt analysis e.2))))) := by
  induction entries with
  | nil => rfl
  | cons e rest ih =>
    exact eval_objField toLowerCase g env _ _ _ _ _
      (eval_templateOf toLowerCase g env prompt analysis hp ha e.2) ih

/-- What running the body shared by the four generators gives: a declaration
`const name = { key: template, ... }` followed by
`return name[analysis.category] || name.default`. -/
theorem run_generator (toLowerCase : String → String) (g : AppState) (prompt : String)
    (analysis : PromptAnalysis) (name : String) (entries : List (String × List Piece))
    (d : List Piece) (hd : entries.lookup "default" = some d)
    (hname : ("analysis" == name) = false) :
    runFun toLowerCase noCall g
        { params := ["prompt", "analysis"],
          body := Stmt.block
            [ .decl name (Expr.object (entries.map (fun e => (e.1, templateOf e.2)))),
              .ret (.or (.index (.var name) (.member (.var "analysis") "category"))
                (.member (.var name) "default")) ] }
        (.str prompt) (analysisVal analysis) =
      some (g, resultVal analysis.category
        (selectTemplate (entries.map (fun e => (e.1, render prompt analysis e.2)))
          analysis.category)) := by
  have hobj := eval_object_templates toLowerCase g
    [("analysis", analysisVal analysis), ("prompt", .str prompt)] prompt analysis rfl rfl
    entries
  have hdecl := exec_decl toLowerCase noCall g _ name _ _ hobj
  have hvar : eval toLowerCase g
      [(name, Val.obj (entries.map (fun e => (e.1, Val.str (render prompt analysis e.2))))),
        ("analysis", analysisVal analysis), ("prompt", Val.str prompt)] (.var name)
      = some (Val.obj (entries.map (fun e => (e.1, Val.str (render prompt analysis e.2))))) :=
    eval_var toLowerCase g _ name _ (by simp [List.lookup])
  have hana : eval toLowerCase g
      [(name, Val.obj (entries.map (fun e => (e.1, Val.str (render prompt analysis e.2))))),
        ("analysis", analysisVal analysis), ("prompt", Val.str prompt)] (.var "analysis")
      = some (analysisVal analysis) :=
    eval_var toLowerCase g _ "analysis" _ (by simp [List.lookup, hname])
  have hcat := eval_member_obj toLowerCase g _ _ "category" _ hana
  have hidx := eval_index_obj toLowerCase g _ _ _ _ analysis.category hvar hcat
  have hdef := eval_member_obj toLowerCase g _ _ "default" _ hvar
  have hor := eval_or toLowerCase g _ _ (.member (.var name) "default") _ hidx
  rw [hdef] at hor
  have hsel := select_refines (entries.map (fun e => (e.1, render prompt analysis e.2)))
    analysis.category (render prompt analysis d)
    (by rw [lookup_map_snd, hd]; rfl)
  simp only [List.map_map, Function.comp_def] at hsel
  have hval : eval toLowerCase g
      [(name, Val.obj (entries.map (fun e => (e.1, Val.str (render prompt analysis e.2))))),
        ("analysis", analysisVal analysis), ("prompt", Val.str prompt)]
      (.or (.index (.var name) (.member (.var "analysis") "category"))
        (.member (.var name) "default")) = some (resultVal analysis.category
        (selectTemplate (entries.map (fun e => (e.1, render prompt analysis e.2)))
          analysis.category)) := by
    rw [hor, ← hsel]
    split_ifs <;> rfl
  have hexec := (exec_seq toLowerCase noCall g _ _
    (.ret (.or (.index (.var name) (.member (.var "analysis") "category"))
      (.member (.var name) "default"))) g _ hdecl).trans
    (exec_ret toLowerCase noCall g _ _ _ hval)
  exact runFun_ret toLowerCase noCall g _ "prompt" "analysis" _ _ _ g _ rfl hexec

theorem run_generateCreativeText (toLowerCase : String → String) (g : AppState)
    (prompt : String) (analysis : PromptAnalysis) :
    runFun toLowerCase noCall g generateCreativeTextDef (.str prompt) (analysisVal analysis) =
      some (g, resultVal analysis.category (generateCreativeText prompt analysis)) :=
  run_generator toLowerCase g prompt analysis "creativeTemplates"
    [ ("technology", creativeTechnology), ("business", creativeBusiness),
      ("creative", creativeCreative), ("default", creativeDefault) ] creativeDefault rfl rfl

theorem run_generateProfessionalText (toLowerCase : String → String) (g : AppState)
    (prompt : String) (analysis : PromptAnalysis) :
    runFun toLowerCase noCall g generateProfessionalTextDef (.str prompt)
        (analysisVal analysis) =
      some (g, resultVal analysis.category (generateProfessionalText prompt analysis)) :=
  run_generator toLowerCase g prompt analysis "professionalTemplates"
    [ ("technology", professionalTechnology), ("business", professionalBusiness),
      ("default", professionalDefault) ] professionalDefault rfl rfl

theorem run_generateCasualText (toLowerCase : String → String) (g : AppState)
    (prompt : String) (analysis : PromptAnalysis) :
    runFun toLowerCase noCall g generateCasualTextDef (.str prompt) (analysisVal analysis) =
      some (g, resultVal analysis.category (generateCasualText prompt analysis)) :=
  run_generator toLowerCase g prompt analysis "casualTemplates"
    [ ("technology", casualTechnology), ("business", casualBusiness),
      ("default", casualDefault) ] casualDefault rfl rfl

theorem run_generateAcademicText (toLowerCase : String → String) (g : AppState)
    (prompt : String) (analysis : PromptAnalysis) :
    runFun toLowerCase noCall g generateAcademicTextDef (.str prompt) (analysisVal analysis) =
      some (g, resultVal analysis.category (generateAcademicText prompt analysis)) :=
  run_generator toLowerCase g prompt analysis "academicTemplates"
    [ ("technology", academicTechnology), ("business", academicBusiness),
      ("default", academicDefault) ] academicDefault rfl rfl

/-! ### `analyzePrompt` -/

theorem exec_assignMember_eq (toLowerCase : String → String)
    (call : String → AppState → Val → Val → Option (AppState × Val)) (g : AppState)
    (env : Env) (x field : String) (e : Expr) (fields : List (String × Val)) (v : Val)
    (hx : env.lookup x = some (.obj fields))
    (he : eval toLowerCase g env e = some v) :
    exec toLowerCase call g env (.assignMember x field e) =
      (setLocal env x (.obj (setProp fields field v))).map (fun env' => (g, env', .normal)) := by
  rw [exec, lookupVar, hx, he]

theorem exec_category_loop (toLowerCase : String → String)
    (call : String → AppState → Val → Val → Option (AppState × Val)) (g : AppState)
    (prompt : String) (c w t k x o : Val) (rows : List (String × List String)) :
    ∀ cur : String,
      runLoop
        (fun g' env' => exec toLowerCase call g' env'
          (.ifThen (.some (.var "keywords") "keyword" (.includes (.var "prompt") (.var "keyword")))
            (.seq (.assignMember "analysis" "category" (.var "category")) .brk)
            .skip))
        "category" "keywords" (rows.map (fun row => (row.1, .arr (row.2.map Val.str)))) g
        [ ("categories", c),
          ("analysis", .obj [("topic", t), ("category", .str cur), ("keywords", k),
            ("complexity", x), ("tone", o)]),
          ("words", w), ("prompt", .str prompt) ] =
      some (g,
        [ ("categories", c),
          ("analysis", .obj [("topic", t), ("category", .str (categorize prompt rows cur)),
            ("keywords", k), ("complexity", x), ("tone", o)]),
          ("words", w), ("prompt", .str prompt) ], .normal) := by
  induction rows with
  | nil => intro cur; rfl
  | cons row rows ih =>
    intro cur
    obtain ⟨key, kws⟩ := row
    have hcond := eval_some toLowerCase g
      [ ("category", .str key), ("keywords", .arr (kws.map Val.str)), ("categories", c),
        ("analysis", .obj [("topic", t), ("category", .str cur), ("keywords", k),
          ("complexity", x), ("tone", o)]),
        ("words", w), ("prompt", .str prompt) ]
      (.var "keywords") "keyword" (.includes (.var "prompt") (.var "keyword")) kws
      (fun keyword => includes prompt keyword)
      (eval_var toLowerCase g _ _ _ rfl)
      (fun keyword => ⟨_, eval_includes_str toLowerCase g _ _ _ _ _
        (eval_var toLowerCase g _ _ _ rfl) (eval_var toLowerCase g _ _ _ rfl), rfl⟩)
    have hif := exec_ifThen toLowerCase call g _ _
      (.seq (.assignMember "analysis" "category" (.var "category")) .brk) .skip _ hcond
    simp only [List.map_cons, runLoop, hif, categorize]
    by_cases hany : kws.any (fun keyword => includes prompt keyword) = true
    · have hassign := exec_assignMember_eq toLowerCase call g
        [ ("category", .str key), ("keywords", .arr (kws.map Val.str)), ("categories", c),
          ("analysis", .obj [("topic", t), ("category", .str cur), ("keywords", k),
            ("complexity", x), ("tone", o)]),
          ("words", w), ("prompt", .str prompt) ]
        "analysis" "category" (.var "category") _ _ rfl (eval_var toLowerCase g _ _ _ rfl)
      rw [if_pos hany, if_pos hany, exec, hassign]
      rfl
    · rw [if_neg hany, if_neg hany, exec]
      exact ih cur

theorem eval_first_word (toLowerCase : String → String) (g : AppState) (env : Env)
    (words : List String)
    (hw : env.lookup "words" = some (.arr (words.map Val.str))) :
    eval toLowerCase g env (.or (.index (.var "words") (.num 0)) (.str "topic")) =
      some (.str (orElse words.head? "topic")) := by
  have hidx : eval toLowerCase g env (.index (.var "words") (.num 0)) =
      some ((words.map Val.str).getD 0 .undefined) :=
    eval_index_arr toLowerCase g env (.var "words") (.num 0) _ 0
      (eval_var toLowerCase g env _ _ hw) (by rw [eval])
  rw [eval_or toLowerCase g env _ _ _ hidx]
  cases words with
  | nil => rfl
  | cons w ws =>
    simp only [List.map_cons, List.getD_cons_zero, truthy, List.head?_cons, orElse]
    by_cases h : w = ""
    · simp [h, eval]
    · simp [h]

theorem eval_keyword_filter (toLowerCase : String → String) (g : AppState) (env : Env)
    (words : List String)
    (hw : env.lookup "words" = some (.arr (words.map Val.str))) :
    eval toLowerCase g env
        (.slice
          (.filter (.var "words") "word"
            (.and (.gt (.member (.var "word") "length") (.num 3))
              (.not (.includes (.strings stopWords) (.var "word")))))
          (.num 0) (.num 5)) =
      some (.arr (((words.filter isKeyword).take 5).map Val.str)) := by
  have hf := eval_filter toLowerCase g env (.var "words") "word"
    (.and (.gt (.member (.var "word") "length") (.num 3))
      (.not (.includes (.strings stopWords) (.var "word")))) words isKeyword
    (eval_var toLowerCase g env _ _ hw)
    (fun w => ⟨_, eval_and_bool toLowerCase g (("word", .str w) :: env)
        (.gt (.member (.var "word") "length") (.num 3))
        (.not (.includes (.strings stopWords) (.var "word"))) _ _
      (eval_gt toLowerCase g (("word", .str w) :: env) (.member (.var "word") "length")
        (.num 3) _ 3
        (eval_length_str toLowerCase g (("word", .str w) :: env) (.var "word") w
          (eval_var toLowerCase g (("word", .str w) :: env) "word" _
            (by simp [List.lookup])))
        (by rw [eval]))
      (eval_not_bool toLowerCase g (("word", .str w) :: env) _ _
        (eval_includes_strings toLowerCase g (("word", .str w) :: env) stopWords
          (.var "word") w
          (eval_var toLowerCase g (("word", .str w) :: env) "word" _
            (by simp [List.lookup])))),
      rfl⟩)
  rw [eval_slice toLowerCase g env _ (.num 0) (.num 5) _ 0 5 hf (by rw [eval]) (by rw [eval]),
    List.drop_zero, List.map_take]

theorem eval_complexity_high (toLowerCase : String → String) (g : AppState) (env : Env)
    (prompt : String) (words : List String)
    (hw : env.lookup "words" = some (.arr (words.map Val.str)))
    (hp : env.lookup "prompt" = some (.str prompt)) :
    eval toLowerCase g env
        (.or (.or (.gt (.member (.var "words") "length") (.num 10))
            (.includes (.var "prompt") (.str "advanced")))
          (.includes (.var "prompt") (.str "complex"))) =
      some (.bool (decide (words.length > 10) || includes prompt "advanced"
        || includes prompt "complex")) := by
  have hlen := eval_length_arr toLowerCase g env (.var "words") _
    (eval_var toLowerCase g env _ _ hw)
  rw [List.length_map] at hlen
  have hp' := eval_var toLowerCase g env _ _ hp
  exact eval_or_bool toLowerCase g env _ _ _ _
    (eval_or_bool toLowerCase g env _ _ _ _
      (eval_gt toLowerCase g env _ (.num 10) _ 10 hlen (by rw [eval]))
      (eval_includes_str toLowerCase g env _ (.str "advanced") _ "advanced" hp'
        (by rw [eval])))
    (eval_includes_str toLowerCase g env _ (.str "complex") _ "complex" hp' (by rw [eval]))

theorem eval_complexity_low (toLowerCase : String → String) (g : AppState) (env : Env)
    (words : List String)
    (hw : env.lookup "words" = some (.arr (words.map Val.str))) :
    eval toLowerCase g env (.lt (.member (.var "words") "length") (.num 5)) =
      some (.bool (decide (words.length < 5))) := by
  have hlen := eval_length_arr toLowerCase g env (.var "words") _
    (eval_var toLowerCase g env _ _ hw)
  rw [List.length_map] at hlen
  exact eval_lt toLowerCase g env _ (.num 5) _ 5 hlen (by rw [eval])

theorem eval_includes_any3 (toLowerCase : String → String) (g : AppState) (env : Env)
    (prompt a b c : String)
    (hp : env.lookup "prompt" = some (.str prompt)) :
    eval toLowerCase g env
        (.or (.or (.includes (.var "prompt") (.str a)) (.includes (.var "prompt") (.str b)))
          (.includes (.var "prompt") (.str c))) =
      some (.bool (includes prompt a || includes prompt b || includes prompt c)) := by
  have hp' := eval_var toLowerCase g env _ _ hp
  exact eval_or_bool toLowerCase g env _ _ _ _
    (eval_or_bool toLowerCase g env _ _ _ _
      (eval_includes_str toLowerCase g env _ (.str a) _ a hp' (by rw [eval]))
      (eval_includes_str toLowerCase g env _ (.str b) _ b hp' (by rw [eval])))
    (eval_includes_str toLowerCase g env _ (.str c) _ c hp' (by rw [eval]))

theorem run_analyzePrompt (toLowerCase : String → String)
    (call : String → AppState → Val → Val → Option (AppState × Val)) (g : AppState)
    (prompt : String) (words : List String) :
    runFun toLowerCase call g analyzePromptDef (.str prompt) (.arr (words.map Val.str)) =
      some (g, analysisVal (analyzePrompt prompt words)) := by
  have h1 : exec toLowerCase call g [("words", .arr (words.map Val.str)), ("prompt", .str prompt)]
      (.decl "analysis" (Expr.object
        [ ("topic", .str ""), ("category", .str ""), ("keywords", .strings []),
          ("complexity", .str "medium"), ("tone", .str "neutral") ])) =
      some (g, [("analysis", .obj [("topic", .str ""), ("category", .str ""), ("keywords", .arr []), ("complexity", .str "medium"), ("tone", .str "neutral")]), ("words", .arr (words.map Val.str)), ("prompt", .str prompt)], .normal) :=
    exec_decl toLowerCase call g [("words", .arr (words.map Val.str)), ("prompt", .str prompt)] "analysis" _ _ rfl
  have h2 : exec toLowerCase call g [("analysis", .obj [("topic", .str ""), ("category", .str ""), ("keywords", .arr []), ("complexity", .str "medium"), ("tone", .str "neutral")]), ("words", .arr (words.map Val.str)), ("prompt", .str prompt)]
      (.assignMember "analysis" "topic" (.or (.index (.var "words") (.num 0)) (.str "topic"))) =
      some (g, [("analysis", .obj [("topic", .str (orElse words.head? "topic")), ("category", .str ""), ("keywords", .arr []), ("complexity", .str "medium"), ("tone", .str "neutral")]), ("words", .arr (words.map Val.str)), ("prompt", .str prompt)], .normal) :=
    (exec_assignMember_eq toLowerCase call g [("analysis", .obj [("topic", .str ""), ("category", .str ""), ("keywords", .arr []), ("complexity", .str "medium"), ("tone", .str "neutral")]), ("words", .arr (words.map Val.str)), ("prompt", .str prompt)] "analysis" "topic"
      (.or (.index (.var "words") (.num 0)) (.str "topic")) [("topic", .str ""), ("category", .str ""), ("keywords", .arr []), ("complexity", .str "medium"), ("tone", .str "neutral")] _ rfl
      (eval_first_word toLowerCase g [("analysis", .obj [("topic", .str ""), ("category", .str ""), ("keywords", .arr []), ("complexity", .str "medium"), ("tone", .str "neutral")]), ("words", .arr (words.map Val.str)), ("prompt", .str prompt)] words rfl)).trans rfl
  have h3 : exec toLowerCase call g [("analysis", .obj [("topic", .str (orElse words.head? "topic")), ("category", .str ""), ("keywords", .arr []), ("complexity", .str "medium"), ("tone", .str "neutral")]), ("words", .arr (words.map Val.str)), ("prompt", .str prompt)]
      (.decl "categories" (Expr.object (categories.map (fun row => (row.1, .strings row.2))))) =
      some (g, [("categories", .obj (categories.map (fun row => (row.1, .arr (row.2.map Val.str))))), ("analysis", .obj [("topic", .str (orElse words.head? "topic")), ("category", .str ""), ("keywords", .arr []), ("complexity", .str "medium"), ("tone", .str "neutral")]), ("words", .arr (words.map Val.str)), ("prompt", .str prompt)], .normal) :=
    exec_decl toLowerCase call g [("analysis", .obj [("topic", .str (orElse words.head? "topic")), ("category", .str ""), ("keywords", .arr []), ("complexity", .str "medium"), ("tone", .str "neutral")]), ("words", .arr (words.map Val.str)), ("prompt", .str prompt)] "categories" _ _
      (eval_object_strings toLowerCase g [("analysis", .obj [("topic", .str (orElse words.head? "topic")), ("category", .str ""), ("keywords", .arr []), ("complexity", .str "medium"), ("tone", .str "neutral")]), ("words", .arr (words.map Val.str)), ("prompt", .str prompt)] categories)
  have h4 : exec toLowerCase call g [("categories", .obj (categories.map (fun row => (row.1, .arr (row.2.map Val.str))))), ("analysis", .obj [("topic", .str (orElse words.head? "topic")), ("category", .str ""), ("keywords", .arr []), ("complexity", .str "medium"), ("tone", .str "neutral")]), ("words", .arr (words.map Val.str)), ("prompt", .str prompt)]
      (.forEntries "category" "keywords" (.var "categories")
        (.ifThen (.some (.var "keywords") "keyword" (.includes (.var "prompt") (.var "keyword")))
          (.seq (.assignMember "analysis" "category" (.var "category")) .brk)
          .skip)) =
      some (g, [("categories", .obj (categories.map (fun row => (row.1, .arr (row.2.map Val.str))))), ("analysis", .obj [("topic", .str (orElse words.head? "topic")), ("category", .str (categorize prompt categories "")), ("keywords", .arr []), ("complexity", .str "medium"), ("tone", .str "neutral")]), ("words", .arr (words.map Val.str)), ("prompt", .str prompt)], .normal) := by
    rw [exec, eval_var toLowerCase g [("categories", .obj (categories.map (fun row => (row.1, .arr (row.2.map Val.str))))), ("analysis", .obj [("topic", .str (orElse words.head? "topic")), ("category", .str ""), ("keywords", .arr []), ("complexity", .str "medium"), ("tone", .str "neutral")]), ("words", .arr (words.map Val.str)), ("prompt", .str prompt)] "categories" _ rfl]
    exact exec_category_loop toLowerCase call g prompt _ _ _ _ _ _ categories ""
  have h5 : exec toLowerCase call g [("categories", .obj (categories.map (fun row => (row.1, .arr (row.2.map Val.str))))), ("analysis", .obj [("topic", .str (orElse words.head? "topic")), ("category", .str (categorize prompt categories "")), ("keywords", .arr []), ("complexity", .str "medium"), ("tone", .str "neutral")]), ("words", .arr (words.map Val.str)), ("prompt", .str prompt)]
      (.assignMember "analysis" "keywords"
        (.slice
          (.filter (.var "words") "word"
            (.and (.gt (.member (.var "word") "length") (.num 3))
              (.not (.includes (.strings stopWords) (.var "word")))))
          (.num 0) (.num 5))) =
      some (g, [("categories", .obj (categories.map (fun row => (row.1, .arr (row.2.map Val.str))))), ("analysis", .obj [("topic", .str (orElse words.head? "topic")), ("category", .str (categorize prompt categories "")), ("keywords", .arr (((words.filter isKeyword).take 5).map Val.str)), ("complexity", .str "medium"), ("tone", .str "neutral")]), ("words", .arr (words.map Val.str)), ("prompt", .str prompt)], .normal) :=
    (exec_assignMember_eq toLowerCase call g [("categories", .obj (categories.map (fun row => (row.1, .arr (row.2.map Val.str))))), ("analysis", .obj [("topic", .str (orElse words.head? "topic")), ("category", .str (categorize prompt categories "")), ("keywords", .arr []), ("complexity", .str "medium"), ("tone", .str "neutral")]), ("words", .arr (words.map Val.str)), ("prompt", .str prompt)] "analysis" "keywords"
      (.slice
          (.filter (.var "words") "word"
            (.and (.gt (.member (.var "word") "length") (.num 3))
              (.not (.includes (.strings stopWords) (.var "word")))))
          (.num 0) (.num 5)) [("topic", .str (orElse words.head? "topic")), ("category", .str (categorize prompt categories "")), ("keywords", .arr []), ("complexity", .str "medium"), ("tone", .str "neutral")] _ rfl
      (eval_keyword_filter toLowerCase g [("categories", .obj (categories.map (fun row => (row.1, .arr (row.2.map Val.str))))), ("analysis", .obj [("topic", .str (orElse words.head? "topic")), ("category", .str (categorize prompt categories "")), ("keywords", .arr []), ("complexity", .str "medium"), ("tone", .str "neutral")]), ("words", .arr (words.map Val.str)), ("prompt", .str prompt)] words rfl)).trans rfl
  have h6 : exec toLowerCase call g [("categories", .obj (categories.map (fun row => (row.1, .arr (row.2.map Val.str))))), ("analysis", .obj [("topic", .str (orElse words.head? "topic")), ("category", .str (categorize prompt categories "")), ("keywords", .arr (((words.filter isKeyword).take 5).map Val.str)), ("complexity", .str "medium"), ("tone", .str "neutral")]), ("words", .arr (words.map Val.str)), ("prompt", .str prompt)]
      (.ifThen
        (.or (.or (.gt (.member (.var "words") "length") (.num 10))
            (.includes (.var "prompt") (.str "advanced")))
          (.includes (.var "prompt") (.str "complex")))
        (.assignMember "analysis" "complexity" (.str "high"))
        (.ifThen (.lt (.member (.var "words") "length") (.num 5))
          (.assignMember "analysis" "complexity" (.str "low"))
          .skip)) =
      some (g, [("categories", .obj (categories.map (fun row => (row.1, .arr (row.2.map Val.str))))), ("analysis", .obj [("topic", .str (orElse words.head? "topic")), ("category", .str (categorize prompt categories "")), ("keywords", .arr (((words.filter isKeyword).take 5).map Val.str)), ("complexity", .str (if (decide (words.length > 10) || includes prompt "advanced" || includes prompt "complex") = true then "high" else if decide (words.length < 5) = true then "low" else "medium")), ("tone", .str "neutral")]), ("words", .arr (words.map Val.str)), ("prompt", .str prompt)], .normal) := by
    rw [exec_ifThen toLowerCase call g [("categories", .obj (categories.map (fun row => (row.1, .arr (row.2.map Val.str))))), ("analysis", .obj [("topic", .str (orElse words.head? "topic")), ("category", .str (categorize prompt categories "")), ("keywords", .arr (((words.filter isKeyword).take 5).map Val.str)), ("complexity", .str "medium"), ("tone", .str "neutral")]), ("words", .arr (words.map Val.str)), ("prompt", .str prompt)] _ _ _ _
      (eval_complexity_high toLowerCase g [("categories", .obj (categories.map (fun row => (row.1, .arr (row.2.map Val.str))))), ("analysis", .obj [("topic", .str (orElse words.head? "topic")), ("category", .str (categorize prompt categories "")), ("keywords", .arr (((words.filter isKeyword).take 5).map Val.str)), ("complexity", .str "medium"), ("tone", .str "neutral")]), ("words", .arr (words.map Val.str)), ("prompt", .str prompt)] prompt words rfl rfl),
      exec_ifThen toLowerCase call g [("categories", .obj (categories.map (fun row => (row.1, .arr (row.2.map Val.str))))), ("analysis", .obj [("topic", .str (orElse words.head? "topic")), ("category", .str (categorize prompt categories "")), ("keywords", .arr (((words.filter isKeyword).take 5).map Val.str)), ("complexity", .str "medium"), ("tone", .str "neutral")]), ("words", .arr (words.map Val.str)), ("prompt", .str prompt)] _ _ _ _
        (eval_complexity_low toLowerCase g [("categories", .obj (categories.map (fun row => (row.1, .arr (row.2.map Val.str))))), ("analysis", .obj [("topic", .str (orElse words.head? "topic")), ("category", .str (categorize prompt categories "")), ("keywords", .arr (((words.filter isKeyword).take 5).map Val.str)), ("complexity", .str "medium"), ("tone", .str "neutral")]), ("words", .arr (words.map Val.str)), ("prompt", .str prompt)] words rfl)]
    cases decide (words.length > 10) || includes prompt "advanced" || includes prompt "complex"
      <;> cases decide (words.length < 5) <;> rfl
  have h7 : exec toLowerCase call g [("categories", .obj (categories.map (fun row => (row.1, .arr (row.2.map Val.str))))), ("analysis", .obj [("topic", .str (orElse words.head? "topic")), ("category", .str (categorize prompt categories "")), ("keywords", .arr (((words.filter isKeyword).take 5).map Val.str)), ("complexity", .str (if (decide (words.length > 10) || includes prompt "advanced" || includes prompt "complex") = true then "high" else if decide (words.length < 5) = true then "low" else "medium")), ("tone", .str "neutral")]), ("words", .arr (words.map Val.str)), ("prompt", .str prompt)]
      (.ifThen
        (.or (.or (.includes (.var "prompt") (.str "fun"))
            (.includes (.var "prompt") (.str "creative")))
          (.includes (.var "prompt") (.str "exciting")))
        (.assignMember "analysis" "tone" (.str "enthusiastic"))
        (.ifThen
          (.or (.or (.includes (.var "prompt") (.str "serious"))
              (.includes (.var "prompt") (.str "professional")))
            (.includes (.var "prompt") (.str "formal")))
          (.assignMember "analysis" "tone" (.str "formal"))
          .skip)) =
      some (g, [("categories", .obj (categories.map (fun row => (row.1, .arr (row.2.map Val.str))))), ("analysis", .obj [("topic", .str (orElse words.head? "topic")), ("category", .str (categorize prompt categories "")), ("keywords", .arr (((words.filter isKeyword).take 5).map Val.str)), ("complexity", .str (if (decide (words.length > 10) || includes prompt "advanced" || includes prompt "complex") = true then "high" else if decide (words.length < 5) = true then "low" else "medium")), ("tone", .str (if (includes prompt "fun" || includes prompt "creative" || includes prompt "exciting") = true then "enthusiastic" else if (includes prompt "serious" || includes prompt "professional" || includes prompt "formal") = true then "formal" else "neutral"))]), ("words", .arr (words.map Val.str)), ("prompt", .str prompt)], .normal) := by
    rw [exec_ifThen toLowerCase call g [("categories", .obj (categories.map (fun row => (row.1, .arr (row.2.map Val.str))))), ("analysis", .obj [("topic", .str (orElse words.head? "topic")), ("category", .str (categorize prompt categories "")), ("keywords", .arr (((words.filter isKeyword).take 5).map Val.str)), ("complexity", .str (if (decide (words.length > 10) || includes prompt "advanced" || includes prompt "complex") = true then "high" else if decide (words.length < 5) = true then "low" else "medium")), ("tone", .str "neutral")]), ("words", .arr (words.map Val.str)), ("prompt", .str prompt)] _ _ _ _
      (eval_includes_any3 toLowerCase g [("categories", .obj (categories.map (fun row => (row.1, .arr (row.2.map Val.str))))), ("analysis", .obj [("topic", .str (orElse words.head? "topic")), ("category", .str (categorize prompt categories "")), ("keywords", .arr (((words.filter isKeyword).take 5).map Val.str)), ("complexity", .str (if (decide (words.length > 10) || includes prompt "advanced" || includes prompt "complex") = true then "high" else if decide (words.length < 5) = true then "low" else "medium")), ("tone", .str "neutral")]), ("words", .arr (words.map Val.str)), ("prompt", .str prompt)] prompt "fun" "creative" "exciting" rfl),
      exec_ifThen toLowerCase call g [("categories", .obj (categories.map (fun row => (row.1, .arr (row.2.map Val.str))))), ("analysis", .obj [("topic", .str (orElse words.head? "topic")), ("category", .str (categorize prompt categories "")), ("keywords", .arr (((words.filter isKeyword).take 5).map Val.str)), ("complexity", .str (if (decide (words.length > 10) || includes prompt "advanced" || includes prompt "complex") = true then "high" else if decide (words.length < 5) = true then "low" else "medium")), ("tone", .str "neutral")]), ("words", .arr (words.map Val.str)), ("prompt", .str prompt)] _ _ _ _
        (eval_includes_any3 toLowerCase g [("categories", .obj (categories.map (fun row => (row.1, .arr (row.2.map Val.str))))), ("analysis", .obj [("topic", .str (orElse words.head? "topic")), ("category", .str (categorize prompt categories "")), ("keywords", .arr (((words.filter isKeyword).take 5).map Val.str)), ("complexity", .str (if (decide (words.length > 10) || includes prompt "advanced" || includes prompt "complex") = true then "high" else if decide (words.length < 5) = true then "low" else "medium")), ("tone", .str "neutral")]), ("words", .arr (words.map Val.str)), ("prompt", .str prompt)] prompt "serious" "professional" "formal"
          rfl)]
    cases includes prompt "fun" || includes prompt "creative" || includes prompt "exciting"
      <;> cases includes prompt "serious" || includes prompt "professional"
        || includes prompt "formal" <;> rfl
  have h8 : exec toLowerCase call g [("categories", .obj (categories.map (fun row => (row.1, .arr (row.2.map Val.str))))), ("analysis", .obj [("topic", .str (orElse words.head? "topic")), ("category", .str (categorize prompt categories "")), ("keywords", .arr (((words.filter isKeyword).take 5).map Val.str)), ("complexity", .str (if (decide (words.length > 10) || includes prompt "advanced" || includes prompt "complex") = true then "high" else if decide (words.length < 5) = true then "low" else "medium")), ("tone", .str (if (includes prompt "fun" || includes prompt "creative" || includes prompt "exciting") = true then "enthusiastic" else if (includes prompt "serious" || includes prompt "professional" || includes prompt "formal") = true then "formal" else "neutral"))]), ("words", .arr (words.map Val.str)), ("prompt", .str prompt)] (.ret (.var "analysis")) =
      some (g, [("categories", .obj (categories.map (fun row => (row.1, .arr (row.2.map Val.str))))), ("analysis", .obj [("topic", .str (orElse words.head? "topic")), ("category", .str (categorize prompt categories "")), ("keywords", .arr (((words.filter isKeyword).take 5).map Val.str)), ("complexity", .str (if (decide (words.length > 10) || includes prompt "advanced" || includes prompt "complex") = true then "high" else if decide (words.length < 5) = true then "low" else "medium")), ("tone", .str (if (includes prompt "fun" || includes prompt "creative" || includes prompt "exciting") = true then "enthusiastic" else if (includes prompt "serious" || includes prompt "professional" || includes prompt "formal") = true then "formal" else "neutral"))]), ("words", .arr (words.map Val.str)), ("prompt", .str prompt)], .ret (.obj [("topic", .str (orElse words.head? "topic")), ("category", .str (categorize prompt categories "")), ("keywords", .arr (((words.filter isKeyword).take 5).map Val.str)), ("complexity", .str (if (decide (words.length > 10) || includes prompt "advanced" || includes prompt "complex") = true then "high" else if decide (words.length < 5) = true then "low" else "medium")), ("tone", .str (if (includes prompt "fun" || includes prompt "creative" || includes prompt "exciting") = true then "enthusiastic" else if (includes prompt "serious" || includes prompt "professional" || includes prompt "formal") = true then "formal" else "neutral"))])) :=
    exec_ret toLowerCase call g [("categories", .obj (categories.map (fun row => (row.1, .arr (row.2.map Val.str))))), ("analysis", .obj [("topic", .str (orElse words.head? "topic")), ("category", .str (categorize prompt categories "")), ("keywords", .arr (((words.filter isKeyword).take 5).map Val.str)), ("complexity", .str (if (decide (words.length > 10) || includes prompt "advanced" || includes prompt "complex") = true then "high" else if decide (words.length < 5) = true then "low" else "medium")), ("tone", .str (if (includes prompt "fun" || includes prompt "creative" || includes prompt "exciting") = true then "enthusiastic" else if (includes prompt "serious" || includes prompt "professional" || includes prompt "formal") = true then "formal" else "neutral"))]), ("words", .arr (words.map Val.str)), ("prompt", .str prompt)] _ _
      (eval_var toLowerCase g [("categories", .obj (categories.map (fun row => (row.1, .arr (row.2.map Val.str))))), ("analysis", .obj [("topic", .str (orElse words.head? "topic")), ("category", .str (categorize prompt categories "")), ("keywords", .arr (((words.filter isKeyword).take 5).map Val.str)), ("complexity", .str (if (decide (words.length > 10) || includes prompt "advanced" || includes prompt "complex") = true then "high" else if decide (words.length < 5) = true then "low" else "medium")), ("tone", .str (if (includes prompt "fun" || includes prompt "creative" || includes prompt "exciting") = true then "enthusiastic" else if (includes prompt "serious" || includes prompt "professional" || includes prompt "formal") = true then "formal" else "neutral"))]), ("words", .arr (words.map Val.str)), ("prompt", .str prompt)] "analysis" _ rfl)
  have hbody := (exec_seq toLowerCase call g _ _ _ g _ h1).trans
    ((exec_seq toLowerCase call g _ _ _ g _ h2).trans
      ((exec_seq toLowerCase call g _ _ _ g _ h3).trans
        ((exec_seq toLowerCase call g _ _ _ g _ h4).trans
          ((exec_seq toLowerCase call g _ _ _ g _ h5).trans
            ((exec_seq toLowerCase call g _ _ _ g _ h6).trans
              ((exec_seq toLowerCase call g _ _ _ g _ h7).trans h8))))))
  have hrun := runFun_ret toLowerCase call g analyzePromptDef "prompt" "words" _ _ _ g _ rfl
    hbody
  rw [hrun]
  have heta : analysisVal (analyzePrompt prompt words) =
      .obj [ ("topic", .str (analyzePrompt prompt words).topic),
        ("category", .str (analyzePrompt prompt words).category),
        ("keywords", .arr ((analyzePrompt prompt words).keywords.map Val.str)),
        ("complexity", .str (analyzePrompt prompt words).complexity),
        ("tone", .str (analyzePrompt prompt words).tone) ] := rfl
  rw [heta, analyzePrompt_topic, analyzePrompt_category, analyzePrompt_keywords,
    analyzePrompt_complexity, analyzePrompt_tone]
  simp only [decide_eq_true_eq]

/-! ### `generateAIText` -/

theorem exec_declCall (toLowerCase : String → String)
    (call : String → AppState → Val → Val → Option (AppState × Val)) (g : AppState)
    (env : Env) (x f : String) (a b : Expr) (va vb : Val) (g' : AppState) (r : Val)
    (ha : eval toLowerCase g env a = some va) (hb : eval toLowerCase g env b = some vb)
    (hc : call f g va vb = some (g', r)) :
    exec toLowerCase call g env (.declCall x f a b) = some (g', (x, r) :: env, .normal) := by
  rw [exec, ha, hb]
  simp only [hc, Option.map_some']

theorem exec_assignCall (toLowerCase : String → String)
    (call : String → AppState → Val → Val → Option (AppState × Val)) (g : AppState)
    (env : Env) (x f : String) (a b : Expr) (va vb : Val) (g' : AppState) (r : Val)
    (ha : eval toLowerCase g env a = some va) (hb : eval toLowerCase g env b = some vb)
    (hc : call f g va vb = some (g', r)) :
    exec toLowerCase call g env (.assignCall x f a b) =
      (assignVar g' env x r).map (fun q => (q.1, q.2, .normal)) := by
  rw [exec, ha, hb]
  simp only [hc]

theorem exec_style_dispatch (toLowerCase : String → String) (g : AppState)
    (prompt type : String) :
    exec toLowerCase (callDeclared toLowerCase) g [("generatedText", .str ""), ("promptAnalysis", analysisVal (promptAnalysisOf toLowerCase prompt)), ("words", .arr ((tokenize (toLowerCase (trim prompt))).map Val.str)), ("cleanPrompt", .str (toLowerCase (trim prompt))), ("type", .str type), ("prompt", .str prompt)]
      (.ifThen (.strictEq (.var "type") (.str "creative"))
        (.assignCall "generatedText" "generateCreativeText" (.var "prompt") (.var "promptAnalysis"))
        (.ifThen (.strictEq (.var "type") (.str "professional"))
          (.assignCall "generatedText" "generateProfessionalText" (.var "prompt") (.var "promptAnalysis"))
          (.ifThen (.strictEq (.var "type") (.str "casual"))
            (.assignCall "generatedText" "generateCasualText" (.var "prompt") (.var "promptAnalysis"))
            (.ifThen (.strictEq (.var "type") (.str "academic"))
              (.assignCall "generatedText" "generateAcademicText" (.var "prompt") (.var "promptAnalysis"))
              .skip)))) =
      some (g, [("generatedText", resultVal (promptAnalysisOf toLowerCase prompt).category (generateAIText toLowerCase prompt type)), ("promptAnalysis", analysisVal (promptAnalysisOf toLowerCase prompt)), ("words", .arr ((tokenize (toLowerCase (trim prompt))).map Val.str)), ("cleanPrompt", .str (toLowerCase (trim prompt))), ("type", .str type), ("prompt", .str prompt)], .normal) := by
  rw [exec_ifThen toLowerCase (callDeclared toLowerCase) g [("generatedText", .str ""), ("promptAnalysis", analysisVal (promptAnalysisOf toLowerCase prompt)), ("words", .arr ((tokenize (toLowerCase (trim prompt))).map Val.str)), ("cleanPrompt", .str (toLowerCase (trim prompt))), ("type", .str type), ("prompt", .str prompt)] _ _ _ _
      (eval_strictEq_str toLowerCase g [("generatedText", .str ""), ("promptAnalysis", analysisVal (promptAnalysisOf toLowerCase prompt)), ("words", .arr ((tokenize (toLowerCase (trim prompt))).map Val.str)), ("cleanPrompt", .str (toLowerCase (trim prompt))), ("type", .str type), ("prompt", .str prompt)] (.var "type") (.str "creative") type "creative"
        (eval_var toLowerCase g [("generatedText", .str ""), ("promptAnalysis", analysisVal (promptAnalysisOf toLowerCase prompt)), ("words", .arr ((tokenize (toLowerCase (trim prompt))).map Val.str)), ("cleanPrompt", .str (toLowerCase (trim prompt))), ("type", .str type), ("prompt", .str prompt)] "type" _ rfl) (by rw [eval])),
    exec_ifThen toLowerCase (callDeclared toLowerCase) g [("generatedText", .str ""), ("promptAnalysis", analysisVal (promptAnalysisOf toLowerCase prompt)), ("words", .arr ((tokenize (toLowerCase (trim prompt))).map Val.str)), ("cleanPrompt", .str (toLowerCase (trim prompt))), ("type", .str type), ("prompt", .str prompt)] _ _ _ _
      (eval_strictEq_str toLowerCase g [("generatedText", .str ""), ("promptAnalysis", analysisVal (promptAnalysisOf toLowerCase prompt)), ("words", .arr ((tokenize (toLowerCase (trim prompt))).map Val.str)), ("cleanPrompt", .str (toLowerCase (trim prompt))), ("type", .str type), ("prompt", .str prompt)] (.var "type") (.str "professional") type "professional"
        (eval_var toLowerCase g [("generatedText", .str ""), ("promptAnalysis", analysisVal (promptAnalysisOf toLowerCase prompt)), ("words", .arr ((tokenize (toLowerCase (trim prompt))).map Val.str)), ("cleanPrompt", .str (toLowerCase (trim prompt))), ("type", .str type), ("prompt", .str prompt)] "type" _ rfl) (by rw [eval])),
    exec_ifThen toLowerCase (callDeclared toLowerCase) g [("generatedText", .str ""), ("promptAnalysis", analysisVal (promptAnalysisOf toLowerCase prompt)), ("words", .arr ((tokenize (toLowerCase (trim prompt))).map Val.str)), ("cleanPrompt", .str (toLowerCase (trim prompt))), ("type", .str type), ("prompt", .str prompt)] _ _ _ _
      (eval_strictEq_str toLowerCase g [("generatedText", .str ""), ("promptAnalysis", analysisVal (promptAnalysisOf toLowerCase prompt)), ("words", .arr ((tokenize (toLowerCase (trim prompt))).map Val.str)), ("cleanPrompt", .str (toLowerCase (trim prompt))), ("type", .str type), ("prompt", .str prompt)] (.var "type") (.str "casual") type "casual"
        (eval_var toLowerCase g [("generatedText", .str ""), ("promptAnalysis", analysisVal (promptAnalysisOf toLowerCase prompt)), ("words", .arr ((tokenize (toLowerCase (trim prompt))).map Val.str)), ("cleanPrompt", .str (toLowerCase (trim prompt))), ("type", .str type), ("prompt", .str prompt)] "type" _ rfl) (by rw [eval])),
    exec_ifThen toLowerCase (callDeclared toLowerCase) g [("generatedText", .str ""), ("promptAnalysis", analysisVal (promptAnalysisOf toLowerCase prompt)), ("words", .arr ((tokenize (toLowerCase (trim prompt))).map Val.str)), ("cleanPrompt", .str (toLowerCase (trim prompt))), ("type", .str type), ("prompt", .str prompt)] _ _ _ _
      (eval_strictEq_str toLowerCase g [("generatedText", .str ""), ("promptAnalysis", analysisVal (promptAnalysisOf toLowerCase prompt)), ("words", .arr ((tokenize (toLowerCase (trim prompt))).map Val.str)), ("cleanPrompt", .str (toLowerCase (trim prompt))), ("type", .str type), ("prompt", .str prompt)] (.var "type") (.str "academic") type "academic"
        (eval_var toLowerCase g [("generatedText", .str ""), ("promptAnalysis", analysisVal (promptAnalysisOf toLowerCase prompt)), ("words", .arr ((tokenize (toLowerCase (trim prompt))).map Val.str)), ("cleanPrompt", .str (toLowerCase (trim prompt))), ("type", .str type), ("prompt", .str prompt)] "type" _ rfl) (by rw [eval]))]
  by_cases h1 : type = "creative"
  · subst h1
    rw [if_pos (by decide)]
    have hcall : callDeclared toLowerCase "generateCreativeText" g (.str prompt)
        (analysisVal (promptAnalysisOf toLowerCase prompt)) =
        some (g, resultVal (promptAnalysisOf toLowerCase prompt).category
          (generateCreativeText prompt (promptAnalysisOf toLowerCase prompt))) :=
      run_generateCreativeText toLowerCase g prompt (promptAnalysisOf toLowerCase prompt)
    have hgen : generateAIText toLowerCase prompt "creative" =
        generateCreativeText prompt (promptAnalysisOf toLowerCase prompt) := rfl
    rw [hgen]
    exact (exec_assignCall toLowerCase (callDeclared toLowerCase) g [("generatedText", .str ""), ("promptAnalysis", analysisVal (promptAnalysisOf toLowerCase prompt)), ("words", .arr ((tokenize (toLowerCase (trim prompt))).map Val.str)), ("cleanPrompt", .str (toLowerCase (trim prompt))), ("type", .str "creative"), ("prompt", .str prompt)]
      "generatedText" "generateCreativeText" (.var "prompt") (.var "promptAnalysis") _ _ g _
      (eval_var toLowerCase g [("generatedText", .str ""), ("promptAnalysis", analysisVal (promptAnalysisOf toLowerCase prompt)), ("words", .arr ((tokenize (toLowerCase (trim prompt))).map Val.str)), ("cleanPrompt", .str (toLowerCase (trim prompt))), ("type", .str "creative"), ("prompt", .str prompt)] "prompt" _ rfl)
      (eval_var toLowerCase g [("generatedText", .str ""), ("promptAnalysis", analysisVal (promptAnalysisOf toLowerCase prompt)), ("words", .arr ((tokenize (toLowerCase (trim prompt))).map Val.str)), ("cleanPrompt", .str (toLowerCase (trim prompt))), ("type", .str "creative"), ("prompt", .str prompt)] "promptAnalysis" _ rfl) hcall).trans rfl
  rw [if_neg (by simpa using h1)]
  by_cases h2 : type = "professional"
  · subst h2
    rw [if_pos (by decide)]
    have hcall : callDeclared toLowerCase "generateProfessionalText" g (.str prompt)
        (analysisVal (promptAnalysisOf toLowerCase prompt)) =
        some (g, resultVal (promptAnalysisOf toLowerCase prompt).category
          (generateProfessionalText prompt (promptAnalysisOf toLowerCase prompt))) :=
      run_generateProfessionalText toLowerCase g prompt (promptAnalysisOf toLowerCase prompt)
    have hgen : generateAIText toLowerCase prompt "professional" =
        generateProfessionalText prompt (promptAnalysisOf toLowerCase prompt) := rfl
    rw [hgen]
    exact (exec_assignCall toLowerCase (callDeclared toLowerCase) g [("generatedText", .str ""), ("promptAnalysis", analysisVal (promptAnalysisOf toLowerCase prompt)), ("words", .arr ((tokenize (toLowerCase (trim prompt))).map Val.str)), ("cleanPrompt", .str (toLowerCase (trim prompt))), ("type", .str "professional"), ("prompt", .str prompt)]
      "generatedText" "generateProfessionalText" (.var "prompt") (.var "promptAnalysis") _ _ g _
      (eval_var toLowerCase g [("generatedText", .str ""), ("promptAnalysis", analysisVal (promptAnalysisOf toLowerCase prompt)), ("words", .arr ((tokenize (toLowerCase (trim prompt))).map Val.str)), ("cleanPrompt", .str (toLowerCase (trim prompt))), ("type", .str "professional"), ("prompt", .str prompt)] "prompt" _ rfl)
      (eval_var toLowerCase g [("generatedText", .str ""), ("promptAnalysis", analysisVal (promptAnalysisOf toLowerCase prompt)), ("words", .arr ((tokenize (toLowerCase (trim prompt))).map Val.str)), ("cleanPrompt", .str (toLowerCase (trim prompt))), ("type", .str "professional"), ("prompt", .str prompt)] "promptAnalysis" _ rfl) hcall).trans rfl
  rw [if_neg (by simpa using h2)]
  by_cases h3 : type = "casual"
  · subst h3
    rw [if_pos (by decide)]
    have hcall : callDeclared toLowerCase "generateCasualText" g (.str prompt)
        (analysisVal (promptAnalysisOf toLowerCase prompt)) =
        some (g, resultVal (promptAnalysisOf toLowerCase prompt).category
          (generateCasualText prompt (promptAnalysisOf toLowerCase prompt))) :=
      run_generateCasualText toLowerCase g prompt (promptAnalysisOf toLowerCase prompt)
    have hgen : generateAIText toLowerCase prompt "casual" =
        generateCasualText prompt (promptAnalysisOf toLowerCase prompt) := rfl
    rw [hgen]
    exact (exec_assignCall toLowerCase (callDeclared toLowerCase) g [("generatedText", .str ""), ("promptAnalysis", analysisVal (promptAnalysisOf toLowerCase prompt)), ("words", .arr ((tokenize (toLowerCase (trim prompt))).map Val.str)), ("cleanPrompt", .str (toLowerCase (trim prompt))), ("type", .str "casual"), ("prompt", .str prompt)]
      "generatedText" "generateCasualText" (.var "prompt") (.var "promptAnalysis") _ _ g _
      (eval_var toLowerCase g [("generatedText", .str ""), ("promptAnalysis", analysisVal (promptAnalysisOf toLowerCase prompt)), ("words", .arr ((tokenize (toLowerCase (trim prompt))).map Val.str)), ("cleanPrompt", .str (toLowerCase (trim prompt))), ("type", .str "casual"), ("prompt", .str prompt)] "prompt" _ rfl)
      (eval_var toLowerCase g [("generatedText", .str ""), ("promptAnalysis", analysisVal (promptAnalysisOf toLowerCase prompt)), ("words", .arr ((tokenize (toLowerCase (trim prompt))).map Val.str)), ("cleanPrompt", .str (toLowerCase (trim prompt))), ("type", .str "casual"), ("prompt", .str prompt)] "promptAnalysis" _ rfl) hcall).trans rfl
  rw [if_neg (by simpa using h3)]
  by_cases h4 : type = "academic"
  · subst h4
    rw [if_pos (by decide)]
    have hcall : callDeclared toLowerCase "generateAcademicText" g (.str prompt)
        (analysisVal (promptAnalysisOf toLowerCase prompt)) =
        some (g, resultVal (promptAnalysisOf toLowerCase prompt).category
          (generateAcademicText prompt (promptAnalysisOf toLowerCase prompt))) :=
      run_generateAcademicText toLowerCase g prompt (promptAnalysisOf toLowerCase prompt)
    have hgen : generateAIText toLowerCase prompt "academic" =
        generateAcademicText prompt (promptAnalysisOf toLowerCase prompt) := rfl
    rw [hgen]
    exact (exec_assignCall toLowerCase (callDeclared toLowerCase) g [("generatedText", .str ""), ("promptAnalysis", analysisVal (promptAnalysisOf toLowerCase prompt)), ("words", .arr ((tokenize (toLowerCase (trim prompt))).map Val.str)), ("cleanPrompt", .str (toLowerCase (trim prompt))), ("type", .str "academic"), ("prompt", .str prompt)]
      "generatedText" "generateAcademicText" (.var "prompt") (.var "promptAnalysis") _ _ g _
      (eval_var toLowerCase g [("generatedText", .str ""), ("promptAnalysis", analysisVal (promptAnalysisOf toLowerCase prompt)), ("words", .arr ((tokenize (toLowerCase (trim prompt))).map Val.str)), ("cleanPrompt", .str (toLowerCase (trim prompt))), ("type", .str "academic"), ("prompt", .str prompt)] "prompt" _ rfl)
      (eval_var toLowerCase g [("generatedText", .str ""), ("promptAnalysis", analysisVal (promptAnalysisOf toLowerCase prompt)), ("words", .arr ((tokenize (toLowerCase (trim prompt))).map Val.str)), ("cleanPrompt", .str (toLowerCase (trim prompt))), ("type", .str "academic"), ("prompt", .str prompt)] "promptAnalysis" _ rfl) hcall).trans rfl
  rw [if_neg (by simpa using h4)]
  have hgen : generateAIText toLowerCase prompt type = some "" := by
    unfold generateAIText
    simp only [if_neg h1, if_neg h2, if_neg h3, if_neg h4]
  rw [hgen, exec]
  rfl

theorem run_generateAIText (toLowerCase : String → String) (g : AppState)
    (prompt type : String) :
    runFun toLowerCase (callDeclared toLowerCase) g generateAITextDef (.str prompt)
        (.str type) =
      some (g, resultVal (promptAnalysisOf toLowerCase prompt).category
        (generateAIText toLowerCase prompt type)) := by
  have h1 : exec toLowerCase (callDeclared toLowerCase) g [("type", .str type), ("prompt", .str prompt)]
      (.decl "cleanPrompt" (.toLowerCase (.trim (.var "prompt")))) =
      some (g, [("cleanPrompt", .str (toLowerCase (trim prompt))), ("type", .str type), ("prompt", .str prompt)], .normal) :=
    exec_decl toLowerCase (callDeclared toLowerCase) g [("type", .str type), ("prompt", .str prompt)] "cleanPrompt" _ _ rfl
  have hsplit : eval toLowerCase g [("cleanPrompt", .str (toLowerCase (trim prompt))), ("type", .str type), ("prompt", .str prompt)] (.split (.var "cleanPrompt") (.str " ")) =
      some (.arr ((splitSpace (toLowerCase (trim prompt))).map Val.str)) := rfl
  have h2 : exec toLowerCase (callDeclared toLowerCase) g [("cleanPrompt", .str (toLowerCase (trim prompt))), ("type", .str type), ("prompt", .str prompt)]
      (.decl "words"
        (.filter (.split (.var "cleanPrompt") (.str " ")) "word"
          (.gt (.member (.var "word") "length") (.num 2)))) =
      some (g, [("words", .arr ((tokenize (toLowerCase (trim prompt))).map Val.str)), ("cleanPrompt", .str (toLowerCase (trim prompt))), ("type", .str type), ("prompt", .str prompt)], .normal) :=
    exec_decl toLowerCase (callDeclared toLowerCase) g [("cleanPrompt", .str (toLowerCase (trim prompt))), ("type", .str type), ("prompt", .str prompt)] "words" _ _
      (eval_filter toLowerCase g [("cleanPrompt", .str (toLowerCase (trim prompt))), ("type", .str type), ("prompt", .str prompt)] (.split (.var "cleanPrompt") (.str " ")) "word"
        (.gt (.member (.var "word") "length") (.num 2))
        (splitSpace (toLowerCase (trim prompt))) (fun word => decide (jsLength word > 2))
        hsplit
        (fun w => ⟨_, eval_gt toLowerCase g (("word", .str w) :: [("cleanPrompt", .str (toLowerCase (trim prompt))), ("type", .str type), ("prompt", .str prompt)])
          (.member (.var "word") "length") (.num 2) _ 2
          (eval_length_str toLowerCase g (("word", .str w) :: [("cleanPrompt", .str (toLowerCase (trim prompt))), ("type", .str type), ("prompt", .str prompt)]) (.var "word") w
            (eval_var toLowerCase g (("word", .str w) :: [("cleanPrompt", .str (toLowerCase (trim prompt))), ("type", .str type), ("prompt", .str prompt)]) "word" _ rfl))
          (by rw [eval]), rfl⟩))
  have h3 : exec toLowerCase (callDeclared toLowerCase) g [("words", .arr ((tokenize (toLowerCase (trim prompt))).map Val.str)), ("cleanPrompt", .str (toLowerCase (trim prompt))), ("type", .str type), ("prompt", .str prompt)]
      (.declCall "promptAnalysis" "analyzePrompt" (.var "cleanPrompt") (.var "words")) =
      some (g, [("promptAnalysis", analysisVal (promptAnalysisOf toLowerCase prompt)), ("words", .arr ((tokenize (toLowerCase (trim prompt))).map Val.str)), ("cleanPrompt", .str (toLowerCase (trim prompt))), ("type", .str type), ("prompt", .str prompt)], .normal) :=
    exec_declCall toLowerCase (callDeclared toLowerCase) g [("words", .arr ((tokenize (toLowerCase (trim prompt))).map Val.str)), ("cleanPrompt", .str (toLowerCase (trim prompt))), ("type", .str type), ("prompt", .str prompt)] "promptAnalysis"
      "analyzePrompt" (.var "cleanPrompt") (.var "words") _ _ g _
      (eval_var toLowerCase g [("words", .arr ((tokenize (toLowerCase (trim prompt))).map Val.str)), ("cleanPrompt", .str (toLowerCase (trim prompt))), ("type", .str type), ("prompt", .str prompt)] "cleanPrompt" _ rfl)
      (eval_var toLowerCase g [("words", .arr ((tokenize (toLowerCase (trim prompt))).map Val.str)), ("cleanPrompt", .str (toLowerCase (trim prompt))), ("type", .str type), ("prompt", .str prompt)] "words" _ rfl)
      (run_analyzePrompt toLowerCase noCall g (toLowerCase (trim prompt))
        (tokenize (toLowerCase (trim prompt))))
  have h4 : exec toLowerCase (callDeclared toLowerCase) g [("promptAnalysis", analysisVal (promptAnalysisOf toLowerCase prompt)), ("words", .arr ((tokenize (toLowerCase (trim prompt))).map Val.str)), ("cleanPrompt", .str (toLowerCase (trim prompt))), ("type", .str type), ("prompt", .str prompt)]
      (.decl "generatedText" (.str "")) =
      some (g, [("generatedText", .str ""), ("promptAnalysis", analysisVal (promptAnalysisOf toLowerCase prompt)), ("words", .arr ((tokenize (toLowerCase (trim prompt))).map Val.str)), ("cleanPrompt", .str (toLowerCase (trim prompt))), ("type", .str type), ("prompt", .str prompt)], .normal) :=
    exec_decl toLowerCase (callDeclared toLowerCase) g [("promptAnalysis", analysisVal (promptAnalysisOf toLowerCase prompt)), ("words", .arr ((tokenize (toLowerCase (trim prompt))).map Val.str)), ("cleanPrompt", .str (toLowerCase (trim prompt))), ("type", .str type), ("prompt", .str prompt)] "generatedText" _ _ rfl
  have h5 := exec_style_dispatch toLowerCase g prompt type
  have h6 : exec toLowerCase (callDeclared toLowerCase) g [("generatedText", resultVal (promptAnalysisOf toLowerCase prompt).category (generateAIText toLowerCase prompt type)), ("promptAnalysis", analysisVal (promptAnalysisOf toLowerCase prompt)), ("words", .arr ((tokenize (toLowerCase (trim prompt))).map Val.str)), ("cleanPrompt", .str (toLowerCase (trim prompt))), ("type", .str type), ("prompt", .str prompt)] (.awaitTimeout 1500) =
      some (g, [("generatedText", resultVal (promptAnalysisOf toLowerCase prompt).category (generateAIText toLowerCase prompt type)), ("promptAnalysis", analysisVal (promptAnalysisOf toLowerCase prompt)), ("words", .arr ((tokenize (toLowerCase (trim prompt))).map Val.str)), ("cleanPrompt", .str (toLowerCase (trim prompt))), ("type", .str type), ("prompt", .str prompt)], .normal) := by
    rw [exec]
  have h7 : exec toLowerCase (callDeclared toLowerCase) g [("generatedText", resultVal (promptAnalysisOf toLowerCase prompt).category (generateAIText toLowerCase prompt type)), ("promptAnalysis", analysisVal (promptAnalysisOf toLowerCase prompt)), ("words", .arr ((tokenize (toLowerCase (trim prompt))).map Val.str)), ("cleanPrompt", .str (toLowerCase (trim prompt))), ("type", .str type), ("prompt", .str prompt)]
      (.ret (.var "generatedText")) =
      some (g, [("generatedText", resultVal (promptAnalysisOf toLowerCase prompt).category (generateAIText toLowerCase prompt type)), ("promptAnalysis", analysisVal (promptAnalysisOf toLowerCase prompt)), ("words", .arr ((tokenize (toLowerCase (trim prompt))).map Val.str)), ("cleanPrompt", .str (toLowerCase (trim prompt))), ("type", .str type), ("prompt", .str prompt)], .ret (resultVal (promptAnalysisOf toLowerCase prompt).category (generateAIText toLowerCase prompt type))) :=
    exec_ret toLowerCase (callDeclared toLowerCase) g [("generatedText", resultVal (promptAnalysisOf toLowerCase prompt).category (generateAIText toLowerCase prompt type)), ("promptAnalysis", analysisVal (promptAnalysisOf toLowerCase prompt)), ("words", .arr ((tokenize (toLowerCase (trim prompt))).map Val.str)), ("cleanPrompt", .str (toLowerCase (trim prompt))), ("type", .str type), ("prompt", .str prompt)] _ _
      (eval_var toLowerCase g [("generatedText", resultVal (promptAnalysisOf toLowerCase prompt).category (generateAIText toLowerCase prompt type)), ("promptAnalysis", analysisVal (promptAnalysisOf toLowerCase prompt)), ("words", .arr ((tokenize (toLowerCase (trim prompt))).map Val.str)), ("cleanPrompt", .str (toLowerCase (trim prompt))), ("type", .str type), ("prompt", .str prompt)] "generatedText" _ rfl)
  have hbody := (exec_seq toLowerCase (callDeclared toLowerCase) g _ _ _ g _ h1).trans
    ((exec_seq toLowerCase (callDeclared toLowerCase) g _ _ _ g _ h2).trans
      ((exec_seq toLowerCase (callDeclared toLowerCase) g _ _ _ g _ h3).trans
        ((exec_seq toLowerCase (callDeclared toLowerCase) g _ _ _ g _ h4).trans
          ((exec_seq toLowerCase (callDeclared toLowerCase) g _ _ _ g _ h5).trans
            ((exec_seq toLowerCase (callDeclared toLowerCase) g _ _ _ g _ h6).trans h7)))))
  exact runFun_ret toLowerCase (callDeclared toLowerCase) g generateAITextDef "prompt" "type"
    _ _ _ g _ rfl hbody

/-! ### What the bodies read and assign

The two facts below show what running a body can observe: an identifier without a local
binding is read from the ambient state, and an assignment to such an identifier changes
the ambient state.  A body whose value and final state are the same in every ambient
state therefore reads and assigns none of the ambient variables on the path it takes. -/

/-- A body `return selectedTextType;` returns the ambient variable, not an argument. -/
theorem runFun_reads_ambient (toLowerCase : String → String) (g : AppState) (a b : Val) :
    runFun toLowerCase noCall g
        { params := ["prompt", "type"], body := .ret (.var "selectedTextType") } a b =
      some (g, .str g.selectedTextType) := by
  simp [runFun, exec, eval, lookupVar, ambient, List.lookup]

/-- A body `selectedTextType = type;` changes the ambient variable. -/
theorem runFun_assigns_ambient (toLowerCase : String → String) (g : AppState) (a : Val)
    (type : String) :
    runFun toLowerCase noCall g
        { params := ["prompt", "type"], body := .assign "selectedTextType" (.var "type") }
        a (.str type) =
      some ({ g with selectedTextType := type }, .undefined) := by
  simp [runFun, exec, eval, lookupVar, assignVar, setLocal, setAmbient, List.lookup]

/-- C21: `analyzePrompt`, the four generators and `generateAIText` are pure functions of
their arguments.  Each body, run as it is written in script.js with every identifier
resolved among the parameters and local declarations first and among the ambient variables
`isGenerating`, `selectedStyle`, `selectedTextType` and `currentTab` after that, returns
in every ambient state `g` the value that the arguments alone determine and leaves `g` as
it was.  So a call in any other ambient state `g'`, and a second call in the state the
first one left, return the same value.  The style `generateAIText` uses is its argument
`type`, whatever `selectedTextType` holds; `selectedTextType` reaches it only as the
argument that `handleTextGenerateClick` passes. -/
theorem functions_are_pure (toLowerCase : String → String) (g g' : AppState)
    (prompt type : String) (words : List String) (analysis : PromptAnalysis) :
    (runFun toLowerCase noCall g analyzePromptDef (.str prompt) (.arr (words.map Val.str)) =
        some (g, analysisVal (analyzePrompt prompt words)) ∧
      runFun toLowerCase noCall g generateCreativeTextDef (.str prompt)
          (analysisVal analysis) =
        some (g, resultVal analysis.category (generateCreativeText prompt analysis)) ∧
      runFun toLowerCase noCall g generateProfessionalTextDef (.str prompt)
          (analysisVal analysis) =
        some (g, resultVal analysis.category (generateProfessionalText prompt analysis)) ∧
      runFun toLowerCase noCall g generateCasualTextDef (.str prompt)
          (analysisVal analysis) =
        some (g, resultVal analysis.category (generateCasualText prompt analysis)) ∧
      runFun toLowerCase noCall g generateAcademicTextDef (.str prompt)
          (analysisVal analysis) =
        some (g, resultVal analysis.category (generateAcademicText prompt analysis)) ∧
      runFun toLowerCase (callDeclared toLowerCase) g generateAITextDef (.str prompt)
          (.str type) =
        some (g, resultVal (promptAnalysisOf toLowerCase prompt).category
          (generateAIText toLowerCase prompt type))) ∧
    ((runFun toLowerCase noCall g analyzePromptDef (.str prompt)
          (.arr (words.map Val.str))).map Prod.snd =
        (runFun toLowerCase noCall g' analyzePromptDef (.str prompt)
          (.arr (words.map Val.str))).map Prod.snd ∧
      (runFun toLowerCase noCall g generateCreativeTextDef (.str prompt)
          (analysisVal analysis)).map Prod.snd =
        (runFun toLowerCase noCall g' generateCreativeTextDef (.str prompt)
          (analysisVal analysis)).map Prod.snd ∧
      (runFun toLowerCase noCall g generateProfessionalTextDef (.str prompt)
          (analysisVal analysis)).map Prod.snd =
        (runFun toLowerCase noCall g' generateProfessionalTextDef (.str prompt)
          (analysisVal analysis)).map Prod.snd ∧
      (runFun toLowerCase noCall g generateCasualTextDef (.str prompt)
          (analysisVal analysis)).map Prod.snd =
        (runFun toLowerCase noCall g' generateCasualTextDef (.str prompt)
          (analysisVal analysis)).map Prod.snd ∧
      (runFun toLowerCase noCall g generateAcademicTextDef (.str prompt)
          (analysisVal analysis)).map Prod.snd =
        (runFun toLowerCase noCall g' generateAcademicTextDef (.str prompt)
          (analysisVal analysis)).map Prod.snd ∧
      (runFun toLowerCase (callDeclared toLowerCase) g generateAITextDef (.str prompt)
          (.str type)).map Prod.snd =
        (runFun toLowerCase (callDeclared toLowerCase) g' generateAITextDef (.str prompt)
          (.str type)).map Prod.snd) ∧
    ((runFun toLowerCase (callDeclared toLowerCase) g generateAITextDef (.str prompt)
          (.str type)).bind
        (fun first => runFun toLowerCase (callDeclared toLowerCase) first.1
          generateAITextDef (.str prompt) (.str type)) =
      runFun toLowerCase (callDeclared toLowerCase) g generateAITextDef (.str prompt)
        (.str type)) ∧
    (∀ p t, (handleTextGenerateClick g).2 = some (p, t) → t = g.selectedTextType) := by
  refine ⟨⟨run_analyzePrompt toLowerCase noCall g prompt words,
    run_generateCreativeText toLowerCase g prompt analysis,
    run_generateProfessionalText toLowerCase g prompt analysis,
    run_generateCasualText toLowerCase g prompt analysis,
    run_generateAcademicText toLowerCase g prompt analysis,
    run_generateAIText toLowerCase g prompt type⟩, ⟨?_, ?_, ?_, ?_, ?_, ?_⟩, ?_, ?_⟩
  · rw [run_analyzePrompt toLowerCase noCall g, run_analyzePrompt toLowerCase noCall g']
    rfl
  · rw [run_generateCreativeText toLowerCase g, run_generateCreativeText toLowerCase g']
    rfl
  · rw [run_generateProfessionalText toLowerCase g,
      run_generateProfessionalText toLowerCase g']
    rfl
  · rw [run_generateCasualText toLowerCase g, run_generateCasualText toLowerCase g']
    rfl
  · rw [run_generateAcademicText toLowerCase g, run_generateAcademicText toLowerCase g']
    rfl
  · rw [run_generateAIText toLowerCase g, run_generateAIText toLowerCase g']
    rfl
  · rw [run_generateAIText toLowerCase g]
    exact run_generateAIText toLowerCase g prompt type
  · intro p t h
    rcases textClick_cases g with ⟨hnone, _⟩ | ⟨_, _, hsome, _⟩
    · rw [hnone] at h
      exact Option.noConfusion h
    · rw [hsome] at h
      simp only [Option.some.injEq, Prod.mk.injEq] at h
      exact h.2.symm

set_option maxRecDepth 1000000 in
/-- C21, at a concrete call: with `casual` selected, a click on the text button requests
`generateAIText("Build an App", "casual")`; run in that ambient state the call returns
the casual text for the technology category and leaves the state as it was; run with all
four ambient variables changed (`academic` selected) it returns the same value. -/
theorem functions_are_pure_witness :
    (handleTextGenerateClick
        { initialState with
          textPromptInput := "Build an App", selectedTextType := "casual" }).2 =
        some ("Build an App", "casual") ∧
      "casual" =
        ({ initialState with
            textPromptInput := "Build an App", selectedTextType := "casual" } :
          AppState).selectedTextType ∧
      runFun asciiToLowerCase (callDeclared asciiToLowerCase)
          { initialState with
            textPromptInput := "Build an App", selectedTextType := "casual" }
          generateAITextDef (.str "Build an App") (.str "casual") =
        some ({ initialState with
            textPromptInput := "Build an App", selectedTextType := "casual" },
          resultVal (promptAnalysisOf asciiToLowerCase "Build an App").category
            (generateAIText asciiToLowerCase "Build an App" "casual")) ∧
      resultVal (promptAnalysisOf asciiToLowerCase "Build an App").category
          (generateAIText asciiToLowerCase "Build an App" "casual") =
        .str (render "Build an App" (analyzePrompt "build an app" ["build", "app"])
          casualTechnology) ∧
      (runFun asciiToLowerCase (callDeclared asciiToLowerCase)
          { initialState with
            textPromptInput := "Build an App", selectedTextType := "casual" }
          generateAITextDef (.str "Build an App") (.str "casual")).map Prod.snd =
        (runFun asciiToLowerCase (callDeclared asciiToLowerCase)
          { initialState with
            isGenerating := true, selectedStyle := "anime",
            selectedTextType := "academic", currentTab := "text" }
          generateAITextDef (.str "Build an App") (.str "casual")).map Prod.snd :=
  ⟨by decide,
    (functions_are_pure asciiToLowerCase
      { initialState with
        textPromptInput := "Build an App", selectedTextType := "casual" }
      { initialState with
        isGenerating := true, selectedStyle := "anime",
        selectedTextType := "academic", currentTab := "text" }
      "Build an App" "casual" [] (analyzePrompt "" [])).2.2.2
      "Build an App" "casual" (by decide),
    (functions_are_pure asciiToLowerCase
      { initialState with
        textPromptInput := "Build an App", selectedTextType := "casual" }
      { initialState with
        isGenerating := true, selectedStyle := "anime",
        selectedTextType := "academic", currentTab := "text" }
      "Build an App" "casual" [] (analyzePrompt "" [])).1.2.2.2.2.2,
    congrArg (resultVal (promptAnalysisOf asciiToLowerCase "Build an App").category)
      (by decide : generateAIText asciiToLowerCase "Build an App" "casual" =
        some (render "Build an App" (analyzePrompt "build an app" ["build", "app"])
          casualTechnology)),
    (functions_are_pure asciiToLowerCase
      { initialState with
        textPromptInput := "Build an App", selectedTextType := "casual" }
      { initialState with
        isGenerating := true, selectedStyle := "anime",
        selectedTextType := "academic", currentTab := "text" }
      "Build an App" "casual" [] (analyzePrompt "" [])).2.1.2.2.2.2.2⟩

end ContentCreator
